import Mathlib

/-!
# The X11 stage window of mutter: a shallow embedding

The development follows `src/backends/x11/meta-stage-x11.c`.  A `MetaStageX11`
object is a record of the fields the C code reads and writes; the objects live
in a heap indexed by their address (`StagePtr`), because
`meta_stage_x11_translate_event` works on two pointers, the stage it is handed
and the stage the window registry resolves the event window to.  Every Xlib
call the code makes is appended to `World.requests` with the argument values
the code passes, in call order; nothing is ever removed from that trace.

C integers are mathematical integers here: the functions of this file only
assign and compare them, they do no arithmetic.  `int`, `long` and `Atom`
values are taken inside the range of their C type, so that the casts between
`int`, `long` and `Atom` keep the value.  The conversions that do not keep
the value are functions of their own: `guint_to_int` where a `guint` is
assigned to an `int`, `int_to_uint` where an `int` is passed for an
`unsigned int`, and `gfloat_to_int` where a `gfloat` is assigned to an `int`.
A `gfloat` is a rational number here, so an `int` converted to `gfloat`
keeps its value.
-/

namespace Mutter

/-! ## X11 data -/

/-- An X window identifier (`Window`). -/
abbrev Window := Nat

/-- An interned X atom (`Atom`). -/
abbrev Atom := Nat

/-- The address of a `MetaStageX11` object. -/
abbrev StagePtr := Nat

/-- The Xlib constant `None`: the absent resource. -/
def None : Window := 0

/-- The value of a `guint` after its assignment to an `int`: both have 32
bits, the bit pattern is kept, so a value above `INT_MAX` becomes negative. -/
def guint_to_int (n : Nat) : Int :=
  if n % 4294967296 < 2147483648 then ((n % 4294967296 : Nat) : Int)
  else ((n % 4294967296 : Nat) : Int) - 4294967296

/-- The value of an `int` passed for a parameter of type `unsigned int`: the
value modulo 2^32, so a negative value becomes a large positive one. -/
def int_to_uint (i : Int) : Nat := (i % 4294967296).toNat

/-- The value of a `gfloat` after its assignment to an `int`: the fraction is
discarded, which rounds toward zero.  C leaves the conversion undefined for a
value outside the range of `int`; here it is the truncated value throughout. -/
def gfloat_to_int (x : Rat) : Int := Int.tdiv x.num (x.den : Int)

/-- Event type codes of `X.h`. -/
def ClientMessage : Nat := 33

/-- The action code (`_NET_WM_STATE_REMOVE`) that unsets a state. -/
def NET_WM_STATE_REMOVE : Int := 0

/-- The action code (`_NET_WM_STATE_ADD`) that sets a state. -/
def NET_WM_STATE_ADD : Int := 1

/-- The action code (`_NET_WM_STATE_TOGGLE`) that toggles a state. -/
def NET_WM_STATE_TOGGLE : Int := 2

/-- Size hint flag of `Xutil.h`: the program gives a minimum size. -/
def PMinSize : Nat := 16

/-- Size hint flag of `Xutil.h`: the program gives a maximum size. -/
def PMaxSize : Nat := 32

/-- Flag of `XWMHints`: the `input` field is set. -/
def InputHint : Nat := 1

/-- Flag of `XWMHints`: the `initial_state` field is set. -/
def StateHint : Nat := 2

/-- The initial state `NormalState` of `Xutil.h`. -/
def NormalState : Nat := 1

/-- The property mode `PropModeReplace` of `X.h`. -/
def PropModeReplace : Nat := 0

/-- The predefined atom `XA_ATOM`. -/
def XA_ATOM : Atom := 4

/-- The predefined atom `XA_CARDINAL`. -/
def XA_CARDINAL : Atom := 6

/-- Input event masks of `X.h`. -/
def KeyPressMask : Nat := 1
def KeyReleaseMask : Nat := 2
def ButtonPressMask : Nat := 4
def ButtonReleaseMask : Nat := 8
def EnterWindowMask : Nat := 16
def LeaveWindowMask : Nat := 32
def PointerMotionMask : Nat := 64
def ExposureMask : Nat := 32768
def StructureNotifyMask : Nat := 131072
def SubstructureNotifyMask : Nat := 524288
def SubstructureRedirectMask : Nat := 1048576
def FocusChangeMask : Nat := 2097152
def PropertyChangeMask : Nat := 4194304

/-- The event mask `META_STAGE_X11_EVENT_MASK` selected on every stage window. -/
def META_STAGE_X11_EVENT_MASK : Nat :=
  StructureNotifyMask ||| FocusChangeMask ||| ExposureMask ||| PropertyChangeMask |||
  EnterWindowMask ||| LeaveWindowMask ||| KeyPressMask ||| KeyReleaseMask |||
  ButtonPressMask ||| ButtonReleaseMask ||| PointerMotionMask

/-- The timestamp `CLUTTER_CURRENT_TIME`. -/
def CLUTTER_CURRENT_TIME : Int := 0

/-- The only flag of `MetaStageX11State`. -/
def STAGE_X11_WITHDRAWN : Nat := 2

/-- An `XClientMessageEvent` in 32 bit format: the header fields and the five
data longs `data.l[0..4]`. -/
structure XClientMessageEvent where
  type : Nat
  serial : Nat
  send_event : Bool
  window : Window
  message_type : Atom
  format : Nat
  l0 : Int
  l1 : Int
  l2 : Int
  l3 : Int
  l4 : Int
  deriving DecidableEq, Repr

/-- The fields of `XSizeHints` this file writes; `XAllocSizeHints` zeroes the
whole structure, so every other field is zero in each payload. -/
structure XSizeHints where
  flags : Nat
  min_width : Int
  min_height : Int
  max_width : Int
  max_height : Int
  deriving DecidableEq, Repr

/-- The freshly allocated, zeroed size hints. -/
def XAllocSizeHints : XSizeHints :=
  { flags := 0, min_width := 0, min_height := 0, max_width := 0, max_height := 0 }

/-- The fields of `XWMHints` that `update_wm_hints` fills in. -/
structure XWMHints where
  flags : Nat
  initial_state : Nat
  input : Bool
  deriving DecidableEq, Repr

/-- The payload of a property write. -/
inductive PropData where
  | longs (values : List Int)
  | text (bytes : String)
  deriving DecidableEq, Repr

/-- One call into Xlib, with the arguments the code passes (the display
argument is left out: there is one display). -/
inductive XRequest where
  | XSendEvent (dest : Window) (propagate : Bool) (event_mask : Nat)
      (xclient : XClientMessageEvent)
  | XChangeProperty (win : Window) (property type : Atom) (format mode : Nat)
      (data : PropData)
  | XDeleteProperty (win : Window) (property : Atom)
  | XGetWindowProperty (win : Window) (property : Atom)
  | XSetWMNormalHints (win : Window) (hints : XSizeHints)
  | XSetWMProtocols (win : Window) (protocols : List Atom)
  | XSetWMProperties (win : Window)
  | XSetWMHints (win : Window) (hints : XWMHints)
  | XResizeWindow (win : Window) (width height : Nat)
  | XSelectInput (win : Window) (mask : Nat)
  | XUndefineCursor (win : Window)
  | XCreatePixmap (win : Window) (width height depth : Nat)
  | XCreatePixmapCursor
  | XFreePixmap
  | XDefineCursor (win : Window)
  | XRaiseWindow (win : Window)
  | XMapWindow (win : Window)
  | XWithdrawWindow (win : Window) (screen_number : Nat)
  deriving DecidableEq, Repr

/-- A raw X event, by type.  `event` is the window the event was delivered on:
it is the `xany.window` member that the registry lookup reads. -/
inductive XEvent where
  | ConfigureNotify (event : Window) (window : Window) (width height : Int)
  | PropertyNotify (window : Window) (atom : Atom)
  | FocusIn (window : Window)
  | FocusOut (window : Window)
  | Expose (window : Window) (x y width height : Int)
  | DestroyNotify (event : Window) (window : Window)
  | ClientMessage (xclient : XClientMessageEvent)
  | Other (type : Nat) (window : Window)
  deriving DecidableEq, Repr

/-- The member `xany.window` of an event. -/
def XEvent.xany_window : XEvent → Window
  | .ConfigureNotify event _ _ _ => event
  | .PropertyNotify window _ => window
  | .FocusIn window => window
  | .FocusOut window => window
  | .Expose window _ _ _ _ => window
  | .DestroyNotify event _ => event
  | .ClientMessage xclient => xclient.window
  | .Other _ window => window

/-! ## Clutter data -/

/-- A `cairo_rectangle_int_t`. -/
structure Rect where
  x : Int
  y : Int
  width : Int
  height : Int
  deriving DecidableEq, Repr

/-- The flags of `ClutterStageState` that this file uses. -/
inductive ClutterStageState where
  | FULLSCREEN
  | ACTIVATED
  deriving DecidableEq, Repr

/-- The types of `ClutterEvent` that the translator produces. -/
inductive ClutterEventType where
  | CLUTTER_NOTHING
  | CLUTTER_DESTROY_NOTIFY
  | CLUTTER_DELETE
  deriving DecidableEq, Repr

/-- The members `any.type` and `any.stage` of a `ClutterEvent`; the stage is
named by the address of its stage window. -/
structure ClutterEvent where
  type : ClutterEventType
  stage : Option StagePtr
  deriving DecidableEq, Repr

/-- Modelled from the spec: the `ClutterStage` actor that owns a stage window
(`stage_cogl->wrapper`), whose code is in Clutter and not in this file.  It
holds what section 6 of the specification lets the stage window consume: the
current size, the resizable flag, the minimum size, the confirmed state flags,
and logs of the relayouts, viewport refreshes, clipped redraws and state
updates it was asked for.  The size of the actor is a pair of `gfloat`. -/
structure ClutterStage where
  is_fullscreen : Bool
  is_activated : Bool
  user_resizable : Bool
  min_width : Nat
  min_height : Nat
  width : Rat
  height : Rat
  in_destruction : Bool
  mapped : Bool
  relayouts : Nat
  viewports : Nat
  redraws : List Rect
  state_updates : List (List ClutterStageState × List ClutterStageState)
  deriving DecidableEq, Repr

/-- The legacy `ClutterStageViewCogl`: its layout and its framebuffer. -/
structure ClutterStageView where
  layout : Rect
  framebuffer : Option Nat
  deriving DecidableEq, Repr

/-- The instance fields of `MetaStageX11`, with the `wrapper` of its
`ClutterStageCogl` parent.  `onscreen` and `frame_closure` are `none` for a
NULL pointer.  The `legacy_views` list only ever holds `legacy_view`. -/
structure MetaStageX11 where
  wrapper : ClutterStage
  onscreen : Option Nat
  frame_closure : Option Nat
  xwin : Window
  xwin_width : Int
  xwin_height : Int
  legacy_view : Option ClutterStageView
  title : Option String
  clipped_redraws_cool_off : Nat
  wm_state : Nat
  is_cursor_visible : Bool
  fullscreening : Bool
  fullscreen_on_realize : Bool
  accept_focus : Bool
  deriving DecidableEq, Repr

/-- The atoms and the root window cached by `ClutterBackendX11`. -/
structure ClutterBackendX11 where
  atom_NET_WM_STATE : Atom
  atom_NET_WM_STATE_FULLSCREEN : Atom
  atom_WM_DELETE_WINDOW : Atom
  atom_NET_WM_PING : Atom
  atom_NET_WM_PID : Atom
  atom_NET_WM_NAME : Atom
  atom_UTF8_STRING : Atom
  atom_NET_WM_USER_TIME : Atom
  xwin_root : Window
  deriving DecidableEq, Repr

/-- Everything the functions of the file can read or change: the backend, the
root window of the default screen, the heap of stage windows, the static
`clutter_stages_by_xid` table (`none` while it is NULL), the trace of Xlib
calls, the warnings logged, the timeout sources of the main loop with the
number handed out so far, the current Cogl draw framebuffer, the number of
onscreens created, and the stages connected to `device-added`. -/
structure World where
  backend : ClutterBackendX11
  default_root : Window
  heap : StagePtr → MetaStageX11
  clutter_stages_by_xid : Option (List (Window × StagePtr))
  requests : List XRequest
  warnings : List String
  sources : List (Nat × StagePtr)
  source_count : Nat
  draw_framebuffer : Option Nat
  onscreen_count : Nat
  device_added : List StagePtr

/-- Reads the object at an address. -/
def World.stage (w : World) (p : StagePtr) : MetaStageX11 := w.heap p

/-- Writes the object at an address. -/
def World.setStage (w : World) (p : StagePtr) (s : MetaStageX11) : World :=
  { w with heap := fun q => if q = p then s else w.heap q }

/-- Appends one Xlib call to the trace. -/
def World.emit (w : World) (r : XRequest) : World :=
  { w with requests := w.requests ++ [r] }

/-- Logs a `g_warning`. -/
def World.warn (w : World) (msg : String) : World :=
  { w with warnings := w.warnings ++ [msg] }

/-- Writes the wrapper of the object at an address. -/
def World.setWrapper (w : World) (p : StagePtr) (c : ClutterStage) : World :=
  w.setStage p { w.stage p with wrapper := c }

/-! ## Collaborators outside the file -/

/-- Modelled from the spec: `is_user_resizable() -> bool` of the owning stage
(Clutter's `clutter_stage_get_user_resizable`). -/
def clutter_stage_get_user_resizable (c : ClutterStage) : Bool := c.user_resizable

/-- Modelled from the spec: `get_min_size() -> (w,h)` of the owning stage
(Clutter's `clutter_stage_get_minimum_size`). -/
def clutter_stage_get_minimum_size (c : ClutterStage) : Nat × Nat :=
  (c.min_width, c.min_height)

/-- Modelled from the spec: the confirmed fullscreen state of the owning stage
(Clutter's `_clutter_stage_is_fullscreen`). -/
def clutter_stage_is_fullscreen (c : ClutterStage) : Bool := c.is_fullscreen

/-- Modelled from the spec: the activated state of the owning stage (Clutter's
`_clutter_stage_is_activated`). -/
def clutter_stage_is_activated (c : ClutterStage) : Bool := c.is_activated

/-- Modelled from the spec: `update_confirmed_state` of the owning stage
(Clutter's `_clutter_stage_update_state (stage, unset_flags, set_flags)`): the
set flags are added, then the unset flags are removed; when that changes the
state, the new state is stored and the update is signalled, here logged. -/
def clutter_stage_update_state (c : ClutterStage)
    (unset_flags set_flags : List ClutterStageState) : ClutterStage :=
  let fs := (c.is_fullscreen || decide (ClutterStageState.FULLSCREEN ∈ set_flags)) &&
    !decide (ClutterStageState.FULLSCREEN ∈ unset_flags)
  let act := (c.is_activated || decide (ClutterStageState.ACTIVATED ∈ set_flags)) &&
    !decide (ClutterStageState.ACTIVATED ∈ unset_flags)
  if fs = c.is_fullscreen ∧ act = c.is_activated then c
  else { c with is_fullscreen := fs, is_activated := act,
                state_updates := c.state_updates ++ [(unset_flags, set_flags)] }

/-- Modelled from the spec: `get_current_size() -> (w,h)` of the owning actor
(Clutter's `clutter_actor_get_size`). -/
def clutter_actor_get_size (c : ClutterStage) : Rat × Rat := (c.width, c.height)

/-- Modelled from the spec: `set_size(w,h)` of the owning actor (Clutter's
`clutter_actor_set_size`). -/
def clutter_actor_set_size (c : ClutterStage) (width height : Rat) : ClutterStage :=
  { c with width := width, height := height }

/-- Modelled from the spec: `queue_relayout()` of the owning actor. -/
def clutter_actor_queue_relayout (c : ClutterStage) : ClutterStage :=
  { c with relayouts := c.relayouts + 1 }

/-- Modelled from the spec: the viewport refresh requested downstream
(Clutter's `clutter_stage_ensure_viewport`). -/
def clutter_stage_ensure_viewport (c : ClutterStage) : ClutterStage :=
  { c with viewports := c.viewports + 1 }

/-- Modelled from the spec: `queue_redraw(clip_rect)` of the owning actor
(Clutter's `clutter_actor_queue_redraw_with_clip`). -/
def clutter_actor_queue_redraw_with_clip (c : ClutterStage) (clip : Rect) : ClutterStage :=
  { c with redraws := c.redraws ++ [clip] }

/-- Modelled from the spec: the owning actor is marked mapped (Clutter's
`clutter_actor_map`). -/
def clutter_actor_map (c : ClutterStage) : ClutterStage := { c with mapped := true }

/-- Modelled from the spec: the owning actor is marked unmapped (Clutter's
`clutter_actor_unmap`). -/
def clutter_actor_unmap (c : ClutterStage) : ClutterStage := { c with mapped := false }

/-- The GLib call `g_hash_table_lookup` on a table keyed by window. -/
def g_hash_table_lookup (t : List (Window × StagePtr)) (key : Window) : Option StagePtr :=
  (t.find? (fun e => e.1 == key)).map (fun e => e.2)

/-- The GLib call `g_hash_table_remove`. -/
def g_hash_table_remove (t : List (Window × StagePtr)) (key : Window) :
    List (Window × StagePtr) :=
  t.filter (fun e => !(e.1 == key))

/-- The GLib call `g_hash_table_insert`: an entry with the same key is replaced. -/
def g_hash_table_insert (t : List (Window × StagePtr)) (key : Window) (value : StagePtr) :
    List (Window × StagePtr) :=
  (key, value) :: g_hash_table_remove t key

/-- The GLib call `g_source_remove`: the source with this id leaves the main loop. -/
def g_source_remove (w : World) (id : Nat) : World :=
  { w with sources := w.sources.filter (fun e => !(e.1 == id)) }

/-- The call `clutter_threads_add_timeout (interval, func, data)` for the one
callback of this file: a new source with a fresh id, greater than 0, is attached to
the main loop; the id is returned. -/
def clutter_threads_add_timeout (w : World) (data : StagePtr) : Nat × World :=
  let id := w.source_count + 1
  (id, { w with sources := w.sources ++ [(id, data)], source_count := id })

/-! ## The functions of `meta-stage-x11.c` -/

/-- The macro `STAGE_X11_IS_MAPPED`. -/
def STAGE_X11_IS_MAPPED (s : MetaStageX11) : Bool :=
  (s.wm_state &&& STAGE_X11_WITHDRAWN) == 0

/-- The registry lookup `meta_x11_get_stage_window_from_window`. -/
def meta_x11_get_stage_window_from_window (w : World) (win : Window) : Option StagePtr :=
  match w.clutter_stages_by_xid with
  | none => none
  | some t => g_hash_table_lookup t win

/-- The message `send_wmspec_change_state` builds and sends to the root window. -/
def send_wmspec_change_state (w : World) (window : Window) (state : Atom) (add : Bool) :
    World :=
  let xclient : XClientMessageEvent :=
    { type := ClientMessage, serial := 0, send_event := false,
      window := window,
      message_type := w.backend.atom_NET_WM_STATE,
      format := 32,
      l0 := if add then NET_WM_STATE_ADD else NET_WM_STATE_REMOVE,
      l1 := (state : Int), l2 := 0, l3 := 0, l4 := 0 }
  w.emit (.XSendEvent w.default_root false
    (SubstructureRedirectMask ||| SubstructureNotifyMask) xclient)

/-- The property write or delete of `update_state`. -/
def update_state (w : World) (stage_x11 : StagePtr) (state : Atom) (add : Bool) : World :=
  if add then
    w.emit (.XChangeProperty (w.stage stage_x11).xwin w.backend.atom_NET_WM_STATE XA_ATOM 32
      PropModeReplace (.longs [(state : Int)]))
  else
    w.emit (.XDeleteProperty (w.stage stage_x11).xwin w.backend.atom_NET_WM_STATE)

/-- The size hints `meta_stage_x11_fix_window_size` derives and writes. -/
def meta_stage_x11_fix_window_size (w : World) (stage_x11 : StagePtr)
    (new_width new_height : Int) : World :=
  let s := w.stage stage_x11
  if s.xwin ≠ None then
    let resize := clutter_stage_get_user_resizable s.wrapper
    let size_hints := XAllocSizeHints
    let min_width : Nat := (clutter_stage_get_minimum_size s.wrapper).1
    let min_height : Nat := (clutter_stage_get_minimum_size s.wrapper).2
    let new_width := if new_width ≤ 0 then guint_to_int min_width else new_width
    let new_height := if new_height ≤ 0 then guint_to_int min_height else new_height
    let size_hints := { size_hints with flags := 0 }
    let size_hints :=
      if !s.fullscreening then
        if resize then
          { size_hints with min_width := guint_to_int min_width,
                            min_height := guint_to_int min_height,
                            flags := PMinSize }
        else
          { size_hints with min_width := new_width, min_height := new_height,
                            max_width := new_width, max_height := new_height,
                            flags := PMinSize ||| PMaxSize }
      else size_hints
    w.emit (.XSetWMNormalHints s.xwin size_hints)
  else w

/-- The protocol declaration `meta_stage_x11_set_wm_protocols`. -/
def meta_stage_x11_set_wm_protocols (w : World) (stage_x11 : StagePtr) : World :=
  w.emit (.XSetWMProtocols (w.stage stage_x11).xwin
    [w.backend.atom_WM_DELETE_WINDOW, w.backend.atom_NET_WM_PING])

/-- The resize entry point `meta_stage_x11_resize`. -/
def meta_stage_x11_resize (w : World) (stage_x11 : StagePtr) (width height : Int) : World :=
  let s := w.stage stage_x11
  if s.fullscreening then w
  else
    let zero : Bool := decide (width = 0 ∨ height = 0)
    let w := if zero then w.warn "X11 stage not allowed to have 0 width or height" else w
    let width := if zero then 1 else width
    let height := if zero then 1 else height
    if s.xwin ≠ None then
      let w := meta_stage_x11_fix_window_size w stage_x11 width height
      if width ≠ s.xwin_width ∨ height ≠ s.xwin_height then
        w.emit (.XResizeWindow s.xwin (int_to_uint width) (int_to_uint height))
      else w
    else
      w.setStage stage_x11 { w.stage stage_x11 with xwin_width := width, xwin_height := height }

/-- The process identity written by `set_wm_pid`; `pid` is what `getpid` returns. -/
def set_wm_pid (w : World) (stage_x11 : StagePtr) (pid : Int) : World :=
  let s := w.stage stage_x11
  if s.xwin = None then w
  else
    let w := w.emit (.XSetWMProperties s.xwin)
    w.emit (.XChangeProperty s.xwin w.backend.atom_NET_WM_PID XA_CARDINAL 32
      PropModeReplace (.longs [pid]))

/-- The window name written or cleared by `set_wm_title`. -/
def set_wm_title (w : World) (stage_x11 : StagePtr) : World :=
  let s := w.stage stage_x11
  if s.xwin = None then w
  else
    match s.title with
    | none => w.emit (.XDeleteProperty s.xwin w.backend.atom_NET_WM_NAME)
    | some title =>
      w.emit (.XChangeProperty s.xwin w.backend.atom_NET_WM_NAME w.backend.atom_UTF8_STRING 8
        PropModeReplace (.text title))

/-- The cursor definition of `set_cursor_visible`. -/
def set_cursor_visible (w : World) (stage_x11 : StagePtr) : World :=
  let s := w.stage stage_x11
  if s.xwin = None then w
  else if s.is_cursor_visible then
    w.emit (.XUndefineCursor s.xwin)
  else
    let w := w.emit (.XCreatePixmap s.xwin 1 1 1)
    let w := w.emit .XCreatePixmapCursor
    let w := w.emit .XFreePixmap
    w.emit (.XDefineCursor s.xwin)

/-- The teardown `meta_stage_x11_unrealize`.  The parent `unrealize` of
`ClutterStageCogl` and the `g_list_free` of the view list touch no field of
this record. -/
def meta_stage_x11_unrealize (w : World) (stage_window : StagePtr) : World :=
  let w :=
    match w.clutter_stages_by_xid with
    | some t =>
      { w with
        clutter_stages_by_xid := some (g_hash_table_remove t (w.stage stage_window).xwin) }
    | none => w
  let w :=
    if w.draw_framebuffer = (w.stage stage_window).onscreen then
      { w with draw_framebuffer := some 0 }
    else w
  let w :=
    if (w.stage stage_window).frame_closure.isSome then
      w.setStage stage_window { w.stage stage_window with frame_closure := none }
    else w
  w.setStage stage_window { w.stage stage_window with legacy_view := none, onscreen := none }

/-- The fullscreen entry point `meta_stage_x11_set_fullscreen`.  The wrapper is
never NULL in this model, so of the first guard only the destruction test can
hold. -/
def meta_stage_x11_set_fullscreen (w : World) (stage_window : StagePtr)
    (is_fullscreen : Bool) : World :=
  let stage := (w.stage stage_window).wrapper
  if stage.in_destruction then w
  else
    let was_fullscreen := clutter_stage_is_fullscreen stage
    if was_fullscreen = is_fullscreen then w
    else if is_fullscreen then
      let w := w.setStage stage_window { w.stage stage_window with fullscreening := true }
      if (w.stage stage_window).xwin ≠ None then
        if !STAGE_X11_IS_MAPPED (w.stage stage_window) then
          update_state w stage_window w.backend.atom_NET_WM_STATE_FULLSCREEN true
        else
          let w := meta_stage_x11_fix_window_size w stage_window (-1) (-1)
          send_wmspec_change_state w (w.stage stage_window).xwin
            w.backend.atom_NET_WM_STATE_FULLSCREEN true
      else
        w.setStage stage_window { w.stage stage_window with fullscreen_on_realize := true }
    else
      let w := w.setStage stage_window { w.stage stage_window with fullscreening := false }
      if (w.stage stage_window).xwin ≠ None then
        if !STAGE_X11_IS_MAPPED (w.stage stage_window) then
          update_state w stage_window w.backend.atom_NET_WM_STATE_FULLSCREEN false
        else
          let w := send_wmspec_change_state w (w.stage stage_window).xwin
            w.backend.atom_NET_WM_STATE_FULLSCREEN false
          meta_stage_x11_fix_window_size w stage_window
            (w.stage stage_window).xwin_width (w.stage stage_window).xwin_height
      else
        w.setStage stage_window { w.stage stage_window with fullscreen_on_realize := false }

/-- What the surroundings answer during one `meta_stage_x11_realize`: whether
`cogl_framebuffer_allocate` succeeds, what the parent `realize` returns, the
window id `cogl_x11_onscreen_get_window_xid` reports, the result of `getpid`,
and whether there is a default device manager. -/
structure RealizeEnv where
  allocate_ok : Bool
  parent_realize : Bool
  xid : Window
  pid : Int
  device_manager : Bool
  deriving DecidableEq, Repr

/-- The creation `meta_stage_x11_realize`.  The result is `none` when the
function calls `abort`, else the returned boolean and the new world.  Of the
device manager only the connection to `device-added` is recorded; the events
it selects per device are not Xlib calls of this file. -/
def meta_stage_x11_realize (w : World) (stage_window : StagePtr) (env : RealizeEnv) :
    Option (Bool × World) :=
  let size := clutter_actor_get_size (w.stage stage_window).wrapper
  let onscreen := w.onscreen_count + 1
  let w := { w with onscreen_count := onscreen }
  let w := w.setStage stage_window { w.stage stage_window with onscreen := some onscreen }
  let w := w.setStage stage_window { w.stage stage_window with frame_closure := some onscreen }
  let w :=
    match (w.stage stage_window).legacy_view with
    | some v =>
      w.setStage stage_window
        { w.stage stage_window with legacy_view := some { v with framebuffer := some onscreen } }
    | none => w
  let w := w.setStage stage_window
    { w.stage stage_window with
      xwin_width := gfloat_to_int size.1, xwin_height := gfloat_to_int size.2 }
  if !env.allocate_ok then none
  else if !env.parent_realize then some (false, w)
  else
    let w := w.setStage stage_window { w.stage stage_window with xwin := env.xid }
    let w :=
      match w.clutter_stages_by_xid with
      | none => { w with clutter_stages_by_xid := some [] }
      | some _ => w
    let w :=
      { w with
        clutter_stages_by_xid :=
          w.clutter_stages_by_xid.map
            (fun t => g_hash_table_insert t (w.stage stage_window).xwin stage_window) }
    let w := set_wm_pid w stage_window env.pid
    let w := set_wm_title w stage_window
    let w := set_cursor_visible w stage_window
    let w := w.emit (.XSelectInput (w.stage stage_window).xwin META_STAGE_X11_EVENT_MASK)
    let w :=
      if env.device_manager then { w with device_added := w.device_added ++ [stage_window] }
      else w
    let w := meta_stage_x11_fix_window_size w stage_window
      (w.stage stage_window).xwin_width (w.stage stage_window).xwin_height
    let w := meta_stage_x11_set_wm_protocols w stage_window
    let w :=
      if (w.stage stage_window).fullscreen_on_realize then
        let w := w.setStage stage_window
          { w.stage stage_window with fullscreen_on_realize := false }
        meta_stage_x11_set_fullscreen w stage_window true
      else w
    some (true, w)

/-- The setter `meta_stage_x11_set_cursor_visible`. -/
def meta_stage_x11_set_cursor_visible (w : World) (stage_window : StagePtr)
    (cursor_visible : Bool) : World :=
  let w := w.setStage stage_window
    { w.stage stage_window with is_cursor_visible := cursor_visible }
  set_cursor_visible w stage_window

/-- The setter `meta_stage_x11_set_title`. -/
def meta_stage_x11_set_title (w : World) (stage_window : StagePtr) (title : Option String) :
    World :=
  let w := w.setStage stage_window { w.stage stage_window with title := title }
  set_wm_title w stage_window

/-- The setter `meta_stage_x11_set_user_resizable`: it only derives the size
hints again. -/
def meta_stage_x11_set_user_resizable (w : World) (stage_window : StagePtr)
    (_is_resizable : Bool) : World :=
  meta_stage_x11_fix_window_size w stage_window
    (w.stage stage_window).xwin_width (w.stage stage_window).xwin_height

/-- The focus hints written by `update_wm_hints`. -/
def update_wm_hints (w : World) (stage_x11 : StagePtr) : World :=
  let s := w.stage stage_x11
  if (s.wm_state &&& STAGE_X11_WITHDRAWN) ≠ 0 then w
  else
    w.emit (.XSetWMHints s.xwin
      { flags := StateHint ||| InputHint, initial_state := NormalState,
        input := s.accept_focus })

/-- The setter `meta_stage_x11_set_accept_focus`. -/
def meta_stage_x11_set_accept_focus (w : World) (stage_window : StagePtr)
    (accept_focus : Bool) : World :=
  let w := w.setStage stage_window { w.stage stage_window with accept_focus := accept_focus }
  update_wm_hints w stage_window

/-- The flag update `set_stage_x11_state`: `old ^^^ (old &&& m)` is `old & ~m`. -/
def set_stage_x11_state (w : World) (stage_x11 : StagePtr) (unset_flags set_flags : Nat) :
    World :=
  let old_stage_state := (w.stage stage_x11).wm_state
  let new_stage_state := old_stage_state
  let new_stage_state := new_stage_state ||| set_flags
  let new_stage_state := new_stage_state ^^^ (new_stage_state &&& unset_flags)
  if new_stage_state = old_stage_state then w
  else w.setStage stage_x11 { w.stage stage_x11 with wm_state := new_stage_state }

/-- The entry point `meta_stage_x11_show`.  Its `g_assert` that the stage is
mapped is not a branch here: `show_assertion_holds` proves it cannot fail. -/
def meta_stage_x11_show (w : World) (stage_window : StagePtr) (do_raise : Bool) : World :=
  if (w.stage stage_window).xwin ≠ None then
    let w := if do_raise then w.emit (.XRaiseWindow (w.stage stage_window).xwin) else w
    let w :=
      if !STAGE_X11_IS_MAPPED (w.stage stage_window) then
        let w := set_stage_x11_state w stage_window STAGE_X11_WITHDRAWN 0
        let w := update_wm_hints w stage_window
        if (w.stage stage_window).fullscreening then
          meta_stage_x11_set_fullscreen w stage_window true
        else
          meta_stage_x11_set_fullscreen w stage_window false
      else w
    let w := w.setWrapper stage_window (clutter_actor_map (w.stage stage_window).wrapper)
    w.emit (.XMapWindow (w.stage stage_window).xwin)
  else w

/-- The entry point `meta_stage_x11_hide`.  Its `g_assert` that the stage is
not mapped is not a branch here: `hide_assertion_holds` proves it cannot fail. -/
def meta_stage_x11_hide (w : World) (stage_window : StagePtr) : World :=
  if (w.stage stage_window).xwin ≠ None then
    let w :=
      if STAGE_X11_IS_MAPPED (w.stage stage_window) then
        set_stage_x11_state w stage_window 0 STAGE_X11_WITHDRAWN
      else w
    let w := w.setWrapper stage_window (clutter_actor_unmap (w.stage stage_window).wrapper)
    w.emit (.XWithdrawWindow (w.stage stage_window).xwin 0)
  else w

/-- The query `meta_stage_x11_can_clip_redraws`. -/
def meta_stage_x11_can_clip_redraws (w : World) (stage_window : StagePtr) : Bool :=
  (w.stage stage_window).clipped_redraws_cool_off == 0

/-- The instance initialiser `meta_stage_x11_init` on zeroed instance memory. -/
def meta_stage_x11_init (wrapper : ClutterStage) : MetaStageX11 :=
  { wrapper := wrapper, onscreen := none, frame_closure := none,
    xwin := None, xwin_width := 640, xwin_height := 480,
    legacy_view := none, title := none, clipped_redraws_cool_off := 0,
    wm_state := STAGE_X11_WITHDRAWN,
    is_cursor_visible := true, fullscreening := false, fullscreen_on_realize := false,
    accept_focus := true }

/-- The user time property written by `set_user_time`. -/
def set_user_time (w : World) (stage_x11 : StagePtr) (timestamp : Int) : World :=
  if timestamp ≠ CLUTTER_CURRENT_TIME then
    w.emit (.XChangeProperty (w.stage stage_x11).xwin w.backend.atom_NET_WM_USER_TIME
      XA_CARDINAL 32 PropModeReplace (.longs [timestamp]))
  else w

/-- The protocol handler `handle_wm_protocols_event` on a client message: the
returned boolean says whether a delete was requested. -/
def handle_wm_protocols_event (w : World) (stage_x11 : StagePtr)
    (xclient : XClientMessageEvent) : Bool × World :=
  let atom := xclient.l0
  if atom = (w.backend.atom_WM_DELETE_WINDOW : Int) ∧
      xclient.window = (w.stage stage_x11).xwin then
    (true, set_user_time w stage_x11 xclient.l1)
  else if atom = (w.backend.atom_NET_WM_PING : Int) ∧
      xclient.window = (w.stage stage_x11).xwin then
    let xclient := { xclient with window := w.backend.xwin_root }
    (false, w.emit (.XSendEvent xclient.window false
      (SubstructureRedirectMask ||| SubstructureNotifyMask) xclient))
  else (false, w)

/-- The timeout callback `clipped_redraws_cool_off_cb`; it returns
`G_SOURCE_REMOVE`. -/
def clipped_redraws_cool_off_cb (w : World) (data : StagePtr) : World :=
  w.setStage data { w.stage data with clipped_redraws_cool_off := 0 }

/-- The main loop dispatches the timeout source `id`: its callback runs and,
since the callback returns `G_SOURCE_REMOVE`, the source is destroyed.  A
source that is not attached does nothing. -/
def dispatch_timeout (w : World) (id : Nat) : World :=
  match w.sources.find? (fun e => e.1 == id) with
  | some e => g_source_remove (clipped_redraws_cool_off_cb w e.2) id
  | none => w

/-- The translator `meta_stage_x11_translate_event`.  `reply` is what the
`XGetWindowProperty` of the property branch reads: `none` when no property
data comes back, else the atoms of the property.  `event` is the caller's
output event; the result is the returned boolean, the output event and the new
world. -/
def meta_stage_x11_translate_event (w : World) (stage_x11 : StagePtr) (xevent : XEvent)
    (reply : Option (List Atom)) (event : ClutterEvent) : Bool × ClutterEvent × World :=
  match meta_x11_get_stage_window_from_window w xevent.xany_window with
  | none => (false, event, w)
  | some stage_cogl =>
    let stage_xwindow := (w.stage stage_x11).xwin
    match xevent with
    | .ConfigureNotify _ _ width height =>
      let fullscreen := clutter_stage_is_fullscreen (w.stage stage_cogl).wrapper
      let differs : Bool :=
        decide ((w.stage stage_x11).xwin_width ≠ width ∨ (w.stage stage_x11).xwin_height ≠ height)
      let size_changed : Bool := fullscreen || differs
      let w :=
        if !fullscreen && differs then
          w.setStage stage_x11 { w.stage stage_x11 with xwin_width := width, xwin_height := height }
        else w
      let stage_width := width
      let stage_height := height
      let w := w.setWrapper stage_cogl
        (clutter_actor_set_size (w.stage stage_cogl).wrapper stage_width stage_height)
      let w :=
        if size_changed then
          let w :=
            if (w.stage stage_x11).clipped_redraws_cool_off ≠ 0 then
              g_source_remove w (w.stage stage_x11).clipped_redraws_cool_off
            else w
          let r := clutter_threads_add_timeout w stage_x11
          let w := r.2
          let w := w.setStage stage_x11 { w.stage stage_x11 with clipped_redraws_cool_off := r.1 }
          let w := w.setWrapper stage_cogl
            (clutter_actor_queue_relayout (w.stage stage_cogl).wrapper)
          let w := w.setWrapper stage_cogl
            (clutter_stage_ensure_viewport (w.stage stage_cogl).wrapper)
          match (w.stage stage_x11).legacy_view with
          | some v =>
            w.setStage stage_x11
              { w.stage stage_x11 with
                legacy_view := some { v with
                  layout := { x := 0, y := 0, width := stage_width, height := stage_height } } }
          | none => w
        else w
      (false, event, w)
    | .PropertyNotify window atom =>
      if atom = w.backend.atom_NET_WM_STATE ∧ window = stage_xwindow then
        let w := w.emit (.XGetWindowProperty stage_xwindow w.backend.atom_NET_WM_STATE)
        match reply with
        | some atoms =>
          let fullscreen_set : Bool :=
            atoms.any (fun a => a == w.backend.atom_NET_WM_STATE_FULLSCREEN)
          let is_fullscreen := clutter_stage_is_fullscreen (w.stage stage_cogl).wrapper
          let w :=
            if fullscreen_set ≠ is_fullscreen then
              if fullscreen_set then
                w.setWrapper stage_cogl
                  (clutter_stage_update_state (w.stage stage_cogl).wrapper
                    [] [ClutterStageState.FULLSCREEN])
              else
                w.setWrapper stage_cogl
                  (clutter_stage_update_state (w.stage stage_cogl).wrapper
                    [ClutterStageState.FULLSCREEN] [])
            else w
          (false, event, w)
        | none => (false, event, w)
      else (false, event, w)
    | .FocusIn _ =>
      let w :=
        if !clutter_stage_is_activated (w.stage stage_cogl).wrapper then
          w.setWrapper stage_cogl
            (clutter_stage_update_state (w.stage stage_cogl).wrapper
              [] [ClutterStageState.ACTIVATED])
        else w
      (false, event, w)
    | .FocusOut _ =>
      let w :=
        if clutter_stage_is_activated (w.stage stage_cogl).wrapper then
          w.setWrapper stage_cogl
            (clutter_stage_update_state (w.stage stage_cogl).wrapper
              [ClutterStageState.ACTIVATED] [])
        else w
      (false, event, w)
    | .Expose _ x y width height =>
      let clip : Rect := { x := x, y := y, width := width, height := height }
      let w := w.setWrapper stage_cogl
        (clutter_actor_queue_redraw_with_clip (w.stage stage_cogl).wrapper clip)
      (false, event, w)
    | .DestroyNotify _ _ =>
      (true, { event with type := .CLUTTER_DESTROY_NOTIFY, stage := some stage_cogl }, w)
    | .ClientMessage xclient =>
      let r := handle_wm_protocols_event w stage_x11 xclient
      if r.1 then
        (true, { event with type := .CLUTTER_DELETE, stage := some stage_cogl }, r.2)
      else (false, event, r.2)
    | .Other _ _ => (false, event, w)

/-! ## The stage window as a transition system -/

/-- One call on a stage window: an entry point of the stage window interface,
the translation of one X event, or the firing of one timeout source. -/
inductive Op where
  | realize (env : RealizeEnv)
  | unrealize
  | show (do_raise : Bool)
  | hide
  | resize (width height : Int)
  | set_fullscreen (is_fullscreen : Bool)
  | set_title (title : Option String)
  | set_cursor_visible (cursor_visible : Bool)
  | set_user_resizable (is_resizable : Bool)
  | set_accept_focus (accept_focus : Bool)
  | translate_event (xevent : XEvent) (reply : Option (List Atom))
  | timeout (id : Nat)
  deriving DecidableEq, Repr

/-- The world after one call on the stage window at `p`; `none` when the call
aborts the process. -/
def step (w : World) (p : StagePtr) : Op → Option World
  | .realize env => (meta_stage_x11_realize w p env).map (fun r => r.2)
  | .unrealize => some (meta_stage_x11_unrealize w p)
  | .show do_raise => some (meta_stage_x11_show w p do_raise)
  | .hide => some (meta_stage_x11_hide w p)
  | .resize width height => some (meta_stage_x11_resize w p width height)
  | .set_fullscreen b => some (meta_stage_x11_set_fullscreen w p b)
  | .set_title title => some (meta_stage_x11_set_title w p title)
  | .set_cursor_visible b => some (meta_stage_x11_set_cursor_visible w p b)
  | .set_user_resizable b => some (meta_stage_x11_set_user_resizable w p b)
  | .set_accept_focus b => some (meta_stage_x11_set_accept_focus w p b)
  | .translate_event xevent reply =>
    some (meta_stage_x11_translate_event w p xevent reply
      { type := .CLUTTER_NOTHING, stage := none }).2.2
  | .timeout id => some (dispatch_timeout w id)

/-- A world to start from: nothing registered, nothing sent, one freshly
initialised stage window at every address. -/
def World.initial (backend : ClutterBackendX11) (default_root : Window)
    (wrapper : ClutterStage) : World :=
  { backend := backend, default_root := default_root,
    heap := fun _ => meta_stage_x11_init wrapper,
    clutter_stages_by_xid := none, requests := [], warnings := [],
    sources := [], source_count := 0, draw_framebuffer := none,
    onscreen_count := 0, device_added := [] }

/-- Whether a call is the translation of a property notification about the
window manager state property `_NET_WM_STATE`. -/
def Op.isStateFlagsNotify (backend : ClutterBackendX11) : Op → Bool
  | .translate_event (.PropertyNotify _ atom) _ => atom == backend.atom_NET_WM_STATE
  | _ => false

/-- A call that asks for a visibility: `show`, with its raise flag, or `hide`. -/
inductive VisibilityCall where
  | show (do_raise : Bool)
  | hide
  deriving DecidableEq, Repr

/-- Runs a visibility call on the stage window at `p`. -/
def VisibilityCall.run (w : World) (p : StagePtr) : VisibilityCall → World
  | .show do_raise => meta_stage_x11_show w p do_raise
  | .hide => meta_stage_x11_hide w p

/-- The mapped flag a visibility call asks for. -/
def VisibilityCall.target : VisibilityCall → Bool
  | .show _ => true
  | .hide => false

/-- Runs visibility calls in order on the stage window at `p`. -/
def runVisibility (w : World) (p : StagePtr) (calls : List VisibilityCall) : World :=
  calls.foldl (fun acc c => c.run acc p) w

/-! ## The long functions, statement by statement

The geometry arm of the translator and the realize function are long chains
of statements.  The definitions below cut the same chains into pieces;
`translate_event_configure` and `realize_eq` prove that the pieces put
together are the functions above. -/

/-- Geometry arm, first statement: outside confirmed fullscreen a differing
size becomes the tracked size. -/
def configure_track_size (w : World) (stage_x11 stage_cogl : StagePtr) (width height : Int) :
    World :=
  if (!clutter_stage_is_fullscreen (w.stage stage_cogl).wrapper &&
      decide ((w.stage stage_x11).xwin_width ≠ width ∨ (w.stage stage_x11).xwin_height ≠ height))
  then
    w.setStage stage_x11 { w.stage stage_x11 with xwin_width := width, xwin_height := height }
  else w

/-- Geometry arm: the reported size is handed to the actor. -/
def configure_actor_size (w : World) (stage_cogl : StagePtr) (width height : Int) : World :=
  w.setWrapper stage_cogl (clutter_actor_set_size (w.stage stage_cogl).wrapper width height)

/-- Geometry arm, on a size change: a pending cool-off timeout is removed. -/
def configure_cancel_cool_off (w : World) (stage_x11 : StagePtr) : World :=
  if (w.stage stage_x11).clipped_redraws_cool_off ≠ 0 then
    g_source_remove w (w.stage stage_x11).clipped_redraws_cool_off
  else w

/-- Geometry arm, on a size change: a new cool-off timeout is added and its id
stored. -/
def configure_start_cool_off (w : World) (stage_x11 : StagePtr) : World :=
  (clutter_threads_add_timeout w stage_x11).2.setStage stage_x11
    { (clutter_threads_add_timeout w stage_x11).2.stage stage_x11 with
      clipped_redraws_cool_off := (clutter_threads_add_timeout w stage_x11).1 }

/-- Geometry arm, on a size change: relayout and viewport refresh are queued. -/
def configure_relayout (w : World) (stage_cogl : StagePtr) : World :=
  (w.setWrapper stage_cogl
    (clutter_actor_queue_relayout (w.stage stage_cogl).wrapper)).setWrapper stage_cogl
    (clutter_stage_ensure_viewport
      ((w.setWrapper stage_cogl
        (clutter_actor_queue_relayout (w.stage stage_cogl).wrapper)).stage stage_cogl).wrapper)

/-- Geometry arm, on a size change: the legacy view takes the new layout. -/
def configure_legacy_view (w : World) (stage_x11 : StagePtr) (width height : Int) : World :=
  match (w.stage stage_x11).legacy_view with
  | some v =>
    w.setStage stage_x11
      { w.stage stage_x11 with
        legacy_view := some { v with
          layout := { x := 0, y := 0, width := width, height := height } } }
  | none => w

/-- The world after the geometry arm of the translator, when the registry
resolves the event window to `stage_cogl`. -/
def configure_notify (w : World) (stage_x11 stage_cogl : StagePtr) (width height : Int) :
    World :=
  if (clutter_stage_is_fullscreen (w.stage stage_cogl).wrapper ||
      decide ((w.stage stage_x11).xwin_width ≠ width ∨ (w.stage stage_x11).xwin_height ≠ height))
  then
    configure_legacy_view
      (configure_relayout
        (configure_start_cool_off
          (configure_cancel_cool_off
            (configure_actor_size (configure_track_size w stage_x11 stage_cogl width height)
              stage_cogl width height)
            stage_x11)
          stage_x11)
        stage_cogl)
      stage_x11 width height
  else
    configure_actor_size (configure_track_size w stage_x11 stage_cogl width height)
      stage_cogl width height

/-- Realize, the statements before the allocation test: a new onscreen with its
frame callback, the framebuffer of the legacy view, and the size of the actor
as tracked size. -/
def realize_onscreen (w : World) (stage_window : StagePtr) : World :=
  let size := clutter_actor_get_size (w.stage stage_window).wrapper
  let onscreen := w.onscreen_count + 1
  let w := { w with onscreen_count := onscreen }
  let w := w.setStage stage_window { w.stage stage_window with onscreen := some onscreen }
  let w := w.setStage stage_window { w.stage stage_window with frame_closure := some onscreen }
  let w :=
    match (w.stage stage_window).legacy_view with
    | some v =>
      w.setStage stage_window
        { w.stage stage_window with legacy_view := some { v with framebuffer := some onscreen } }
    | none => w
  w.setStage stage_window
    { w.stage stage_window with
      xwin_width := gfloat_to_int size.1, xwin_height := gfloat_to_int size.2 }

/-- Realize: the window id is stored and entered in the registry, which is
created when it is NULL. -/
def realize_register (w : World) (stage_window : StagePtr) (xid : Window) : World :=
  let w := w.setStage stage_window { w.stage stage_window with xwin := xid }
  let w :=
    match w.clutter_stages_by_xid with
    | none => { w with clutter_stages_by_xid := some [] }
    | some _ => w
  { w with
    clutter_stages_by_xid :=
      w.clutter_stages_by_xid.map
        (fun t => g_hash_table_insert t (w.stage stage_window).xwin stage_window) }

/-- Realize: process id, title, cursor, event selection, device manager. -/
def realize_properties (w : World) (stage_window : StagePtr) (env : RealizeEnv) : World :=
  let w := set_wm_pid w stage_window env.pid
  let w := set_wm_title w stage_window
  let w := set_cursor_visible w stage_window
  let w := w.emit (.XSelectInput (w.stage stage_window).xwin META_STAGE_X11_EVENT_MASK)
  if env.device_manager then { w with device_added := w.device_added ++ [stage_window] }
  else w

/-- Realize: size hints, protocols, and the fullscreen request deferred to
realize. -/
def realize_finish (w : World) (stage_window : StagePtr) : World :=
  let w := meta_stage_x11_fix_window_size w stage_window
    (w.stage stage_window).xwin_width (w.stage stage_window).xwin_height
  let w := meta_stage_x11_set_wm_protocols w stage_window
  if (w.stage stage_window).fullscreen_on_realize then
    let w := w.setStage stage_window
      { w.stage stage_window with fullscreen_on_realize := false }
    meta_stage_x11_set_fullscreen w stage_window true
  else w

/-- The fields of a stage window that say where it is in its life: its
window, its visibility flags, the fullscreen intent and the request deferred
to realize. -/
def MetaStageX11.lifecycle (s : MetaStageX11) : Window × Nat × Bool × Bool :=
  (s.xwin, s.wm_state, s.fullscreening, s.fullscreen_on_realize)

/-- The size hints that `meta_stage_x11_fix_window_size` computes for a stage
and a size: the statements of that function between `XAllocSizeHints` and
`XSetWMNormalHints`; `fix_window_size_eq` proves it. -/
def size_hints_payload (s : MetaStageX11) (new_width new_height : Int) : XSizeHints :=
  let resize := clutter_stage_get_user_resizable s.wrapper
  let size_hints := XAllocSizeHints
  let min_width : Nat := (clutter_stage_get_minimum_size s.wrapper).1
  let min_height : Nat := (clutter_stage_get_minimum_size s.wrapper).2
  let new_width := if new_width ≤ 0 then guint_to_int min_width else new_width
  let new_height := if new_height ≤ 0 then guint_to_int min_height else new_height
  let size_hints := { size_hints with flags := 0 }
  if !s.fullscreening then
    if resize then
      { size_hints with min_width := guint_to_int min_width,
                        min_height := guint_to_int min_height,
                        flags := PMinSize }
    else
      { size_hints with min_width := new_width, min_height := new_height,
                        max_width := new_width, max_height := new_height,
                        flags := PMinSize ||| PMaxSize }
  else size_hints

/-! ## The cool-off timeouts -/

/-- The ids of the timeout sources attached to the main loop whose callback
data is the stage at `p`: the cool-off timeouts pending for that stage. -/
def pending_timeouts (w : World) (p : StagePtr) : List Nat :=
  (w.sources.filter (fun e => e.2 == p)).map (fun e => e.1)

/-- The bookkeeping of the cool-off timeouts is sound: every attached source
has an id that is positive and was handed out, that id is the one its stage
recorded in `clipped_redraws_cool_off`, and no two attached sources share an
id. -/
def TimeoutsRecorded (w : World) : Prop :=
  (∀ e ∈ w.sources, 0 < e.1 ∧ e.1 ≤ w.source_count ∧
    (w.stage e.2).clipped_redraws_cool_off = e.1) ∧
  (w.sources.map (fun e => e.1)).Nodup

/-- The worlds reached from a world without timeout sources by translating
geometry notifications (on any stage, for any window, of any size) and by
dispatching timeout sources. -/
inductive CoolOffReachable : World → Prop where
  | start (w : World) (h : w.sources = []) : CoolOffReachable w
  | notify (w : World) (p : StagePtr) (e win : Window) (width height : Int)
      (reply : Option (List Atom)) (event : ClutterEvent) (h : CoolOffReachable w) :
      CoolOffReachable
        (meta_stage_x11_translate_event w p (.ConfigureNotify e win width height)
          reply event).2.2
  | fire (w : World) (id : Nat) (h : CoolOffReachable w) :
      CoolOffReachable (dispatch_timeout w id)

/-- The world after translating a geometry notification delivered on the
window `e` that reports the size `width` x `height`. -/
def notified (w : World) (p : StagePtr) (e : Window) (width height : Int) : World :=
  (meta_stage_x11_translate_event w p (.ConfigureNotify e e width height) none
    { type := .CLUTTER_NOTHING, stage := none }).2.2

/-- A geometry notification counts as a size change, as the translator
decides it: its window resolves to a stage, and that stage is confirmed
fullscreen or the reported size differs from the tracked size. -/
def size_changing (w : World) (p : StagePtr) (e : Window) (width height : Int) : Prop :=
  ∃ sc, meta_x11_get_stage_window_from_window w e = some sc ∧
    (clutter_stage_is_fullscreen (w.stage sc).wrapper = true ∨
      (w.stage p).xwin_width ≠ width ∨ (w.stage p).xwin_height ≠ height)

/-! ## The logical monitor of `meta-logical-monitor.c`

The header that declares the records is not part of the sources at hand: the
records below hold the members that `meta-logical-monitor.c` reads and
writes, and the constant `META_MAX_OUTPUTS_PER_MONITOR`, the number of
elements of the array `outputs`, is a parameter of the functions. -/

/-- The members of a `MetaOutput` that the file reads: the address of its CRTC,
the refresh rate of the current mode of that CRTC, and the members copied into
the logical monitor. -/
structure MetaOutput where
  crtc : Nat
  refresh_rate : Rat
  winsys_id : Nat
  width_mm : Int
  height_mm : Int
  scale : Int
  is_presentation : Bool
  deriving DecidableEq, Repr

/-- What the calls on a `MetaMonitor` answer: `meta_monitor_is_active`,
`meta_monitor_get_main_output`, `meta_monitor_get_outputs` and
`meta_monitor_get_dimensions`. -/
structure MetaMonitor where
  is_active : Bool
  main_output : MetaOutput
  outputs : List MetaOutput
  width : Int
  height : Int
  deriving DecidableEq, Repr

/-- The rectangle `MetaRectangle`. -/
structure MetaRectangle where
  x : Int
  y : Int
  width : Int
  height : Int
  deriving DecidableEq, Repr

/-- The object `MetaLogicalMonitor`.  `outputs i` is what is stored at
`outputs[i]`, `none` for `NULL`; it is defined for every index, so that a
store past the last element of the array, which C does not check, is seen. -/
structure MetaLogicalMonitor where
  number : Int
  rect : MetaRectangle
  refresh_rate : Rat
  width_mm : Int
  height_mm : Int
  winsys_id : Nat
  scale : Int
  in_fullscreen : Int
  is_primary : Bool
  is_presentation : Bool
  outputs : Nat → Option MetaOutput
  n_outputs : Nat
  monitors : List MetaMonitor

/-- A logical monitor with what its functions change outside of it: the CRTCs
whose member `logical_monitor` was pointed at it, in the order of the
assignments, and the warnings logged. -/
structure MonitorWorld where
  logical_monitor : MetaLogicalMonitor
  crtc_logical_monitor : List Nat
  warnings : List String

/-- The instance that `g_object_new (META_TYPE_LOGICAL_MONITOR, NULL)` returns:
zeroed memory. -/
def MetaLogicalMonitor.zeroed : MetaLogicalMonitor :=
  { number := 0, rect := { x := 0, y := 0, width := 0, height := 0 }, refresh_rate := 0,
    width_mm := 0, height_mm := 0, winsys_id := 0, scale := 0, in_fullscreen := 0,
    is_primary := false, is_presentation := false, outputs := fun _ => none,
    n_outputs := 0, monitors := [] }

/-- The loop over the outputs that `meta_logical_monitor_new` and
`meta_logical_monitor_add_monitor` share, from the list position `l` with the
counter `i`: the result is the counter and `is_presentation` after the loop,
and the monitor. -/
def outputs_loop (META_MAX_OUTPUTS_PER_MONITOR : Nat) :
    List MetaOutput → Nat → Bool → MonitorWorld → Nat × Bool × MonitorWorld
  | [], i, is_presentation, m => (i, is_presentation, m)
  | output :: l, i, is_presentation, m =>
    let m := { m with crtc_logical_monitor := m.crtc_logical_monitor ++ [output.crtc] }
    let m :=
      if i ≤ META_MAX_OUTPUTS_PER_MONITOR then
        { m with
          logical_monitor :=
            { m.logical_monitor with
              outputs := Function.update m.logical_monitor.outputs i (some output) } }
      else { m with warnings := m.warnings ++ ["Couldn't add all outputs to monitor"] }
    outputs_loop META_MAX_OUTPUTS_PER_MONITOR l (i + 1)
      (is_presentation && output.is_presentation) m

/-- The constructor `meta_logical_monitor_new`; `none` when its `g_assert` that
the monitor is active fails. -/
def meta_logical_monitor_new (META_MAX_OUTPUTS_PER_MONITOR : Nat) (monitor : MetaMonitor)
    (x y number : Int) : Option MonitorWorld :=
  if !monitor.is_active then none
  else
    let main_output := monitor.main_output
    let logical_monitor : MetaLogicalMonitor :=
      { MetaLogicalMonitor.zeroed with
        number := number,
        refresh_rate := main_output.refresh_rate,
        width_mm := main_output.width_mm,
        height_mm := main_output.height_mm,
        winsys_id := main_output.winsys_id,
        scale := main_output.scale,
        in_fullscreen := -1,
        rect := { x := x, y := y, width := monitor.width, height := monitor.height } }
    let r := outputs_loop META_MAX_OUTPUTS_PER_MONITOR monitor.outputs 0 true
      { logical_monitor := logical_monitor, crtc_logical_monitor := [], warnings := [] }
    let m := r.2.2
    some { m with
      logical_monitor :=
        { m.logical_monitor with
          n_outputs := min r.1 META_MAX_OUTPUTS_PER_MONITOR,
          is_presentation := r.2.1,
          monitors := m.logical_monitor.monitors ++ [monitor] } }

/-- The function `meta_logical_monitor_add_monitor`. -/
def meta_logical_monitor_add_monitor (META_MAX_OUTPUTS_PER_MONITOR : Nat) (m : MonitorWorld)
    (monitor : MetaMonitor) : MonitorWorld :=
  let is_presentation := m.logical_monitor.is_presentation
  let m := { m with
    logical_monitor :=
      { m.logical_monitor with monitors := m.logical_monitor.monitors ++ [monitor] } }
  let r := outputs_loop META_MAX_OUTPUTS_PER_MONITOR monitor.outputs
    m.logical_monitor.n_outputs is_presentation m
  let m := r.2.2
  { m with
    logical_monitor :=
      { m.logical_monitor with
        n_outputs := min r.1 META_MAX_OUTPUTS_PER_MONITOR,
        is_presentation := r.2.1 } }

/-- The query `meta_logical_monitor_is_primary`. -/
def meta_logical_monitor_is_primary (logical_monitor : MetaLogicalMonitor) : Bool :=
  logical_monitor.is_primary

/-- The function `meta_logical_monitor_make_primary`. -/
def meta_logical_monitor_make_primary (logical_monitor : MetaLogicalMonitor) :
    MetaLogicalMonitor :=
  { logical_monitor with is_primary := true }

/-! ## The reachable worlds -/

/-- Whether a call gets from X what X gives: the window id that
`cogl_x11_onscreen_get_window_xid` reports during a realize is the id of a
window, never `None`.  Every other call qualifies. -/
def Op.windowReported : Op → Bool
  | .realize env => env.xid != None
  | _ => true

/-- The worlds reached from an initial world, in which every stage window is
as `meta_stage_x11_init` leaves it, by calls of the transition system `step`
on any stage window: realize, unrealize, show, hide, resize, set_fullscreen,
the setters, translated events and fired timeouts. -/
inductive StageReachable : World → Prop where
  | init (backend : ClutterBackendX11) (default_root : Window) (wrapper : ClutterStage) :
      StageReachable (World.initial backend default_root wrapper)
  | call (w w' : World) (p : StagePtr) (op : Op) (h : StageReachable w)
      (hx : op.windowReported = true) (hs : step w p op = some w') : StageReachable w'

/-! ## Concrete worlds -/

/-- A backend with distinct atoms and root window 1. -/
def backend0 : ClutterBackendX11 :=
  { atom_NET_WM_STATE := 100, atom_NET_WM_STATE_FULLSCREEN := 101,
    atom_WM_DELETE_WINDOW := 102, atom_NET_WM_PING := 103, atom_NET_WM_PID := 104,
    atom_NET_WM_NAME := 105, atom_UTF8_STRING := 106, atom_NET_WM_USER_TIME := 107,
    xwin_root := 1 }

/-- A stage actor of size 640x480 with minimum size 10x20, not user resizable,
not fullscreen. -/
def wrapper0 : ClutterStage :=
  { is_fullscreen := false, is_activated := false, user_resizable := false,
    min_width := 10, min_height := 20, width := 640, height := 480,
    in_destruction := false, mapped := false, relayouts := 0, viewports := 0,
    redraws := [], state_updates := [] }

/-- The initial world over `backend0` and `wrapper0`. -/
def world0 : World := World.initial backend0 1 wrapper0

/-- A realize in which everything succeeds and the new window is 5. -/
def env0 : RealizeEnv :=
  { allocate_ok := true, parent_realize := true, xid := 5, pid := 4242,
    device_manager := false }

/-- The world after realizing stage 0 of `world0`. -/
def world_realized : World := (step world0 0 (.realize env0)).getD world0

/-- The world after realizing and then showing stage 0 of `world0`. -/
def world_mapped : World := meta_stage_x11_show world_realized 0 false

/-- The world after a geometry notification of 800x600 on the mapped stage 0:
a cool-off timeout is pending. -/
def world_resizing : World :=
  (meta_stage_x11_translate_event world_mapped 0 (.ConfigureNotify 5 5 800 600) none
    { type := .CLUTTER_NOTHING, stage := none }).2.2

/-- The world after `resize (800, 600)` on the unrealized stage 0 of `world0`,
whose actor has the size 640x480. -/
def world_buffered : World := meta_stage_x11_resize world0 0 800 600

/-- The mapped stage 0 of `world_mapped` with its actor in destruction. -/
def world_destroying : World :=
  world_mapped.setWrapper 0 { (world_mapped.stage 0).wrapper with in_destruction := true }

/-- The unrealized stage 0 of `world0` with its actor in destruction. -/
def world0_destroying : World :=
  world0.setWrapper 0 { wrapper0 with in_destruction := true }

/-- The unrealized stage 0 of `world0` with the confirmed state fullscreen. -/
def world0_fullscreen : World :=
  world0.setWrapper 0 { wrapper0 with is_fullscreen := true }

/-- The world after unrealizing the mapped stage 0 of `world_mapped`. -/
def world_unrealized : World := meta_stage_x11_unrealize world_mapped 0

/-- The world after realizing stage 0 of `world_buffered`. -/
def world_buffered_realized : World :=
  (step world_buffered 0 (.realize env0)).getD world_buffered

/-- The world after `set_fullscreen (true)` on the unrealized stage 0 of
`world0` and then realize. -/
def world_deferred_realized : World :=
  (step (meta_stage_x11_set_fullscreen world0 0 true) 0 (.realize env0)).getD world0

/-- The world after the window manager confirmed fullscreen for the mapped
stage 0 of `world_mapped`: its `_NET_WM_STATE` holds the fullscreen atom. -/
def world_mapped_fullscreen : World :=
  (meta_stage_x11_translate_event world_mapped 0 (.PropertyNotify 5 100) (some [101])
    { type := .CLUTTER_NOTHING, stage := none }).2.2

/-- The realized stage 0 of `world_realized`, user resizable and with a minimum
width of 3000000000, which is above `INT_MAX`. -/
def world_realized_wide : World :=
  world_realized.setWrapper 0
    { (world_realized.stage 0).wrapper with user_resizable := true, min_width := 3000000000 }

/-- The `gfloat` 640.7. -/
def gfloat_640_7 : Rat := { num := 6407, den := 10, den_nz := by decide, reduced := by decide }

/-- The `gfloat` 479.5. -/
def gfloat_479_5 : Rat := { num := 959, den := 2, den_nz := by decide, reduced := by decide }

/-- The initial world over `backend0` whose stage actors have the size
640.7x479.5. -/
def world_fractional : World :=
  World.initial backend0 1 { wrapper0 with width := gfloat_640_7, height := gfloat_479_5 }

/-- The world after `resize (800, 600)` and then realize on stage 0 of
`world_fractional`. -/
def world_fractional_realized : World :=
  (step (meta_stage_x11_resize world_fractional 0 800 600) 0 (.realize env0)).getD
    world_fractional

/-- The world in which the window manager resizes the window before it
confirms fullscreen: `set_fullscreen (true)` on the mapped stage 0, which
tracks 640x480, then a geometry notification of 1920x1080, then the property
notification whose `_NET_WM_STATE` holds the fullscreen atom. -/
def world_fullscreen_late : World :=
  (meta_stage_x11_translate_event
    (meta_stage_x11_translate_event (meta_stage_x11_set_fullscreen world_mapped 0 true) 0
      (.ConfigureNotify 5 5 1920 1080) none { type := .CLUTTER_NOTHING, stage := none }).2.2
    0 (.PropertyNotify 5 100) (some [101]) { type := .CLUTTER_NOTHING, stage := none }).2.2

/-! ## Reading the heap and the trace -/

/-- Passing the `int` 1 for an `unsigned int` gives 1. -/
theorem int_to_uint_one : int_to_uint 1 = 1 := by decide

/-- An `int` that is not negative keeps its value when it is passed for an
`unsigned int`. -/
theorem int_to_uint_of_nonneg (i : Int) (h0 : 0 ≤ i) (h1 : i < 4294967296) :
    ((int_to_uint i : Nat) : Int) = i := by
  unfold int_to_uint
  rw [Int.emod_eq_of_lt h0 h1]
  exact Int.toNat_of_nonneg h0

/-- A negative `int` above `-2^32` passed for an `unsigned int` arrives as
its value plus 2^32. -/
theorem int_to_uint_of_neg (i : Int) (h0 : i < 0) (h1 : -4294967296 ≤ i) :
    ((int_to_uint i : Nat) : Int) = i + 4294967296 := by
  unfold int_to_uint
  have e : i % 4294967296 = i + 4294967296 := by
    rw [← Int.add_emod_self]
    exact Int.emod_eq_of_lt (by omega) (by omega)
  rw [e]
  exact Int.toNat_of_nonneg (by omega)

/-- A `gfloat` that is a whole number keeps its value when it is assigned to
an `int`. -/
theorem gfloat_to_int_intCast (n : Int) : gfloat_to_int (n : Rat) = n := by
  simp [gfloat_to_int]

/-- A `gfloat` that is not negative is rounded down when it is assigned to an
`int`. -/
theorem gfloat_to_int_of_nonneg (x : Rat) (h : 0 ≤ x) : gfloat_to_int x = ⌊x⌋ := by
  unfold gfloat_to_int
  rw [Rat.floor_def]
  exact Int.tdiv_eq_ediv (Rat.num_nonneg.mpr h) (Int.ofNat_nonneg _)

/-- A `gfloat` that is not positive is rounded up when it is assigned to an
`int`. -/
theorem gfloat_to_int_of_nonpos (x : Rat) (h : x ≤ 0) : gfloat_to_int x = ⌈x⌉ := by
  have e : gfloat_to_int x = - gfloat_to_int (-x) := by
    unfold gfloat_to_int
    simp [Int.neg_tdiv]
  rw [e, gfloat_to_int_of_nonneg (-x) (by linarith), Int.floor_neg, neg_neg]

/-- A `guint` up to `INT_MAX` keeps its value when it is assigned to an
`int`. -/
theorem guint_to_int_of_le (n : Nat) (h : n ≤ 2147483647) : guint_to_int n = (n : Int) := by
  unfold guint_to_int
  have e : n % 4294967296 = n := Nat.mod_eq_of_lt (by omega)
  rw [e, if_pos (by omega)]

/-- A `guint` above `INT_MAX` becomes negative when it is assigned to an
`int`: its value minus 2^32. -/
theorem guint_to_int_of_gt (n : Nat) (h0 : 2147483647 < n) (h1 : n < 4294967296) :
    guint_to_int n = (n : Int) - 4294967296 := by
  unfold guint_to_int
  have e : n % 4294967296 = n := Nat.mod_eq_of_lt h1
  rw [e, if_neg (by omega)]

@[simp] theorem stage_setStage_same (w : World) (p : StagePtr) (s : MetaStageX11) :
    (w.setStage p s).stage p = s := by
  simp [World.stage, World.setStage]

theorem stage_setStage_ne (w : World) (p q : StagePtr) (s : MetaStageX11) (h : q ≠ p) :
    (w.setStage p s).stage q = w.stage q := by
  simp [World.stage, World.setStage, h]

theorem stage_setStage (w : World) (p q : StagePtr) (s : MetaStageX11) :
    (w.setStage p s).stage q = if q = p then s else w.stage q := by
  simp [World.stage, World.setStage]

@[simp] theorem stage_emit (w : World) (r : XRequest) (p : StagePtr) :
    (w.emit r).stage p = w.stage p := rfl

@[simp] theorem stage_warn (w : World) (m : String) (p : StagePtr) :
    (w.warn m).stage p = w.stage p := rfl

@[simp] theorem requests_emit (w : World) (r : XRequest) :
    (w.emit r).requests = w.requests ++ [r] := rfl

@[simp] theorem requests_warn (w : World) (m : String) :
    (w.warn m).requests = w.requests := rfl

@[simp] theorem requests_setStage (w : World) (p : StagePtr) (s : MetaStageX11) :
    (w.setStage p s).requests = w.requests := rfl

@[simp] theorem backend_emit (w : World) (r : XRequest) :
    (w.emit r).backend = w.backend := rfl

@[simp] theorem backend_setStage (w : World) (p : StagePtr) (s : MetaStageX11) :
    (w.setStage p s).backend = w.backend := rfl

@[simp] theorem default_root_setStage (w : World) (p : StagePtr) (s : MetaStageX11) :
    (w.setStage p s).default_root = w.default_root := rfl

@[simp] theorem default_root_emit (w : World) (r : XRequest) :
    (w.emit r).default_root = w.default_root := rfl

/-- Writing back the object that is already at an address changes nothing. -/
theorem setStage_self (w : World) (p : StagePtr) : w.setStage p (w.stage p) = w := by
  cases w
  simp only [World.setStage, World.stage, World.mk.injEq, and_true, true_and]
  funext q
  split <;> simp_all

/-! ## Size hints and resizing -/

/-- On a stage without a window `meta_stage_x11_fix_window_size` does nothing. -/
theorem fix_window_size_unrealized (w : World) (p : StagePtr) (nw nh : Int)
    (h : (w.stage p).xwin = None) : meta_stage_x11_fix_window_size w p nw nh = w := by
  simp [meta_stage_x11_fix_window_size, h]

/-- The function `meta_stage_x11_fix_window_size` changes no stage object. -/
theorem fix_window_size_stage (w : World) (p q : StagePtr) (nw nh : Int) :
    (meta_stage_x11_fix_window_size w p nw nh).stage q = w.stage q := by
  unfold meta_stage_x11_fix_window_size
  dsimp only
  split <;> rfl

@[simp] theorem warnings_emit (w : World) (r : XRequest) :
    (w.emit r).warnings = w.warnings := rfl

@[simp] theorem warnings_setStage (w : World) (p : StagePtr) (s : MetaStageX11) :
    (w.setStage p s).warnings = w.warnings := rfl

@[simp] theorem warnings_warn (w : World) (m : String) :
    (w.warn m).warnings = w.warnings ++ [m] := rfl

/-- On a stage with a window `meta_stage_x11_fix_window_size` is one write of
size hints on that window. -/
theorem fix_window_size_emits (w : World) (p : StagePtr) (nw nh : Int)
    (h : (w.stage p).xwin ≠ None) :
    ∃ hints, meta_stage_x11_fix_window_size w p nw nh =
      w.emit (.XSetWMNormalHints (w.stage p).xwin hints) := by
  unfold meta_stage_x11_fix_window_size
  simp only [h, ne_eq, not_false_eq_true, if_true]
  exact ⟨_, rfl⟩

/-- Logging a warning and deriving the size hints commute. -/
theorem fix_window_size_warn (w : World) (p : StagePtr) (nw nh : Int) (m : String) :
    meta_stage_x11_fix_window_size (w.warn m) p nw nh =
      (meta_stage_x11_fix_window_size w p nw nh).warn m := by
  unfold meta_stage_x11_fix_window_size
  simp only [stage_warn]
  split <;> rfl

/-- The function `meta_stage_x11_fix_window_size` logs no warning. -/
theorem fix_window_size_warnings (w : World) (p : StagePtr) (nw nh : Int) :
    (meta_stage_x11_fix_window_size w p nw nh).warnings = w.warnings := by
  unfold meta_stage_x11_fix_window_size
  dsimp only
  split <;> rfl

/-- C1 (as amended): a resize with a zero width or a zero height on a stage without
fullscreen intent logs one warning and applies the size (1, 1), whatever the
other dimension was.  Without a window, (1, 1) is stored as the tracked size
and nothing is sent; with a window, the tracked size is kept, the size hints
are derived for (1, 1), and a resize to (1, 1) is requested exactly when the
tracked size is not (1, 1). -/
theorem resize_zero_applies_one_by_one (w : World) (p : StagePtr) (width height : Int)
    (hfs : (w.stage p).fullscreening = false) (hz : width = 0 ∨ height = 0) :
    (meta_stage_x11_resize w p width height).warnings =
        w.warnings ++ ["X11 stage not allowed to have 0 width or height"] ∧
    ((w.stage p).xwin = None →
      ((meta_stage_x11_resize w p width height).stage p).xwin_width = 1 ∧
      ((meta_stage_x11_resize w p width height).stage p).xwin_height = 1 ∧
      (meta_stage_x11_resize w p width height).requests = w.requests) ∧
    ((w.stage p).xwin ≠ None →
      (meta_stage_x11_resize w p width height).stage p = w.stage p ∧
      (meta_stage_x11_resize w p width height).requests =
        (meta_stage_x11_fix_window_size w p 1 1).requests ++
          (if (w.stage p).xwin_width = 1 ∧ (w.stage p).xwin_height = 1 then []
           else [XRequest.XResizeWindow (w.stage p).xwin 1 1])) := by
  have hz' : decide (width = 0 ∨ height = 0) = true := by simpa using hz
  by_cases hx : (w.stage p).xwin = None
  · have e : meta_stage_x11_resize w p width height =
        (w.warn "X11 stage not allowed to have 0 width or height").setStage p
          { w.stage p with xwin_width := 1, xwin_height := 1 } := by
      unfold meta_stage_x11_resize
      simp [hfs, hz', hx]
    rw [e]
    simp [hx]
  · have e : meta_stage_x11_resize w p width height =
        if (w.stage p).xwin_width = 1 ∧ (w.stage p).xwin_height = 1 then
          (meta_stage_x11_fix_window_size w p 1 1).warn
            "X11 stage not allowed to have 0 width or height"
        else
          ((meta_stage_x11_fix_window_size w p 1 1).warn
            "X11 stage not allowed to have 0 width or height").emit
            (.XResizeWindow (w.stage p).xwin 1 1) := by
      unfold meta_stage_x11_resize
      simp only [hfs, hz', fix_window_size_warn]
      by_cases hd : (w.stage p).xwin_width = 1 ∧ (w.stage p).xwin_height = 1
      · simp [hd, hx, fix_window_size_warn]
      · have hd' : (1 : Int) ≠ (w.stage p).xwin_width ∨ (1 : Int) ≠ (w.stage p).xwin_height := by
          by_contra hc
          push_neg at hc
          exact hd ⟨hc.1.symm, hc.2.symm⟩
        simp [hd, hd', hx, fix_window_size_warn, int_to_uint_one]
    rw [e]
    refine ⟨?_, fun h => absurd h hx, fun _ => ?_⟩
    · split <;> simp [fix_window_size_warnings]
    · split <;> simp [fix_window_size_stage]

/-- C1, at a concrete input: `resize (0, 300)` on the initial, unrealized stage
stores (1, 1). -/
theorem resize_zero_applies_one_by_one_witness :
    (meta_stage_x11_resize world0 0 0 300).warnings =
        world0.warnings ++ ["X11 stage not allowed to have 0 width or height"] ∧
    ((world0.stage 0).xwin = None →
      ((meta_stage_x11_resize world0 0 0 300).stage 0).xwin_width = 1 ∧
      ((meta_stage_x11_resize world0 0 0 300).stage 0).xwin_height = 1 ∧
      (meta_stage_x11_resize world0 0 0 300).requests = world0.requests) ∧
    ((world0.stage 0).xwin ≠ None →
      (meta_stage_x11_resize world0 0 0 300).stage 0 = world0.stage 0 ∧
      (meta_stage_x11_resize world0 0 0 300).requests =
        (meta_stage_x11_fix_window_size world0 0 1 1).requests ++
          (if (world0.stage 0).xwin_width = 1 ∧ (world0.stage 0).xwin_height = 1 then []
           else [XRequest.XResizeWindow (world0.stage 0).xwin 1 1])) :=
  resize_zero_applies_one_by_one world0 0 0 300 (by decide) (by decide)

/-- C1 fails as stated: on the initial stage (no window, no fullscreen intent)
`resize (0, 300)` applies the height 1, not 300. -/
theorem resize_zero_keeps_other_dimension_counterexample :
    (world0.stage 0).fullscreening = false ∧ (world0.stage 0).xwin = None ∧
    ((meta_stage_x11_resize world0 0 0 300).stage 0).xwin_width = 1 ∧
    ((meta_stage_x11_resize world0 0 0 300).stage 0).xwin_height = 1 ∧
    ((meta_stage_x11_resize world0 0 0 300).stage 0).xwin_height ≠ 300 := by
  decide

/-! ## The claims on size hints and resizing -/

/-- C3 (as amended): on a stage without a window `meta_stage_x11_fix_window_size`
writes nothing; on a stage with a window it writes exactly one size hint
payload: no flags when fullscreen intent is active; else, for a user
resizable stage, only the minimum (`PMinSize`), equal to the minimum size of
the stage as the `int` it is assigned to; else minimum and maximum
(`PMinSize | PMaxSize`), both equal to the given size in which a width or
height that is not positive is replaced by the minimum width or height of
the stage, again as an `int`.  The minimum, a `guint`, is the same number as
an `int` when it is at most `INT_MAX`; above, the `int` is the minimum minus
2^32. -/
theorem fix_window_size_payload (w : World) (p : StagePtr) (nw nh : Int) :
    ((w.stage p).xwin = None → meta_stage_x11_fix_window_size w p nw nh = w) ∧
    ((w.stage p).xwin ≠ None →
      ∃ hints, meta_stage_x11_fix_window_size w p nw nh =
          w.emit (.XSetWMNormalHints (w.stage p).xwin hints) ∧
        ((w.stage p).fullscreening = true →
          hints = { flags := 0, min_width := 0, min_height := 0,
                    max_width := 0, max_height := 0 }) ∧
        ((w.stage p).fullscreening = false → (w.stage p).wrapper.user_resizable = true →
          hints = { flags := PMinSize,
                    min_width := guint_to_int (w.stage p).wrapper.min_width,
                    min_height := guint_to_int (w.stage p).wrapper.min_height,
                    max_width := 0, max_height := 0 }) ∧
        ((w.stage p).fullscreening = false → (w.stage p).wrapper.user_resizable = false →
          hints = { flags := PMinSize ||| PMaxSize,
                    min_width :=
                      if nw ≤ 0 then guint_to_int (w.stage p).wrapper.min_width else nw,
                    min_height :=
                      if nh ≤ 0 then guint_to_int (w.stage p).wrapper.min_height else nh,
                    max_width :=
                      if nw ≤ 0 then guint_to_int (w.stage p).wrapper.min_width else nw,
                    max_height :=
                      if nh ≤ 0 then guint_to_int (w.stage p).wrapper.min_height else nh })) ∧
    (∀ n : Nat, (n ≤ 2147483647 → guint_to_int n = (n : Int)) ∧
      (2147483647 < n → n < 4294967296 → guint_to_int n = (n : Int) - 4294967296)) := by
  refine ⟨fix_window_size_unrealized w p nw nh, fun hx => ?_,
    fun n => ⟨guint_to_int_of_le n, guint_to_int_of_gt n⟩⟩
  unfold meta_stage_x11_fix_window_size
  simp only [hx, ne_eq, not_false_eq_true, if_true]
  refine ⟨_, rfl, ?_, ?_, ?_⟩
  · intro hfs
    simp [hfs, XAllocSizeHints]
  · intro hfs hr
    simp [hfs, hr, XAllocSizeHints, clutter_stage_get_user_resizable,
      clutter_stage_get_minimum_size]
  · intro hfs hr
    simp [hfs, hr, XAllocSizeHints, clutter_stage_get_user_resizable,
      clutter_stage_get_minimum_size]

/-- C3 fails as stated: on the realized stage of `world_realized` (not user
resizable, no fullscreen intent, minimum size 10x20) the hints written for
(0, 0) carry minimum and maximum (10, 20), not (0, 0). -/
theorem fix_window_size_nonpositive_counterexample :
    (world_realized.stage 0).xwin = 5 ∧
    (world_realized.stage 0).fullscreening = false ∧
    (world_realized.stage 0).wrapper.user_resizable = false ∧
    (meta_stage_x11_fix_window_size world_realized 0 0 0).requests =
      world_realized.requests ++
        [.XSetWMNormalHints 5
          { flags := 48, min_width := 10, min_height := 20,
            max_width := 10, max_height := 20 }] := by
  decide

/-- C8: `show`, with or without raise, on a stage that has no window changes
nothing at all: the whole world, with every stage object, the registry and the
trace of requests, is the one before. -/
theorem show_before_realize_noop (w : World) (p : StagePtr) (do_raise : Bool)
    (h : (w.stage p).xwin = None) : meta_stage_x11_show w p do_raise = w := by
  simp [meta_stage_x11_show, h]

/-- C8, at a concrete input: showing the initial stage with raise. -/
theorem show_before_realize_noop_witness :
    (world0.stage 0).xwin = None ∧ STAGE_X11_IS_MAPPED (world0.stage 0) = false ∧
    meta_stage_x11_show world0 0 true = world0 :=
  ⟨by decide, by decide, show_before_realize_noop world0 0 true (by decide)⟩

/-- C10 fails as stated: `resize (-5, 600)` on the realized stage of
`world_realized`, which tracks 640x480, writes the size hints and then
requests a resize of the window 5 to 4294967291x600: the width -5 reaches X
as an `unsigned int`. -/
theorem resize_negative_wraps_counterexample :
    (world_realized.stage 0).xwin = 5 ∧ (world_realized.stage 0).fullscreening = false ∧
    (meta_stage_x11_resize world_realized 0 (-5) 600).requests.drop
        world_realized.requests.length =
      [.XSetWMNormalHints 5
          { flags := 48, min_width := 10, min_height := 600,
            max_width := 10, max_height := 600 },
       .XResizeWindow 5 4294967291 600] := by
  decide

/-- C10 (as amended): a resize to a non-zero width and height on a stage with
a window and without fullscreen intent changes no stage object, so the
tracked size stays; it writes the size hints and then requests a resize of
the window exactly when the size differs from the tracked one.  The request
carries the width and the height as `unsigned int`: a dimension that is not
negative arrives as it is, a negative dimension arrives as its value plus
2^32. -/
theorem resize_realized_requests (w : World) (p : StagePtr) (width height : Int)
    (hw : width ≠ 0) (hh : height ≠ 0) (hx : (w.stage p).xwin ≠ None)
    (hfs : (w.stage p).fullscreening = false) :
    ((meta_stage_x11_resize w p width height).stage p).xwin_width = (w.stage p).xwin_width ∧
    ((meta_stage_x11_resize w p width height).stage p).xwin_height = (w.stage p).xwin_height ∧
    (∀ q, (meta_stage_x11_resize w p width height).stage q = w.stage q) ∧
    (meta_stage_x11_resize w p width height).requests =
      (meta_stage_x11_fix_window_size w p width height).requests ++
        (if width ≠ (w.stage p).xwin_width ∨ height ≠ (w.stage p).xwin_height then
          [XRequest.XResizeWindow (w.stage p).xwin (int_to_uint width) (int_to_uint height)]
         else []) ∧
    (XRequest.XResizeWindow (w.stage p).xwin (int_to_uint width) (int_to_uint height) ∈
        (meta_stage_x11_resize w p width height).requests.drop w.requests.length ↔
      (width ≠ (w.stage p).xwin_width ∨ height ≠ (w.stage p).xwin_height)) ∧
    (∀ d : Int,
      (0 ≤ d → d < 4294967296 → ((int_to_uint d : Nat) : Int) = d) ∧
      (d < 0 → -4294967296 ≤ d → ((int_to_uint d : Nat) : Int) = d + 4294967296)) := by
  have hz : decide (width = 0 ∨ height = 0) = false := by simp [hw, hh]
  have e : meta_stage_x11_resize w p width height =
      if width ≠ (w.stage p).xwin_width ∨ height ≠ (w.stage p).xwin_height then
        (meta_stage_x11_fix_window_size w p width height).emit
          (.XResizeWindow (w.stage p).xwin (int_to_uint width) (int_to_uint height))
      else meta_stage_x11_fix_window_size w p width height := by
    unfold meta_stage_x11_resize
    simp [hfs, hz, hx]
  obtain ⟨hints, hf⟩ := fix_window_size_emits w p width height hx
  rw [e, hf]
  refine ⟨?_, ?_, ?_, ?_, ?_,
    fun d => ⟨int_to_uint_of_nonneg d, int_to_uint_of_neg d⟩⟩ <;>
  by_cases hd : width ≠ (w.stage p).xwin_width ∨ height ≠ (w.stage p).xwin_height <;>
  simp [hd]

/-- C10, at a concrete input: the realized stage tracks 640x480; a resize to
800x600 keeps that and requests the resize of the window to 800x600. -/
theorem resize_realized_requests_witness :
    (world_realized.stage 0).xwin = 5 ∧ (world_realized.stage 0).fullscreening = false ∧
    ((meta_stage_x11_resize world_realized 0 800 600).stage 0).xwin_width = 640 ∧
    ((meta_stage_x11_resize world_realized 0 800 600).stage 0).xwin_height = 480 ∧
    (XRequest.XResizeWindow 5 800 600 ∈
        (meta_stage_x11_resize world_realized 0 800 600).requests.drop
          world_realized.requests.length ↔
      ((800 : Int) ≠ 640 ∨ (600 : Int) ≠ 480)) :=
  have h := resize_realized_requests world_realized 0 800 600 (by decide) (by decide)
    (by decide) (by decide)
  ⟨by decide, by decide, h.1, h.2.1, h.2.2.2.2.1⟩

/-! ## Frame lemmas -/

theorem stage_setWrapper (w : World) (q p : StagePtr) (c : ClutterStage) :
    (w.setWrapper q c).stage p = if p = q then { w.stage q with wrapper := c } else w.stage p := by
  simp [World.setWrapper, stage_setStage]

@[simp] theorem requests_setWrapper (w : World) (q : StagePtr) (c : ClutterStage) :
    (w.setWrapper q c).requests = w.requests := rfl

@[simp] theorem stage_g_source_remove (w : World) (id : Nat) (p : StagePtr) :
    (g_source_remove w id).stage p = w.stage p := rfl

@[simp] theorem stage_add_timeout (w : World) (d p : StagePtr) :
    ((clutter_threads_add_timeout w d).2).stage p = w.stage p := rfl

@[simp] theorem stage_send_wmspec_change_state (w : World) (win : Window) (a : Atom) (b : Bool)
    (q : StagePtr) : (send_wmspec_change_state w win a b).stage q = w.stage q := rfl

@[simp] theorem stage_update_state (w : World) (p : StagePtr) (a : Atom) (b : Bool)
    (q : StagePtr) : (update_state w p a b).stage q = w.stage q := by
  unfold update_state; split <;> rfl

@[simp] theorem backend_fix_window_size (w : World) (p : StagePtr) (nw nh : Int) :
    (meta_stage_x11_fix_window_size w p nw nh).backend = w.backend := by
  unfold meta_stage_x11_fix_window_size; dsimp only; split <;> rfl

@[simp] theorem backend_send_wmspec_change_state (w : World) (win : Window) (a : Atom)
    (b : Bool) : (send_wmspec_change_state w win a b).backend = w.backend := rfl

/-- The fields `meta_stage_x11_set_fullscreen` leaves alone, in every stage object. -/
theorem set_fullscreen_frame (w : World) (p : StagePtr) (b : Bool) (q : StagePtr) :
    ((meta_stage_x11_set_fullscreen w p b).stage q).wrapper = (w.stage q).wrapper ∧
    ((meta_stage_x11_set_fullscreen w p b).stage q).xwin = (w.stage q).xwin ∧
    ((meta_stage_x11_set_fullscreen w p b).stage q).wm_state = (w.stage q).wm_state ∧
    ((meta_stage_x11_set_fullscreen w p b).stage q).xwin_width = (w.stage q).xwin_width ∧
    ((meta_stage_x11_set_fullscreen w p b).stage q).xwin_height = (w.stage q).xwin_height ∧
    ((meta_stage_x11_set_fullscreen w p b).stage q).clipped_redraws_cool_off =
      (w.stage q).clipped_redraws_cool_off := by
  unfold meta_stage_x11_set_fullscreen
  simp only []
  split_ifs <;> simp [stage_setStage, fix_window_size_stage] <;> split_ifs <;> simp_all

@[simp] theorem stage_set_wm_protocols (w : World) (p q : StagePtr) :
    (meta_stage_x11_set_wm_protocols w p).stage q = w.stage q := rfl

@[simp] theorem stage_set_wm_pid (w : World) (p : StagePtr) (pid : Int) (q : StagePtr) :
    (set_wm_pid w p pid).stage q = w.stage q := by
  unfold set_wm_pid; dsimp only; split <;> rfl

@[simp] theorem stage_set_wm_title (w : World) (p q : StagePtr) :
    (set_wm_title w p).stage q = w.stage q := by
  unfold set_wm_title; dsimp only; split
  · rfl
  · split <;> rfl

@[simp] theorem stage_set_cursor_visible (w : World) (p q : StagePtr) :
    (set_cursor_visible w p).stage q = w.stage q := by
  unfold set_cursor_visible; dsimp only; split
  · rfl
  · split <;> rfl

@[simp] theorem stage_update_wm_hints (w : World) (p q : StagePtr) :
    (update_wm_hints w p).stage q = w.stage q := by
  unfold update_wm_hints; dsimp only; split <;> rfl

@[simp] theorem stage_set_user_time (w : World) (p : StagePtr) (t : Int) (q : StagePtr) :
    (set_user_time w p t).stage q = w.stage q := by
  unfold set_user_time; split <;> rfl

@[simp] theorem stage_handle_wm_protocols_event (w : World) (p : StagePtr)
    (xclient : XClientMessageEvent) (q : StagePtr) :
    ((handle_wm_protocols_event w p xclient).2).stage q = w.stage q := by
  unfold handle_wm_protocols_event; dsimp only; split
  · simp
  · split <;> rfl

/-- A state update changes the fullscreen flag as its flag lists say. -/
theorem is_fullscreen_update_state (c : ClutterStage)
    (unset_flags set_flags : List ClutterStageState) :
    (clutter_stage_update_state c unset_flags set_flags).is_fullscreen =
      ((c.is_fullscreen || decide (ClutterStageState.FULLSCREEN ∈ set_flags)) &&
        !decide (ClutterStageState.FULLSCREEN ∈ unset_flags)) := by
  unfold clutter_stage_update_state
  dsimp only
  split
  · rename_i h; exact h.1.symm
  · rfl

/-- What `meta_stage_x11_unrealize` does to the heap: the stage loses its
frame closure, its legacy view and its onscreen; nothing else changes. -/
theorem unrealize_stage (w : World) (p q : StagePtr) :
    (meta_stage_x11_unrealize w p).stage q =
      if q = p then
        { w.stage p with frame_closure := none, legacy_view := none, onscreen := none }
      else w.stage q := by
  unfold meta_stage_x11_unrealize
  cases h : w.clutter_stages_by_xid <;>
    simp only [World.stage, World.setStage] <;>
    split_ifs <;> simp_all

/-- What `meta_stage_x11_unrealize` does to the timeout sources: nothing. -/
theorem unrealize_sources (w : World) (p : StagePtr) :
    (meta_stage_x11_unrealize w p).sources = w.sources := by
  unfold meta_stage_x11_unrealize
  cases h : w.clutter_stages_by_xid <;>
    simp only [World.stage, World.setStage] <;>
    split_ifs <;> simp_all

/-- What `meta_stage_x11_unrealize` does to the trace of requests: nothing. -/
theorem unrealize_requests (w : World) (p : StagePtr) :
    (meta_stage_x11_unrealize w p).requests = w.requests := by
  unfold meta_stage_x11_unrealize
  cases h : w.clutter_stages_by_xid <;>
    simp only [World.stage, World.setStage] <;>
    split_ifs <;> simp_all

/-- What `meta_stage_x11_unrealize` does to the registry: the entry of the
window of the stage is removed. -/
theorem unrealize_registry (w : World) (p : StagePtr) :
    (meta_stage_x11_unrealize w p).clutter_stages_by_xid =
      w.clutter_stages_by_xid.map (fun t => g_hash_table_remove t (w.stage p).xwin) := by
  unfold meta_stage_x11_unrealize
  cases h : w.clutter_stages_by_xid <;>
    simp only [World.stage, World.setStage] <;>
    split_ifs <;> simp_all

/-- The geometry arm of the translator is `configure_notify`. -/
theorem translate_event_configure (w : World) (p sc : StagePtr) (e win : Window)
    (width height : Int) (reply : Option (List Atom)) (event : ClutterEvent)
    (h : meta_x11_get_stage_window_from_window w e = some sc) :
    meta_stage_x11_translate_event w p (.ConfigureNotify e win width height) reply event =
      (false, event, configure_notify w p sc width height) := by
  unfold meta_stage_x11_translate_event
  simp only [XEvent.xany_window, h]
  unfold configure_notify
  split <;> rfl

/-- The realize function is its pieces put together. -/
theorem realize_eq (w : World) (p : StagePtr) (env : RealizeEnv) :
    meta_stage_x11_realize w p env =
      if !env.allocate_ok then none
      else if !env.parent_realize then some (false, realize_onscreen w p)
      else some (true,
        realize_finish
          (realize_properties (realize_register (realize_onscreen w p) p env.xid) p env) p) := by
  rfl

/-- Bitwise: clearing the bits of `m` leaves none of them set. -/
theorem clear_and_self (a m : Nat) : (a ^^^ (a &&& m)) &&& m = 0 := by
  apply Nat.eq_of_testBit_eq
  intro i
  simp only [Nat.testBit_land, Nat.testBit_xor, Nat.zero_testBit]
  cases a.testBit i <;> cases m.testBit i <;> rfl

/-- Bitwise: setting the bits of `m` leaves all of them set. -/
theorem or_and_self (a m : Nat) : (a ||| m) &&& m = m := by
  apply Nat.eq_of_testBit_eq
  intro i
  simp only [Nat.testBit_land, Nat.testBit_lor]
  cases a.testBit i <;> cases m.testBit i <;> rfl

/-- What `set_stage_x11_state` does to the heap: the flags of the stage become
the old flags with `set_flags` set and then `unset_flags` cleared. -/
theorem set_stage_x11_state_stage (w : World) (p : StagePtr) (u s : Nat) (q : StagePtr) :
    (set_stage_x11_state w p u s).stage q =
      if q = p then
        { w.stage p with
          wm_state := ((w.stage p).wm_state ||| s) ^^^ (((w.stage p).wm_state ||| s) &&& u) }
      else w.stage q := by
  unfold set_stage_x11_state
  dsimp only
  split
  · rename_i h
    split
    · rename_i hq
      subst hq
      rw [h]
    · rfl
  · rw [stage_setStage]

@[simp] theorem requests_set_stage_x11_state (w : World) (p : StagePtr) (u s : Nat) :
    (set_stage_x11_state w p u s).requests = w.requests := by
  unfold set_stage_x11_state
  dsimp only
  split <;> rfl

/-! ## What each function leaves alone -/

/-- The resize entry point changes the wrapper of no stage. -/
theorem wrapper_resize (w : World) (p : StagePtr) (width height : Int) (q : StagePtr) :
    ((meta_stage_x11_resize w p width height).stage q).wrapper = (w.stage q).wrapper := by
  unfold meta_stage_x11_resize
  simp only []
  split_ifs <;> simp [stage_setStage, fix_window_size_stage] <;> split_ifs <;> simp_all

/-- The unrealize entry point changes the wrapper of no stage. -/
theorem wrapper_unrealize (w : World) (p q : StagePtr) :
    ((meta_stage_x11_unrealize w p).stage q).wrapper = (w.stage q).wrapper := by
  rw [unrealize_stage]
  split <;> simp_all

/-- The first piece of realize changes the wrapper and the intent fields of no
stage. -/
theorem realize_onscreen_frame (w : World) (p q : StagePtr) :
    ((realize_onscreen w p).stage q).wrapper = (w.stage q).wrapper ∧
    ((realize_onscreen w p).stage q).wm_state = (w.stage q).wm_state ∧
    ((realize_onscreen w p).stage q).fullscreening = (w.stage q).fullscreening ∧
    ((realize_onscreen w p).stage q).fullscreen_on_realize =
      (w.stage q).fullscreen_on_realize := by
  unfold realize_onscreen
  simp only [World.stage, World.setStage]
  by_cases hq : q = p
  · subst hq
    simp only [if_true]
    split <;> simp
  · simp only [hq, if_false]
    split <;> simp [hq]

/-- The second piece of realize changes the wrapper and the intent fields of no
stage. -/
theorem realize_register_frame (w : World) (p : StagePtr) (xid : Window) (q : StagePtr) :
    ((realize_register w p xid).stage q).wrapper = (w.stage q).wrapper ∧
    ((realize_register w p xid).stage q).wm_state = (w.stage q).wm_state ∧
    ((realize_register w p xid).stage q).fullscreening = (w.stage q).fullscreening ∧
    ((realize_register w p xid).stage q).fullscreen_on_realize =
      (w.stage q).fullscreen_on_realize := by
  unfold realize_register
  simp only [World.stage, World.setStage]
  by_cases hq : q = p
  · subst hq
    split <;> simp
  · split <;> simp [hq]

theorem stage_with_device_added (w : World) (d : List StagePtr) (q : StagePtr) :
    ({ w with device_added := d } : World).stage q = w.stage q := rfl

/-- The third piece of realize changes no stage object. -/
theorem realize_properties_stage (w : World) (p : StagePtr) (env : RealizeEnv) (q : StagePtr) :
    (realize_properties w p env).stage q = w.stage q := by
  unfold realize_properties
  simp only []
  split
  · exact (stage_with_device_added _ _ q).trans (by simp)
  · simp

/-- The last piece of realize changes the wrapper of no stage. -/
theorem realize_finish_wrapper (w : World) (p q : StagePtr) :
    ((realize_finish w p).stage q).wrapper = (w.stage q).wrapper := by
  unfold realize_finish
  simp only []
  split
  · rw [(set_fullscreen_frame _ p true q).1]
    simp [stage_setStage, fix_window_size_stage]
    split <;> simp_all
  · simp [fix_window_size_stage]

/-- A realize that returns changes the wrapper of no stage. -/
theorem wrapper_realize (w : World) (p : StagePtr) (env : RealizeEnv) (r : Bool × World)
    (h : meta_stage_x11_realize w p env = some r) (q : StagePtr) :
    (r.2.stage q).wrapper = (w.stage q).wrapper := by
  rw [realize_eq] at h
  split at h
  · cases h
  · split at h
    · cases h
      exact (realize_onscreen_frame w p q).1
    · cases h
      simp only []
      rw [realize_finish_wrapper, realize_properties_stage, (realize_register_frame _ p _ q).1,
        (realize_onscreen_frame w p q).1]

theorem wrapper_set_fullscreen (w : World) (p : StagePtr) (b : Bool) (q : StagePtr) :
    ((meta_stage_x11_set_fullscreen w p b).stage q).wrapper = (w.stage q).wrapper :=
  (set_fullscreen_frame w p b q).1

theorem xwin_set_fullscreen (w : World) (p : StagePtr) (b : Bool) (q : StagePtr) :
    ((meta_stage_x11_set_fullscreen w p b).stage q).xwin = (w.stage q).xwin :=
  (set_fullscreen_frame w p b q).2.1

theorem wm_state_set_fullscreen (w : World) (p : StagePtr) (b : Bool) (q : StagePtr) :
    ((meta_stage_x11_set_fullscreen w p b).stage q).wm_state = (w.stage q).wm_state :=
  (set_fullscreen_frame w p b q).2.2.1

/-- The cursor setter changes the wrapper of no stage. -/
theorem wrapper_set_cursor_visible (w : World) (p : StagePtr) (b : Bool) (q : StagePtr) :
    ((meta_stage_x11_set_cursor_visible w p b).stage q).wrapper = (w.stage q).wrapper := by
  unfold meta_stage_x11_set_cursor_visible
  simp [stage_setStage]
  split <;> simp_all

/-- The title setter changes the wrapper of no stage. -/
theorem wrapper_set_title (w : World) (p : StagePtr) (t : Option String) (q : StagePtr) :
    ((meta_stage_x11_set_title w p t).stage q).wrapper = (w.stage q).wrapper := by
  unfold meta_stage_x11_set_title
  simp [stage_setStage]
  split <;> simp_all

/-- The resizable setter changes no stage object. -/
theorem stage_set_user_resizable (w : World) (p : StagePtr) (b : Bool) (q : StagePtr) :
    (meta_stage_x11_set_user_resizable w p b).stage q = w.stage q := by
  unfold meta_stage_x11_set_user_resizable
  exact fix_window_size_stage _ _ _ _ _

/-- The focus setter changes the wrapper of no stage. -/
theorem wrapper_set_accept_focus (w : World) (p : StagePtr) (b : Bool) (q : StagePtr) :
    ((meta_stage_x11_set_accept_focus w p b).stage q).wrapper = (w.stage q).wrapper := by
  unfold meta_stage_x11_set_accept_focus
  simp [stage_setStage]
  split <;> simp_all

/-- The timeout callback changes the wrapper of no stage. -/
theorem wrapper_cool_off_cb (w : World) (d q : StagePtr) :
    ((clipped_redraws_cool_off_cb w d).stage q).wrapper = (w.stage q).wrapper := by
  unfold clipped_redraws_cool_off_cb
  simp [stage_setStage]
  split <;> simp_all

/-- Dispatching a timeout changes the wrapper of no stage. -/
theorem wrapper_dispatch_timeout (w : World) (id : Nat) (q : StagePtr) :
    ((dispatch_timeout w id).stage q).wrapper = (w.stage q).wrapper := by
  unfold dispatch_timeout
  split
  · simp [wrapper_cool_off_cb]
  · rfl

/-- The window and the wrapper flags that `set_stage_x11_state` leaves alone. -/
theorem set_stage_x11_state_frame (w : World) (p : StagePtr) (u s : Nat) (q : StagePtr) :
    ((set_stage_x11_state w p u s).stage q).xwin = (w.stage q).xwin ∧
    ((set_stage_x11_state w p u s).stage q).wrapper = (w.stage q).wrapper ∧
    ((set_stage_x11_state w p u s).stage q).fullscreening = (w.stage q).fullscreening := by
  rw [set_stage_x11_state_stage]
  split <;> simp_all

/-- The window and the confirmed fullscreen flag of every stage are left alone
by `meta_stage_x11_show`. -/
theorem show_frame (w : World) (p : StagePtr) (do_raise : Bool) (q : StagePtr) :
    ((meta_stage_x11_show w p do_raise).stage q).xwin = (w.stage q).xwin ∧
    ((meta_stage_x11_show w p do_raise).stage q).wrapper.is_fullscreen =
      (w.stage q).wrapper.is_fullscreen := by
  unfold meta_stage_x11_show
  simp only []
  have e1 : ∀ r, (if do_raise = true then w.emit r else w).stage = w.stage := by
    intro r; split <;> rfl
  split
  · simp only [stage_emit, stage_setWrapper, e1]
    split_ifs <;>
      simp [xwin_set_fullscreen, wrapper_set_fullscreen, set_stage_x11_state_frame, e1,
        clutter_actor_map] <;>
      simp_all
  · exact ⟨rfl, rfl⟩

/-- The window and the confirmed fullscreen flag of every stage are left alone
by `meta_stage_x11_hide`. -/
theorem hide_frame (w : World) (p q : StagePtr) :
    ((meta_stage_x11_hide w p).stage q).xwin = (w.stage q).xwin ∧
    ((meta_stage_x11_hide w p).stage q).wrapper.is_fullscreen =
      (w.stage q).wrapper.is_fullscreen := by
  unfold meta_stage_x11_hide
  simp only []
  split
  · simp only [stage_emit, stage_setWrapper]
    split_ifs <;> simp [set_stage_x11_state_frame, clutter_actor_unmap] <;> simp_all
  · exact ⟨rfl, rfl⟩

@[simp] theorem wm_state_setWrapper (w : World) (q p : StagePtr) (c : ClutterStage) :
    ((w.setWrapper q c).stage p).wm_state = (w.stage p).wm_state := by
  rw [stage_setWrapper]; split <;> simp_all

/-- The assertion of `meta_stage_x11_show` holds: on a stage with a window the
stage is mapped when the function is done. -/
theorem show_assertion_holds (w : World) (p : StagePtr) (do_raise : Bool)
    (h : (w.stage p).xwin ≠ None) :
    STAGE_X11_IS_MAPPED ((meta_stage_x11_show w p do_raise).stage p) = true := by
  unfold meta_stage_x11_show
  have e1 : ∀ r, (if do_raise = true then w.emit r else w).stage = w.stage := by
    intro r; split <;> rfl
  simp only [h, ne_eq, not_false_eq_true, if_true, stage_emit, e1]
  by_cases hm : STAGE_X11_IS_MAPPED (w.stage p) = true
  · simp only [hm, Bool.not_true, Bool.false_eq_true, if_false]
    unfold STAGE_X11_IS_MAPPED at hm ⊢
    rw [wm_state_setWrapper, e1]
    exact hm
  · have hm' : STAGE_X11_IS_MAPPED (w.stage p) = false := by simpa using hm
    simp only [hm', Bool.not_false, if_true]
    unfold STAGE_X11_IS_MAPPED
    rw [wm_state_setWrapper]
    split <;> split <;>
      simp [wm_state_set_fullscreen, set_stage_x11_state_stage, clear_and_self]

/-- The assertion of `meta_stage_x11_hide` holds: on a stage with a window the
stage is not mapped when the function is done. -/
theorem hide_assertion_holds (w : World) (p : StagePtr) (h : (w.stage p).xwin ≠ None) :
    STAGE_X11_IS_MAPPED ((meta_stage_x11_hide w p).stage p) = false := by
  unfold meta_stage_x11_hide
  simp only [h, ne_eq, not_false_eq_true, if_true, stage_emit]
  by_cases hm : STAGE_X11_IS_MAPPED (w.stage p) = true
  · simp only [hm, if_true]
    unfold STAGE_X11_IS_MAPPED
    rw [wm_state_setWrapper]
    simp [set_stage_x11_state_stage, or_and_self, STAGE_X11_WITHDRAWN]
  · simp only [hm, if_false, Bool.false_eq_true]
    unfold STAGE_X11_IS_MAPPED at hm ⊢
    rw [wm_state_setWrapper]
    simpa using hm

/-! ## What the translator leaves alone -/

/-- Writing a wrapper changes no lifecycle field. -/
theorem lifecycle_setWrapper (w : World) (sc q : StagePtr) (c : ClutterStage) :
    ((w.setWrapper sc c).stage q).lifecycle = (w.stage q).lifecycle := by
  rw [stage_setWrapper]; split <;> simp_all [MetaStageX11.lifecycle]

/-- Writing a wrapper with the same confirmed fullscreen flag keeps that flag
in every stage. -/
theorem is_fullscreen_setWrapper (w : World) (sc q : StagePtr) (c : ClutterStage)
    (h : c.is_fullscreen = (w.stage sc).wrapper.is_fullscreen) :
    ((w.setWrapper sc c).stage q).wrapper.is_fullscreen = (w.stage q).wrapper.is_fullscreen := by
  rw [stage_setWrapper]; split <;> simp_all

theorem configure_track_size_frame (w : World) (p sc : StagePtr) (width height : Int)
    (q : StagePtr) :
    ((configure_track_size w p sc width height).stage q).lifecycle = (w.stage q).lifecycle ∧
    ((configure_track_size w p sc width height).stage q).wrapper = (w.stage q).wrapper := by
  unfold configure_track_size
  split
  · rw [stage_setStage]; split <;> simp_all [MetaStageX11.lifecycle]
  · exact ⟨rfl, rfl⟩

theorem configure_actor_size_frame (w : World) (sc : StagePtr) (width height : Int)
    (q : StagePtr) :
    ((configure_actor_size w sc width height).stage q).lifecycle = (w.stage q).lifecycle ∧
    ((configure_actor_size w sc width height).stage q).wrapper.is_fullscreen =
      (w.stage q).wrapper.is_fullscreen := by
  unfold configure_actor_size
  refine ⟨lifecycle_setWrapper _ _ _ _, is_fullscreen_setWrapper _ _ _ _ ?_⟩
  rfl

theorem configure_cancel_cool_off_stage (w : World) (p q : StagePtr) :
    (configure_cancel_cool_off w p).stage q = w.stage q := by
  unfold configure_cancel_cool_off
  split <;> rfl

theorem configure_start_cool_off_frame (w : World) (p q : StagePtr) :
    ((configure_start_cool_off w p).stage q).lifecycle = (w.stage q).lifecycle ∧
    ((configure_start_cool_off w p).stage q).wrapper = (w.stage q).wrapper := by
  unfold configure_start_cool_off
  rw [stage_setStage]; split <;> simp_all [MetaStageX11.lifecycle]

theorem configure_relayout_frame (w : World) (sc q : StagePtr) :
    ((configure_relayout w sc).stage q).lifecycle = (w.stage q).lifecycle ∧
    ((configure_relayout w sc).stage q).wrapper.is_fullscreen =
      (w.stage q).wrapper.is_fullscreen := by
  unfold configure_relayout
  refine ⟨by rw [lifecycle_setWrapper, lifecycle_setWrapper], ?_⟩
  refine (is_fullscreen_setWrapper _ _ _ _ ?_).trans (is_fullscreen_setWrapper _ _ _ _ ?_) <;>
    rfl

theorem configure_legacy_view_frame (w : World) (p : StagePtr) (width height : Int)
    (q : StagePtr) :
    ((configure_legacy_view w p width height).stage q).lifecycle = (w.stage q).lifecycle ∧
    ((configure_legacy_view w p width height).stage q).wrapper = (w.stage q).wrapper := by
  unfold configure_legacy_view
  split
  · rw [stage_setStage]; split <;> simp_all [MetaStageX11.lifecycle]
  · exact ⟨rfl, rfl⟩

/-- The geometry arm changes no lifecycle field and no confirmed fullscreen
flag. -/
theorem configure_notify_frame (w : World) (p sc : StagePtr) (width height : Int)
    (q : StagePtr) :
    ((configure_notify w p sc width height).stage q).lifecycle = (w.stage q).lifecycle ∧
    ((configure_notify w p sc width height).stage q).wrapper.is_fullscreen =
      (w.stage q).wrapper.is_fullscreen := by
  unfold configure_notify
  split
  · constructor
    · rw [(configure_legacy_view_frame _ _ _ _ _).1, (configure_relayout_frame _ _ _).1,
        (configure_start_cool_off_frame _ _ _).1, configure_cancel_cool_off_stage,
        (configure_actor_size_frame _ _ _ _ _).1, (configure_track_size_frame _ _ _ _ _ _).1]
    · rw [(configure_legacy_view_frame _ _ _ _ _).2, (configure_relayout_frame _ _ _).2,
        (configure_start_cool_off_frame _ _ _).2, configure_cancel_cool_off_stage,
        (configure_actor_size_frame _ _ _ _ _).2, (configure_track_size_frame _ _ _ _ _ _).2]
  · constructor
    · rw [(configure_actor_size_frame _ _ _ _ _).1, (configure_track_size_frame _ _ _ _ _ _).1]
    · rw [(configure_actor_size_frame _ _ _ _ _).2, (configure_track_size_frame _ _ _ _ _ _).2]

/-- Translating an event changes no lifecycle field of any stage: window,
visibility flags, fullscreen intent and the deferred request stay. -/
theorem translate_event_lifecycle (w : World) (p : StagePtr) (xevent : XEvent)
    (reply : Option (List Atom)) (event : ClutterEvent) (q : StagePtr) :
    ((meta_stage_x11_translate_event w p xevent reply event).2.2.stage q).lifecycle =
      (w.stage q).lifecycle := by
  cases h : meta_x11_get_stage_window_from_window w xevent.xany_window with
  | none => unfold meta_stage_x11_translate_event; simp [h]
  | some sc =>
    cases xevent with
    | ConfigureNotify e win width height =>
      rw [translate_event_configure w p sc e win width height reply event h]
      exact (configure_notify_frame w p sc width height q).1
    | PropertyNotify win atom =>
      unfold meta_stage_x11_translate_event
      simp only [h]
      split_ifs <;> (try split) <;> (try split_ifs) <;>
        simp [lifecycle_setWrapper]
    | FocusIn win =>
      unfold meta_stage_x11_translate_event
      simp only [h]
      split_ifs <;> simp [lifecycle_setWrapper]
    | FocusOut win =>
      unfold meta_stage_x11_translate_event
      simp only [h]
      split_ifs <;> simp [lifecycle_setWrapper]
    | Expose win x y width height =>
      unfold meta_stage_x11_translate_event
      simp [h, lifecycle_setWrapper]
    | DestroyNotify e win =>
      unfold meta_stage_x11_translate_event
      simp [h]
    | ClientMessage xclient =>
      unfold meta_stage_x11_translate_event
      simp only [h]
      split_ifs <;> simp
    | Other t win =>
      unfold meta_stage_x11_translate_event
      simp [h]

/-- Translating an event that is not a notification about the window manager
state property changes the confirmed fullscreen flag of no stage. -/
theorem translate_event_is_fullscreen (w : World) (p : StagePtr) (xevent : XEvent)
    (reply : Option (List Atom)) (event : ClutterEvent) (q : StagePtr)
    (hn : Op.isStateFlagsNotify w.backend (.translate_event xevent reply) = false) :
    ((meta_stage_x11_translate_event w p xevent reply event).2.2.stage q).wrapper.is_fullscreen =
      (w.stage q).wrapper.is_fullscreen := by
  cases h : meta_x11_get_stage_window_from_window w xevent.xany_window with
  | none => unfold meta_stage_x11_translate_event; simp [h]
  | some sc =>
    cases xevent with
    | ConfigureNotify e win width height =>
      rw [translate_event_configure w p sc e win width height reply event h]
      exact (configure_notify_frame w p sc width height q).2
    | PropertyNotify win atom =>
      have ha : atom ≠ w.backend.atom_NET_WM_STATE := by
        simpa [Op.isStateFlagsNotify] using hn
      unfold meta_stage_x11_translate_event
      simp [h, ha]
    | FocusIn win =>
      unfold meta_stage_x11_translate_event
      simp only [h]
      split_ifs
      · exact is_fullscreen_setWrapper _ _ _ _ (by simp [is_fullscreen_update_state])
      · rfl
    | FocusOut win =>
      unfold meta_stage_x11_translate_event
      simp only [h]
      split_ifs
      · exact is_fullscreen_setWrapper _ _ _ _ (by simp [is_fullscreen_update_state])
      · rfl
    | Expose win x y width height =>
      unfold meta_stage_x11_translate_event
      simp only [h]
      exact is_fullscreen_setWrapper _ _ _ _ rfl
    | DestroyNotify e win =>
      unfold meta_stage_x11_translate_event
      simp [h]
    | ClientMessage xclient =>
      unfold meta_stage_x11_translate_event
      simp only [h]
      split_ifs <;> simp
    | Other t win =>
      unfold meta_stage_x11_translate_event
      simp [h]


/-! ## The claims on fullscreen -/

/-- C4: confirmed fullscreen state changes only through the translation of a
notification about the window manager state property.  Every other call on a
stage window that returns (realize, unrealize, show, hide, resize,
set_fullscreen, the four setters, the translation of any other event, a
timeout firing) leaves the confirmed fullscreen flag of every stage as it
was. -/
theorem confirmed_fullscreen_only_by_state_notify (w w' : World) (p : StagePtr) (op : Op)
    (hn : Op.isStateFlagsNotify w.backend op = false) (hs : step w p op = some w')
    (q : StagePtr) :
    (w'.stage q).wrapper.is_fullscreen = (w.stage q).wrapper.is_fullscreen := by
  cases op with
  | realize env =>
    simp only [step, Option.map_eq_some'] at hs
    obtain ⟨r, hr, rfl⟩ := hs
    rw [wrapper_realize w p env r hr q]
  | unrealize =>
    simp only [step, Option.some.injEq] at hs
    subst hs
    rw [wrapper_unrealize]
  | «show» do_raise =>
    simp only [step, Option.some.injEq] at hs
    subst hs
    exact (show_frame w p do_raise q).2
  | hide =>
    simp only [step, Option.some.injEq] at hs
    subst hs
    exact (hide_frame w p q).2
  | resize width height =>
    simp only [step, Option.some.injEq] at hs
    subst hs
    rw [wrapper_resize]
  | set_fullscreen b =>
    simp only [step, Option.some.injEq] at hs
    subst hs
    rw [wrapper_set_fullscreen]
  | set_title t =>
    simp only [step, Option.some.injEq] at hs
    subst hs
    rw [wrapper_set_title]
  | set_cursor_visible b =>
    simp only [step, Option.some.injEq] at hs
    subst hs
    rw [wrapper_set_cursor_visible]
  | set_user_resizable b =>
    simp only [step, Option.some.injEq] at hs
    subst hs
    rw [stage_set_user_resizable]
  | set_accept_focus b =>
    simp only [step, Option.some.injEq] at hs
    subst hs
    rw [wrapper_set_accept_focus]
  | translate_event xevent reply =>
    simp only [step, Option.some.injEq] at hs
    subst hs
    exact translate_event_is_fullscreen w p xevent reply _ q hn
  | timeout id =>
    simp only [step, Option.some.injEq] at hs
    subst hs
    rw [wrapper_dispatch_timeout]

/-- A fullscreen request equal to the confirmed state returns at once. -/
theorem set_fullscreen_same_as_confirmed (w : World) (p : StagePtr) (b : Bool)
    (h : (w.stage p).wrapper.is_fullscreen = b) : meta_stage_x11_set_fullscreen w p b = w := by
  unfold meta_stage_x11_set_fullscreen
  simp [clutter_stage_is_fullscreen, h]

/-- A fullscreen request on a stage in destruction returns at once. -/
theorem set_fullscreen_in_destruction (w : World) (p : StagePtr) (b : Bool)
    (h : (w.stage p).wrapper.in_destruction = true) :
    meta_stage_x11_set_fullscreen w p b = w := by
  unfold meta_stage_x11_set_fullscreen
  simp [h]

/-- Turning fullscreen on, on a mapped stage with a window that is neither
confirmed fullscreen nor in destruction: the intent is recorded, the size
hints are relaxed, and the add message is sent. -/
theorem set_fullscreen_on_mapped (w : World) (p : StagePtr)
    (hx : (w.stage p).xwin ≠ None) (hm : STAGE_X11_IS_MAPPED (w.stage p) = true)
    (hc : (w.stage p).wrapper.is_fullscreen = false)
    (hd : (w.stage p).wrapper.in_destruction = false) :
    meta_stage_x11_set_fullscreen w p true =
      send_wmspec_change_state
        (meta_stage_x11_fix_window_size
          (w.setStage p { w.stage p with fullscreening := true }) p (-1) (-1))
        (w.stage p).xwin w.backend.atom_NET_WM_STATE_FULLSCREEN true := by
  have hm' : STAGE_X11_IS_MAPPED { w.stage p with fullscreening := true } = true := hm
  unfold meta_stage_x11_set_fullscreen
  simp [clutter_stage_is_fullscreen, hc, hd, hx, hm', fix_window_size_stage]

/-- C2 (as amended): on a mapped stage with a window, with fullscreen neither
intended nor confirmed, `set_fullscreen (true)` followed by
`set_fullscreen (false)` with no notification in between leaves the confirmed
state as it was, and the second call does nothing at all, because the state
it asks for is the confirmed one: the world after both calls is the world
after the first.  So, unless the stage is in destruction, fullscreen intent
stays active and the requests sent are those of the first call: the size
hints without constraints, then the message that adds the fullscreen state;
no remove message follows. -/
theorem set_fullscreen_on_then_off (w : World) (p : StagePtr)
    (hx : (w.stage p).xwin ≠ None) (hm : STAGE_X11_IS_MAPPED (w.stage p) = true)
    (_hi : (w.stage p).fullscreening = false)
    (hc : (w.stage p).wrapper.is_fullscreen = false) :
    meta_stage_x11_set_fullscreen (meta_stage_x11_set_fullscreen w p true) p false =
      meta_stage_x11_set_fullscreen w p true ∧
    (∀ q, ((meta_stage_x11_set_fullscreen (meta_stage_x11_set_fullscreen w p true) p
        false).stage q).wrapper.is_fullscreen = (w.stage q).wrapper.is_fullscreen) ∧
    ((w.stage p).wrapper.in_destruction = false →
      ((meta_stage_x11_set_fullscreen (meta_stage_x11_set_fullscreen w p true) p
        false).stage p).fullscreening = true ∧
      (meta_stage_x11_set_fullscreen (meta_stage_x11_set_fullscreen w p true) p
        false).requests =
        w.requests ++
          [.XSetWMNormalHints (w.stage p).xwin
            { flags := 0, min_width := 0, min_height := 0, max_width := 0, max_height := 0 },
           .XSendEvent w.default_root false (SubstructureRedirectMask ||| SubstructureNotifyMask)
            { type := ClientMessage, serial := 0, send_event := false,
              window := (w.stage p).xwin, message_type := w.backend.atom_NET_WM_STATE,
              format := 32, l0 := NET_WM_STATE_ADD,
              l1 := (w.backend.atom_NET_WM_STATE_FULLSCREEN : Int),
              l2 := 0, l3 := 0, l4 := 0 }]) := by
  have h2 : meta_stage_x11_set_fullscreen (meta_stage_x11_set_fullscreen w p true) p false =
      meta_stage_x11_set_fullscreen w p true :=
    set_fullscreen_same_as_confirmed _ p false (by rw [wrapper_set_fullscreen]; exact hc)
  rw [h2]
  refine ⟨rfl, fun q => by rw [wrapper_set_fullscreen], fun hd => ?_⟩
  rw [set_fullscreen_on_mapped w p hx hm hc hd]
  unfold send_wmspec_change_state meta_stage_x11_fix_window_size
  simp [hx, XAllocSizeHints]

/-- C2, at a concrete input: the mapped stage of `world_mapped`. -/
theorem set_fullscreen_on_then_off_witness :
    (world_mapped.stage 0).xwin = 5 ∧
    meta_stage_x11_set_fullscreen (meta_stage_x11_set_fullscreen world_mapped 0 true) 0 false =
      meta_stage_x11_set_fullscreen world_mapped 0 true :=
  ⟨by decide,
   (set_fullscreen_on_then_off world_mapped 0 (by decide) (by decide) (by decide)
     (by decide)).1⟩

/-- C2 fails as stated: on the mapped stage of `world_mapped`, fullscreen
neither intended nor confirmed, after `set_fullscreen (true)` and then
`set_fullscreen (false)` the intent is still active, the last request is the
message that adds the fullscreen state (no remove message was sent), and the
last size hints written are the ones without constraints, not the hints
fixed to the tracked size 640x480. -/
theorem set_fullscreen_on_then_off_counterexample :
    (world_mapped.stage 0).xwin = 5 ∧
    STAGE_X11_IS_MAPPED (world_mapped.stage 0) = true ∧
    (world_mapped.stage 0).fullscreening = false ∧
    (world_mapped.stage 0).wrapper.is_fullscreen = false ∧
    ((meta_stage_x11_set_fullscreen (meta_stage_x11_set_fullscreen world_mapped 0 true) 0
      false).stage 0).fullscreening = true ∧
    (meta_stage_x11_set_fullscreen (meta_stage_x11_set_fullscreen world_mapped 0 true) 0
      false).requests.drop world_mapped.requests.length =
      [.XSetWMNormalHints 5
        { flags := 0, min_width := 0, min_height := 0, max_width := 0, max_height := 0 },
       .XSendEvent 1 false 1572864
        { type := 33, serial := 0, send_event := false, window := 5, message_type := 100,
          format := 32, l0 := 1, l1 := 101, l2 := 0, l3 := 0, l4 := 0 }] := by
  decide

/-- C4, at a concrete input: `set_fullscreen (true)` on the mapped stage of
`world_mapped` leaves the confirmed state false; the notification of the
window manager that the state property now holds the fullscreen atom is what
makes it true. -/
theorem confirmed_fullscreen_only_by_state_notify_witness :
    ((meta_stage_x11_set_fullscreen world_mapped 0 true).stage 0).wrapper.is_fullscreen =
      (world_mapped.stage 0).wrapper.is_fullscreen ∧
    (world_mapped.stage 0).wrapper.is_fullscreen = false ∧
    ((meta_stage_x11_translate_event (meta_stage_x11_set_fullscreen world_mapped 0 true) 0
      (.PropertyNotify 5 100) (some [101])
      { type := .CLUTTER_NOTHING, stage := none }).2.2.stage 0).wrapper.is_fullscreen = true :=
  ⟨confirmed_fullscreen_only_by_state_notify world_mapped
      (meta_stage_x11_set_fullscreen world_mapped 0 true) 0 (.set_fullscreen true) rfl rfl 0,
    by decide, by decide⟩

/-! ## The claims on unrealize -/

/-- After a removal the table has no entry under the removed key. -/
theorem lookup_remove_self (t : List (Window × StagePtr)) (key : Window) :
    g_hash_table_lookup (g_hash_table_remove t key) key = none := by
  unfold g_hash_table_lookup g_hash_table_remove
  simp only [Option.map_eq_none', List.find?_eq_none, List.mem_filter]
  intro e he
  simpa using he.2

/-- C5 (as amended): unrealize takes the window of the stage out of the
registry and releases the onscreen and its frame callback, but it resets
neither the window field nor the visibility flags: whatever state it is
called in, the stage keeps the handle it had and stays marked mapped when it
was mapped. -/
theorem unrealize_keeps_handle_and_visibility (w : World) (p : StagePtr) :
    ((meta_stage_x11_unrealize w p).stage p).xwin = (w.stage p).xwin ∧
    ((meta_stage_x11_unrealize w p).stage p).wm_state = (w.stage p).wm_state ∧
    STAGE_X11_IS_MAPPED ((meta_stage_x11_unrealize w p).stage p) =
      STAGE_X11_IS_MAPPED (w.stage p) ∧
    meta_x11_get_stage_window_from_window (meta_stage_x11_unrealize w p) (w.stage p).xwin =
      none ∧
    ((meta_stage_x11_unrealize w p).stage p).onscreen = none ∧
    ((meta_stage_x11_unrealize w p).stage p).frame_closure = none := by
  have hs := unrealize_stage w p p
  simp only [if_true] at hs
  refine ⟨by rw [hs], by rw [hs], by rw [hs]; rfl, ?_, by rw [hs], by rw [hs]⟩
  unfold meta_x11_get_stage_window_from_window
  rw [unrealize_registry]
  cases w.clutter_stages_by_xid with
  | none => rfl
  | some t => exact lookup_remove_self t _

/-- C5 fails as stated: after unrealize on the mapped stage of `world_mapped`
the stage still holds the window 5 and is still marked mapped, although the
registry no longer knows the window. -/
theorem unrealize_resets_handle_counterexample :
    (world_mapped.stage 0).xwin = 5 ∧
    STAGE_X11_IS_MAPPED (world_mapped.stage 0) = true ∧
    meta_x11_get_stage_window_from_window world_mapped 5 = some 0 ∧
    ((meta_stage_x11_unrealize world_mapped 0).stage 0).xwin = 5 ∧
    ((meta_stage_x11_unrealize world_mapped 0).stage 0).xwin ≠ None ∧
    STAGE_X11_IS_MAPPED ((meta_stage_x11_unrealize world_mapped 0).stage 0) = true ∧
    meta_x11_get_stage_window_from_window (meta_stage_x11_unrealize world_mapped 0) 5 =
      none := by
  decide

/-- C6 (as amended): unrealize does not touch the cool-off timeout: the
timeout sources of the main loop and the cool-off marker of every stage are
after unrealize what they were before, so a timeout that was pending is still
pending. -/
theorem unrealize_keeps_cool_off_timeout (w : World) (p : StagePtr) :
    (meta_stage_x11_unrealize w p).sources = w.sources ∧
    (∀ q, ((meta_stage_x11_unrealize w p).stage q).clipped_redraws_cool_off =
      (w.stage q).clipped_redraws_cool_off) ∧
    meta_stage_x11_can_clip_redraws (meta_stage_x11_unrealize w p) p =
      meta_stage_x11_can_clip_redraws w p := by
  have hq : ∀ q, ((meta_stage_x11_unrealize w p).stage q).clipped_redraws_cool_off =
      (w.stage q).clipped_redraws_cool_off := by
    intro q
    rw [unrealize_stage]
    split <;> simp_all
  refine ⟨unrealize_sources w p, hq, ?_⟩
  unfold meta_stage_x11_can_clip_redraws
  rw [hq]

/-- C6 fails as stated: in `world_resizing` the timeout source 1 is pending
for stage 0 and the cool-off marker is 1; after unrealize the source is still
attached and the marker is still 1. -/
theorem unrealize_cancels_timeout_counterexample :
    world_resizing.sources = [(1, 0)] ∧
    (world_resizing.stage 0).clipped_redraws_cool_off = 1 ∧
    (meta_stage_x11_unrealize world_resizing 0).sources = [(1, 0)] ∧
    ((meta_stage_x11_unrealize world_resizing 0).stage 0).clipped_redraws_cool_off = 1 ∧
    meta_stage_x11_can_clip_redraws (meta_stage_x11_unrealize world_resizing 0) 0 = false := by
  decide

/-! ## The claims on visibility -/

/-- A visibility call keeps the window of every stage. -/
theorem run_xwin (w : World) (p : StagePtr) (c : VisibilityCall) (q : StagePtr) :
    ((c.run w p).stage q).xwin = (w.stage q).xwin := by
  cases c with
  | «show» do_raise => exact (show_frame w p do_raise q).1
  | hide => exact (hide_frame w p q).1

/-- On a stage with a window a visibility call ends in the state it asks for. -/
theorem run_target (w : World) (p : StagePtr) (c : VisibilityCall)
    (h : (w.stage p).xwin ≠ None) :
    STAGE_X11_IS_MAPPED ((c.run w p).stage p) = c.target := by
  cases c with
  | «show» do_raise => exact show_assertion_holds w p do_raise h
  | hide => exact hide_assertion_holds w p h

/-- Running one more call at the end of a sequence. -/
theorem runVisibility_append (w : World) (p : StagePtr) (calls : List VisibilityCall)
    (c : VisibilityCall) :
    runVisibility w p (calls ++ [c]) = c.run (runVisibility w p calls) p := by
  simp [runVisibility, List.foldl_append]

/-- A sequence of visibility calls keeps the window of every stage. -/
theorem runVisibility_xwin (w : World) (p : StagePtr) (calls : List VisibilityCall)
    (q : StagePtr) : ((runVisibility w p calls).stage q).xwin = (w.stage q).xwin := by
  induction calls using List.reverseRecOn with
  | nil => rfl
  | append_singleton l c ih => rw [runVisibility_append, run_xwin, ih]

/-- C7: on a stage with a window, after any finite sequence of show and hide
calls the mapped flag is the one the last call asks for (mapped after show,
withdrawn after hide), and the flag before the sequence when the sequence is
empty; and a call made twice in a row leaves the flag that the call made once
leaves. -/
theorem show_hide_sequence (w : World) (p : StagePtr) (calls : List VisibilityCall)
    (hx : (w.stage p).xwin ≠ None) :
    STAGE_X11_IS_MAPPED ((runVisibility w p calls).stage p) =
      (calls.getLast?.map VisibilityCall.target).getD (STAGE_X11_IS_MAPPED (w.stage p)) ∧
    ∀ c : VisibilityCall,
      STAGE_X11_IS_MAPPED ((runVisibility w p (calls ++ [c, c])).stage p) =
        STAGE_X11_IS_MAPPED ((runVisibility w p (calls ++ [c])).stage p) := by
  constructor
  · induction calls using List.reverseRecOn with
    | nil => rfl
    | append_singleton l c _ =>
      rw [runVisibility_append, run_target _ _ _ (by rw [runVisibility_xwin]; exact hx)]
      simp
  · intro c
    have e : calls ++ [c, c] = (calls ++ [c]) ++ [c] := by simp
    rw [e, runVisibility_append, runVisibility_append,
      run_target _ _ _ (by rw [run_xwin, runVisibility_xwin]; exact hx),
      run_target _ _ _ (by rw [runVisibility_xwin]; exact hx)]

/-- C7, at a concrete input: show, hide, hide, show with raise on the realized
stage of `world_realized` ends mapped. -/
theorem show_hide_sequence_witness :
    (world_realized.stage 0).xwin = 5 ∧
    STAGE_X11_IS_MAPPED ((runVisibility world_realized 0
      [.show false, .hide, .hide, .show true]).stage 0) = true :=
  ⟨by decide,
   (show_hide_sequence world_realized 0 [.show false, .hide, .hide, .show true]
     (by decide)).1⟩

/-! ## The claims on resizing under fullscreen -/

/-- Turning fullscreen on, on a stage that is neither confirmed fullscreen nor
in destruction, records the intent. -/
theorem set_fullscreen_on_records_intent (w : World) (p : StagePtr)
    (hc : (w.stage p).wrapper.is_fullscreen = false)
    (hd : (w.stage p).wrapper.in_destruction = false) :
    ((meta_stage_x11_set_fullscreen w p true).stage p).fullscreening = true := by
  unfold meta_stage_x11_set_fullscreen
  simp only [clutter_stage_is_fullscreen, hc, hd]
  simp only [Bool.false_eq_true, if_false, if_true, stage_setStage_same]
  split_ifs <;> simp [fix_window_size_stage]

/-- C9: while fullscreen intent is active a resize is ignored entirely: the
world after `resize (width, height)` is the world before, with the tracked
size, every other field, and the trace of requests.  In particular this is so
after `set_fullscreen (true)` (on a stage that is neither confirmed fullscreen
nor in destruction) followed by the translation of any event, such as the
notification that confirms the fullscreen state. -/
theorem resize_ignored_while_fullscreening (w : World) (p : StagePtr) (width height : Int) :
    ((w.stage p).fullscreening = true → meta_stage_x11_resize w p width height = w) ∧
    ((w.stage p).wrapper.is_fullscreen = false → (w.stage p).wrapper.in_destruction = false →
      ∀ (xevent : XEvent) (reply : Option (List Atom)) (event : ClutterEvent),
        meta_stage_x11_resize
          (meta_stage_x11_translate_event (meta_stage_x11_set_fullscreen w p true) p
            xevent reply event).2.2 p width height =
        (meta_stage_x11_translate_event (meta_stage_x11_set_fullscreen w p true) p
          xevent reply event).2.2) := by
  have key : ∀ w' : World, (w'.stage p).fullscreening = true →
      meta_stage_x11_resize w' p width height = w' := by
    intro w' h
    unfold meta_stage_x11_resize
    simp [h]
  refine ⟨key w, fun hc hd xevent reply event => key _ ?_⟩
  have hl := translate_event_lifecycle (meta_stage_x11_set_fullscreen w p true) p xevent reply
    event p
  have hf := congrArg (fun t => t.2.2.1) hl
  simp only [MetaStageX11.lifecycle] at hf
  rw [hf]
  exact set_fullscreen_on_records_intent w p hc hd

/-- C9, at a concrete input: on the mapped stage of `world_mapped`, after
`set_fullscreen (true)` and the notification that the state property holds the
fullscreen atom, the confirmed state is fullscreen and `resize (800, 600)`
changes nothing. -/
theorem resize_ignored_while_fullscreening_witness :
    ((meta_stage_x11_translate_event (meta_stage_x11_set_fullscreen world_mapped 0 true) 0
      (.PropertyNotify 5 100) (some [101])
      { type := .CLUTTER_NOTHING, stage := none }).2.2.stage 0).wrapper.is_fullscreen = true ∧
    meta_stage_x11_resize
      (meta_stage_x11_translate_event (meta_stage_x11_set_fullscreen world_mapped 0 true) 0
        (.PropertyNotify 5 100) (some [101])
        { type := .CLUTTER_NOTHING, stage := none }).2.2 0 800 600 =
      (meta_stage_x11_translate_event (meta_stage_x11_set_fullscreen world_mapped 0 true) 0
        (.PropertyNotify 5 100) (some [101])
        { type := .CLUTTER_NOTHING, stage := none }).2.2 :=
  ⟨by decide,
   (resize_ignored_while_fullscreening world_mapped 0 800 600).2 (by decide) (by decide)
     (.PropertyNotify 5 100) (some [101]) { type := .CLUTTER_NOTHING, stage := none }⟩


/-- C3, at a concrete input: on the realized stage of `world_realized` (not
user resizable, no fullscreen intent) the hints written for 800x600 fix the
minimum and the maximum to 800x600; on the user resizable stage of
`world_realized_wide`, whose minimum width 3000000000 is above `INT_MAX`, the
hints carry the minimum width -1294967296. -/
theorem fix_window_size_payload_witness :
    (world_realized.stage 0).xwin ≠ None ∧
    (∃ hints, meta_stage_x11_fix_window_size world_realized 0 800 600 =
        world_realized.emit (.XSetWMNormalHints 5 hints) ∧
      hints = { flags := 48, min_width := 800, min_height := 600,
                max_width := 800, max_height := 600 }) ∧
    (∃ hints, meta_stage_x11_fix_window_size world_realized_wide 0 800 600 =
        world_realized_wide.emit (.XSetWMNormalHints 5 hints) ∧
      hints = { flags := 16, min_width := -1294967296, min_height := 20,
                max_width := 0, max_height := 0 }) :=
  have hx : (world_realized.stage 0).xwin ≠ None := by decide
  have hy : (world_realized_wide.stage 0).xwin ≠ None := by decide
  ⟨hx,
   match (fix_window_size_payload world_realized 0 800 600).2.1 hx with
   | ⟨hints, h1, _, _, h4⟩ => ⟨hints, h1, (h4 (by decide) (by decide)).trans (by decide)⟩,
   match (fix_window_size_payload world_realized_wide 0 800 600).2.1 hy with
   | ⟨hints, h1, _, h3, _⟩ => ⟨hints, h1, (h3 (by decide) (by decide)).trans (by decide)⟩⟩

/-! ## The claims on buffered sizes -/

/-- C11: a resize to a non-zero width and height on a stage without a window
and without fullscreen intent stores that size as the tracked size and does
nothing else: the world after the call is the world before with the two size
fields of the stage written, so the trace of requests is as it was and no
warning is logged. -/
theorem resize_unrealized_buffers (w : World) (p : StagePtr) (width height : Int)
    (hw : width ≠ 0) (hh : height ≠ 0) (hx : (w.stage p).xwin = None)
    (hfs : (w.stage p).fullscreening = false) :
    meta_stage_x11_resize w p width height =
      w.setStage p { w.stage p with xwin_width := width, xwin_height := height } ∧
    ((meta_stage_x11_resize w p width height).stage p).xwin_width = width ∧
    ((meta_stage_x11_resize w p width height).stage p).xwin_height = height ∧
    (meta_stage_x11_resize w p width height).requests = w.requests := by
  have hz : decide (width = 0 ∨ height = 0) = false := by simp [hw, hh]
  have e : meta_stage_x11_resize w p width height =
      w.setStage p { w.stage p with xwin_width := width, xwin_height := height } := by
    unfold meta_stage_x11_resize
    simp [hfs, hz, hx]
  rw [e]
  simp

/-- C11, at a concrete input: `resize (800, 600)` on the initial stage. -/
theorem resize_unrealized_buffers_witness :
    (world0.stage 0).xwin = None ∧
    ((meta_stage_x11_resize world0 0 800 600).stage 0).xwin_width = 800 ∧
    ((meta_stage_x11_resize world0 0 800 600).stage 0).xwin_height = 600 ∧
    (meta_stage_x11_resize world0 0 800 600).requests = world0.requests :=
  ⟨by decide,
   (resize_unrealized_buffers world0 0 800 600 (by decide) (by decide) (by decide)
     (by decide)).2⟩

/-! ## The claims on the fullscreen request -/

/-- C13: `set_fullscreen (b)` with `b` equal to the confirmed fullscreen state
does nothing: the world after the call is the world before, so no field of any
stage changes (fullscreen intent and the marker for realize included) and the
trace of requests gets no property write, size hints or client message. -/
theorem set_fullscreen_confirmed_noop (w : World) (p : StagePtr) (b : Bool)
    (h : clutter_stage_is_fullscreen (w.stage p).wrapper = b) :
    meta_stage_x11_set_fullscreen w p b = w ∧
    ((meta_stage_x11_set_fullscreen w p b).stage p).fullscreening =
      (w.stage p).fullscreening ∧
    ((meta_stage_x11_set_fullscreen w p b).stage p).fullscreen_on_realize =
      (w.stage p).fullscreen_on_realize ∧
    (meta_stage_x11_set_fullscreen w p b).requests = w.requests := by
  have e : meta_stage_x11_set_fullscreen w p b = w :=
    set_fullscreen_same_as_confirmed w p b h
  rw [e]
  exact ⟨rfl, rfl, rfl, rfl⟩

/-- C13, at a concrete input: `set_fullscreen (false)` on the mapped stage of
`world_mapped`, which is not confirmed fullscreen. -/
theorem set_fullscreen_confirmed_noop_witness :
    clutter_stage_is_fullscreen (world_mapped.stage 0).wrapper = false ∧
    meta_stage_x11_set_fullscreen world_mapped 0 false = world_mapped :=
  ⟨by decide, (set_fullscreen_confirmed_noop world_mapped 0 false (by decide)).1⟩

/-- C16: for every window, state atom and add flag, `send_wmspec_change_state`
sends exactly one event, to the root window of the default screen, without
propagation, under the substructure redirect and notify masks; the event is a
client message of type `_NET_WM_STATE` and format 32 that names the given
window and whose five data longs are the action (1 to add, 0 to remove), the
state atom, 0, 0, 0.  Nothing else in the world changes. -/
theorem send_wmspec_change_state_message (w : World) (window : Window) (state : Atom)
    (add : Bool) :
    send_wmspec_change_state w window state add =
      w.emit (.XSendEvent w.default_root false
        (SubstructureRedirectMask ||| SubstructureNotifyMask)
        { type := ClientMessage, serial := 0, send_event := false, window := window,
          message_type := w.backend.atom_NET_WM_STATE, format := 32,
          l0 := if add then 1 else 0, l1 := (state : Int), l2 := 0, l3 := 0, l4 := 0 }) ∧
    (send_wmspec_change_state w window state add).requests =
      w.requests ++
        [.XSendEvent w.default_root false 1572864
          { type := 33, serial := 0, send_event := false, window := window,
            message_type := w.backend.atom_NET_WM_STATE, format := 32,
            l0 := if add then 1 else 0, l1 := (state : Int), l2 := 0, l3 := 0, l4 := 0 }] := by
  constructor
  · unfold send_wmspec_change_state
    cases add <;> rfl
  · unfold send_wmspec_change_state
    cases add <;> rfl


/-- Turning fullscreen on, on a withdrawn stage with a window that is neither
confirmed fullscreen nor in destruction: the intent is recorded and the state
property is written. -/
theorem set_fullscreen_on_withdrawn (w : World) (p : StagePtr)
    (hx : (w.stage p).xwin ≠ None) (hm : STAGE_X11_IS_MAPPED (w.stage p) = false)
    (hc : (w.stage p).wrapper.is_fullscreen = false)
    (hd : (w.stage p).wrapper.in_destruction = false) :
    meta_stage_x11_set_fullscreen w p true =
      update_state (w.setStage p { w.stage p with fullscreening := true }) p
        w.backend.atom_NET_WM_STATE_FULLSCREEN true := by
  have hm' : STAGE_X11_IS_MAPPED { w.stage p with fullscreening := true } = false := hm
  unfold meta_stage_x11_set_fullscreen
  simp [clutter_stage_is_fullscreen, hc, hd, hx, hm']

/-- C14 (as amended): `set_fullscreen (true)` on a stage with a window whose
confirmed state is not fullscreen and whose actor is not in destruction
records the fullscreen intent and changes no other field of the stage.  When
the stage is withdrawn, the one request it sends is the replace write of the
`_NET_WM_STATE` property with exactly the fullscreen atom; when the stage is
mapped, it sends, in this order, the size hints without any constraint and
one client message that asks to add the fullscreen state. -/
theorem set_fullscreen_on_requests (w : World) (p : StagePtr)
    (hx : (w.stage p).xwin ≠ None)
    (hc : (w.stage p).wrapper.is_fullscreen = false)
    (hd : (w.stage p).wrapper.in_destruction = false) :
    (meta_stage_x11_set_fullscreen w p true).stage p =
      { w.stage p with fullscreening := true } ∧
    (STAGE_X11_IS_MAPPED (w.stage p) = false →
      (meta_stage_x11_set_fullscreen w p true).requests =
        w.requests ++
          [.XChangeProperty (w.stage p).xwin w.backend.atom_NET_WM_STATE XA_ATOM 32
            PropModeReplace (.longs [(w.backend.atom_NET_WM_STATE_FULLSCREEN : Int)])]) ∧
    (STAGE_X11_IS_MAPPED (w.stage p) = true →
      (meta_stage_x11_set_fullscreen w p true).requests =
        w.requests ++
          [.XSetWMNormalHints (w.stage p).xwin
            { flags := 0, min_width := 0, min_height := 0, max_width := 0, max_height := 0 },
           .XSendEvent w.default_root false (SubstructureRedirectMask ||| SubstructureNotifyMask)
            { type := ClientMessage, serial := 0, send_event := false,
              window := (w.stage p).xwin, message_type := w.backend.atom_NET_WM_STATE,
              format := 32, l0 := NET_WM_STATE_ADD,
              l1 := (w.backend.atom_NET_WM_STATE_FULLSCREEN : Int),
              l2 := 0, l3 := 0, l4 := 0 }]) := by
  refine ⟨?_, fun hm => ?_, fun hm => ?_⟩
  · cases hm : STAGE_X11_IS_MAPPED (w.stage p) with
    | false =>
      rw [set_fullscreen_on_withdrawn w p hx hm hc hd]
      simp
    | true =>
      rw [set_fullscreen_on_mapped w p hx hm hc hd]
      simp [fix_window_size_stage]
  · rw [set_fullscreen_on_withdrawn w p hx hm hc hd]
    simp [update_state]
  · rw [set_fullscreen_on_mapped w p hx hm hc hd]
    unfold send_wmspec_change_state meta_stage_x11_fix_window_size
    simp [hx, XAllocSizeHints]

/-- C14, at a concrete input: on the withdrawn stage of `world_realized` the
property is written, on the mapped stage of `world_mapped` the hints and the
message are sent. -/
theorem set_fullscreen_on_requests_witness :
    STAGE_X11_IS_MAPPED (world_realized.stage 0) = false ∧
    (meta_stage_x11_set_fullscreen world_realized 0 true).requests =
      world_realized.requests ++
        [.XChangeProperty 5 100 4 32 0 (.longs [101])] ∧
    STAGE_X11_IS_MAPPED (world_mapped.stage 0) = true ∧
    (meta_stage_x11_set_fullscreen world_mapped 0 true).requests =
      world_mapped.requests ++
        [.XSetWMNormalHints 5
          { flags := 0, min_width := 0, min_height := 0, max_width := 0, max_height := 0 },
         .XSendEvent 1 false 1572864
          { type := 33, serial := 0, send_event := false, window := 5, message_type := 100,
            format := 32, l0 := 1, l1 := 101, l2 := 0, l3 := 0, l4 := 0 }] :=
  ⟨by decide,
   (set_fullscreen_on_requests world_realized 0 (by decide) (by decide) (by decide)).2.1
     (by decide),
   by decide,
   (set_fullscreen_on_requests world_mapped 0 (by decide) (by decide) (by decide)).2.2
     (by decide)⟩

/-- C14 fails as stated: the stage of `world_destroying` has the window 5 and
is not confirmed fullscreen, but its actor is in destruction;
`set_fullscreen (true)` records no intent and sends nothing. -/
theorem set_fullscreen_on_in_destruction_counterexample :
    (world_destroying.stage 0).xwin = 5 ∧
    clutter_stage_is_fullscreen (world_destroying.stage 0).wrapper = false ∧
    (world_destroying.stage 0).wrapper.in_destruction = true ∧
    ((meta_stage_x11_set_fullscreen world_destroying 0 true).stage 0).fullscreening = false ∧
    (meta_stage_x11_set_fullscreen world_destroying 0 true).requests =
      world_destroying.requests := by
  decide


/-! ## The registry through the functions -/

@[simp] theorem registry_emit (w : World) (r : XRequest) :
    (w.emit r).clutter_stages_by_xid = w.clutter_stages_by_xid := rfl

@[simp] theorem registry_setStage (w : World) (p : StagePtr) (s : MetaStageX11) :
    (w.setStage p s).clutter_stages_by_xid = w.clutter_stages_by_xid := rfl

@[simp] theorem registry_fix_window_size (w : World) (p : StagePtr) (nw nh : Int) :
    (meta_stage_x11_fix_window_size w p nw nh).clutter_stages_by_xid =
      w.clutter_stages_by_xid := by
  unfold meta_stage_x11_fix_window_size; dsimp only; split <;> rfl

@[simp] theorem registry_send_wmspec_change_state (w : World) (win : Window) (a : Atom)
    (b : Bool) :
    (send_wmspec_change_state w win a b).clutter_stages_by_xid = w.clutter_stages_by_xid := rfl

@[simp] theorem registry_update_state (w : World) (p : StagePtr) (a : Atom) (b : Bool) :
    (update_state w p a b).clutter_stages_by_xid = w.clutter_stages_by_xid := by
  unfold update_state; split <;> rfl

@[simp] theorem registry_set_wm_protocols (w : World) (p : StagePtr) :
    (meta_stage_x11_set_wm_protocols w p).clutter_stages_by_xid = w.clutter_stages_by_xid := rfl

@[simp] theorem registry_set_wm_pid (w : World) (p : StagePtr) (pid : Int) :
    (set_wm_pid w p pid).clutter_stages_by_xid = w.clutter_stages_by_xid := by
  unfold set_wm_pid; dsimp only; split <;> rfl

@[simp] theorem registry_set_wm_title (w : World) (p : StagePtr) :
    (set_wm_title w p).clutter_stages_by_xid = w.clutter_stages_by_xid := by
  unfold set_wm_title; dsimp only; split
  · rfl
  · split <;> rfl

@[simp] theorem registry_set_cursor_visible (w : World) (p : StagePtr) :
    (set_cursor_visible w p).clutter_stages_by_xid = w.clutter_stages_by_xid := by
  unfold set_cursor_visible; dsimp only; split
  · rfl
  · split <;> rfl

/-- The fullscreen entry point leaves the registry alone. -/
theorem registry_set_fullscreen (w : World) (p : StagePtr) (b : Bool) :
    (meta_stage_x11_set_fullscreen w p b).clutter_stages_by_xid = w.clutter_stages_by_xid := by
  unfold meta_stage_x11_set_fullscreen
  simp only []
  split_ifs <;> simp

/-- The first piece of realize leaves the registry alone. -/
theorem realize_onscreen_registry (w : World) (p : StagePtr) :
    (realize_onscreen w p).clutter_stages_by_xid = w.clutter_stages_by_xid := by
  unfold realize_onscreen
  simp only [World.stage, World.setStage]
  split <;> rfl

/-- After the second piece of realize the registry resolves the new window to
the stage. -/
theorem realize_register_lookup (w : World) (p : StagePtr) (xid : Window) :
    meta_x11_get_stage_window_from_window (realize_register w p xid) xid = some p := by
  unfold realize_register meta_x11_get_stage_window_from_window
  simp only [World.stage, World.setStage, if_true]
  cases w.clutter_stages_by_xid <;>
    simp [g_hash_table_lookup, g_hash_table_insert]

/-- The third piece of realize leaves the registry alone. -/
theorem realize_properties_registry (w : World) (p : StagePtr) (env : RealizeEnv) :
    (realize_properties w p env).clutter_stages_by_xid = w.clutter_stages_by_xid := by
  unfold realize_properties
  simp only []
  split <;> simp

/-- The last piece of realize leaves the registry alone. -/
theorem realize_finish_registry (w : World) (p : StagePtr) :
    (realize_finish w p).clutter_stages_by_xid = w.clutter_stages_by_xid := by
  unfold realize_finish
  simp only []
  split <;> simp [registry_set_fullscreen]

/-- After a realize that returns TRUE the registry resolves the window that
was created to the stage. -/
theorem realize_registers (w w' : World) (p : StagePtr) (env : RealizeEnv)
    (h : meta_stage_x11_realize w p env = some (true, w')) :
    meta_x11_get_stage_window_from_window w' env.xid = some p := by
  rw [realize_eq] at h
  split at h
  · cases h
  · split at h
    · cases h
    · simp only [Option.some.injEq, Prod.mk.injEq, true_and] at h
      subst h
      have hl := realize_register_lookup (realize_onscreen w p) p env.xid
      unfold meta_x11_get_stage_window_from_window at hl ⊢
      rw [realize_finish_registry, realize_properties_registry]
      exact hl

/-- A lookup miss: the translator returns FALSE and changes nothing. -/
theorem translate_event_miss (w : World) (p : StagePtr) (xevent : XEvent)
    (reply : Option (List Atom)) (event : ClutterEvent)
    (h : meta_x11_get_stage_window_from_window w xevent.xany_window = none) :
    meta_stage_x11_translate_event w p xevent reply event = (false, event, w) := by
  unfold meta_stage_x11_translate_event
  simp [h]

/-- After unrealize the registry does not resolve the window of the stage. -/
theorem unrealize_lookup (w : World) (p : StagePtr) :
    meta_x11_get_stage_window_from_window (meta_stage_x11_unrealize w p) (w.stage p).xwin =
      none := by
  unfold meta_x11_get_stage_window_from_window
  rw [unrealize_registry]
  cases w.clutter_stages_by_xid with
  | none => rfl
  | some t => exact lookup_remove_self t _


/-! ## The stage through realize -/

/-- What the first piece of realize does to the stage: a new onscreen with its
frame closure, the framebuffer of the legacy view, and the size of the actor,
converted to `int`, as tracked size. -/
theorem realize_onscreen_stage (w : World) (p : StagePtr) :
    (realize_onscreen w p).stage p =
      { w.stage p with
        onscreen := some (w.onscreen_count + 1),
        frame_closure := some (w.onscreen_count + 1),
        legacy_view := (w.stage p).legacy_view.map
          (fun v => { v with framebuffer := some (w.onscreen_count + 1) }),
        xwin_width := gfloat_to_int (w.stage p).wrapper.width,
        xwin_height := gfloat_to_int (w.stage p).wrapper.height } := by
  unfold realize_onscreen
  simp only [World.stage, World.setStage, if_true, clutter_actor_get_size]
  cases h : (w.heap p).legacy_view <;> simp [h]

/-- The first piece of realize sends nothing. -/
theorem realize_onscreen_requests (w : World) (p : StagePtr) :
    (realize_onscreen w p).requests = w.requests := by
  unfold realize_onscreen
  simp only [World.stage, World.setStage]
  split <;> rfl

/-- What the second piece of realize does to the heap: the stage gets the new
window. -/
theorem realize_register_stage (w : World) (p : StagePtr) (xid : Window) (q : StagePtr) :
    (realize_register w p xid).stage q =
      if q = p then { w.stage p with xwin := xid } else w.stage q := by
  unfold realize_register
  simp only [World.stage, World.setStage]
  cases w.clutter_stages_by_xid <;> rfl

/-- The second piece of realize sends nothing. -/
theorem realize_register_requests (w : World) (p : StagePtr) (xid : Window) :
    (realize_register w p xid).requests = w.requests := by
  unfold realize_register
  simp only [World.stage, World.setStage]
  cases w.clutter_stages_by_xid <;> rfl

/-- The last piece of realize keeps the window and the tracked size of every
stage. -/
theorem realize_finish_frame (w : World) (p q : StagePtr) :
    ((realize_finish w p).stage q).xwin = (w.stage q).xwin ∧
    ((realize_finish w p).stage q).xwin_width = (w.stage q).xwin_width ∧
    ((realize_finish w p).stage q).xwin_height = (w.stage q).xwin_height ∧
    ((realize_finish w p).stage q).wm_state = (w.stage q).wm_state := by
  unfold realize_finish
  simp only []
  split
  · have hf := set_fullscreen_frame
      ((meta_stage_x11_set_wm_protocols
        (meta_stage_x11_fix_window_size w p (w.stage p).xwin_width
          (w.stage p).xwin_height) p).setStage p
        { (meta_stage_x11_set_wm_protocols
            (meta_stage_x11_fix_window_size w p (w.stage p).xwin_width
              (w.stage p).xwin_height) p).stage p with fullscreen_on_realize := false })
      p true q
    rw [hf.2.1, hf.2.2.2.1, hf.2.2.2.2.1, hf.2.2.1]
    simp only [stage_setStage, stage_set_wm_protocols, fix_window_size_stage]
    split <;> simp_all
  · simp [fix_window_size_stage]

/-- After a realize that returns TRUE the stage has the window that was
created, and its tracked size is the size of its actor converted to `int`. -/
theorem realize_stage (w w' : World) (p : StagePtr) (env : RealizeEnv)
    (h : meta_stage_x11_realize w p env = some (true, w')) :
    (w'.stage p).xwin = env.xid ∧
    (w'.stage p).xwin_width = gfloat_to_int (w.stage p).wrapper.width ∧
    (w'.stage p).xwin_height = gfloat_to_int (w.stage p).wrapper.height := by
  rw [realize_eq] at h
  split at h
  · cases h
  · split at h
    · cases h
    · simp only [Option.some.injEq, Prod.mk.injEq, true_and] at h
      subst h
      have hf := realize_finish_frame
        (realize_properties (realize_register (realize_onscreen w p) p env.xid) p env) p p
      rw [hf.1, hf.2.1, hf.2.2.1, realize_properties_stage, realize_register_stage,
        realize_onscreen_stage]
      simp

/-! ## The claims on protocol messages and on the registry -/

/-- C17: a client message on the window of the stage, a window the registry
resolves, whose first data long is the `_NET_WM_PING` atom (an atom other
than `WM_DELETE_WINDOW`) is echoed and nothing more: the handler and the
translator return FALSE, the output event is the one the caller passed, and
the world changes by one request only, the sending to the root window of the
incoming message with its window field set to the root window. -/
theorem ping_is_echoed (w : World) (p sc : StagePtr) (xclient : XClientMessageEvent)
    (reply : Option (List Atom)) (event : ClutterEvent)
    (hreg : meta_x11_get_stage_window_from_window w xclient.window = some sc)
    (hwin : xclient.window = (w.stage p).xwin)
    (hping : xclient.l0 = (w.backend.atom_NET_WM_PING : Int))
    (hatoms : w.backend.atom_WM_DELETE_WINDOW ≠ w.backend.atom_NET_WM_PING) :
    handle_wm_protocols_event w p xclient =
      (false, w.emit (.XSendEvent w.backend.xwin_root false
        (SubstructureRedirectMask ||| SubstructureNotifyMask)
        { xclient with window := w.backend.xwin_root })) ∧
    meta_stage_x11_translate_event w p (.ClientMessage xclient) reply event =
      (false, event, w.emit (.XSendEvent w.backend.xwin_root false
        (SubstructureRedirectMask ||| SubstructureNotifyMask)
        { xclient with window := w.backend.xwin_root })) ∧
    (meta_stage_x11_translate_event w p (.ClientMessage xclient) reply event).2.2.requests =
      w.requests ++
        [.XSendEvent w.backend.xwin_root false 1572864
          { xclient with window := w.backend.xwin_root }] := by
  have hne : ¬ (xclient.l0 = (w.backend.atom_WM_DELETE_WINDOW : Int)) := by
    rw [hping]
    intro hc
    exact hatoms (Int.ofNat_inj.mp hc).symm
  have hh : handle_wm_protocols_event w p xclient =
      (false, w.emit (.XSendEvent w.backend.xwin_root false
        (SubstructureRedirectMask ||| SubstructureNotifyMask)
        { xclient with window := w.backend.xwin_root })) := by
    unfold handle_wm_protocols_event
    simp [hping, hwin, hatoms.symm]
  have ht : meta_stage_x11_translate_event w p (.ClientMessage xclient) reply event =
      (false, event, w.emit (.XSendEvent w.backend.xwin_root false
        (SubstructureRedirectMask ||| SubstructureNotifyMask)
        { xclient with window := w.backend.xwin_root })) := by
    unfold meta_stage_x11_translate_event
    simp only [XEvent.xany_window, hreg, hh]
    rfl
  refine ⟨hh, ht, ?_⟩
  rw [ht]
  rfl

/-- C17, at a concrete input: a ping on the window 5 of the mapped stage. -/
theorem ping_is_echoed_witness :
    meta_stage_x11_translate_event world_mapped 0
      (.ClientMessage
        { type := 33, serial := 7, send_event := true, window := 5, message_type := 99,
          format := 32, l0 := 103, l1 := 1234, l2 := 5, l3 := 0, l4 := 0 })
      none { type := .CLUTTER_NOTHING, stage := none } =
    (false, { type := .CLUTTER_NOTHING, stage := none },
      world_mapped.emit (.XSendEvent 1 false 1572864
        { type := 33, serial := 7, send_event := true, window := 1, message_type := 99,
          format := 32, l0 := 103, l1 := 1234, l2 := 5, l3 := 0, l4 := 0 })) :=
  (ping_is_echoed world_mapped 0 0
    { type := 33, serial := 7, send_event := true, window := 5, message_type := 99,
      format := 32, l0 := 103, l1 := 1234, l2 := 5, l3 := 0, l4 := 0 }
    none { type := .CLUTTER_NOTHING, stage := none }
    (by decide) (by decide) (by decide) (by decide)).2.1

/-- C18 (as amended): a client message on the window of the stage, a window
the registry resolves, whose first data long is the `WM_DELETE_WINDOW` atom
makes the translator return TRUE with a `CLUTTER_DELETE` event for the stage
the window resolves to.  Its second data long `t` is written as the
`_NET_WM_USER_TIME` property of the window (one cardinal, replace mode) when
`t` is not `CLUTTER_CURRENT_TIME`, that is 0; when `t` is 0 nothing is
written.  Nothing else changes. -/
theorem delete_is_translated (w : World) (p sc : StagePtr) (xclient : XClientMessageEvent)
    (reply : Option (List Atom)) (event : ClutterEvent)
    (hreg : meta_x11_get_stage_window_from_window w xclient.window = some sc)
    (hwin : xclient.window = (w.stage p).xwin)
    (hdel : xclient.l0 = (w.backend.atom_WM_DELETE_WINDOW : Int)) :
    (xclient.l1 ≠ 0 →
      meta_stage_x11_translate_event w p (.ClientMessage xclient) reply event =
        (true, { type := .CLUTTER_DELETE, stage := some sc },
          w.emit (.XChangeProperty (w.stage p).xwin w.backend.atom_NET_WM_USER_TIME
            XA_CARDINAL 32 PropModeReplace (.longs [xclient.l1])))) ∧
    (xclient.l1 = 0 →
      meta_stage_x11_translate_event w p (.ClientMessage xclient) reply event =
        (true, { type := .CLUTTER_DELETE, stage := some sc }, w)) := by
  have hh : handle_wm_protocols_event w p xclient =
      (true, set_user_time w p xclient.l1) := by
    unfold handle_wm_protocols_event
    simp [hdel, hwin]
  have ht : meta_stage_x11_translate_event w p (.ClientMessage xclient) reply event =
      (true, { type := .CLUTTER_DELETE, stage := some sc }, set_user_time w p xclient.l1) := by
    unfold meta_stage_x11_translate_event
    simp only [XEvent.xany_window, hreg, hh]
    rfl
  rw [ht]
  constructor
  · intro h
    simp [set_user_time, CLUTTER_CURRENT_TIME, h]
  · intro h
    simp [set_user_time, CLUTTER_CURRENT_TIME, h]

/-- C18, at a concrete input: a delete request with timestamp 1234 on the
window 5 of the mapped stage. -/
theorem delete_is_translated_witness :
    meta_stage_x11_translate_event world_mapped 0
      (.ClientMessage
        { type := 33, serial := 7, send_event := true, window := 5, message_type := 99,
          format := 32, l0 := 102, l1 := 1234, l2 := 0, l3 := 0, l4 := 0 })
      none { type := .CLUTTER_NOTHING, stage := none } =
    (true, { type := .CLUTTER_DELETE, stage := some 0 },
      world_mapped.emit (.XChangeProperty 5 107 6 32 0 (.longs [1234]))) :=
  (delete_is_translated world_mapped 0 0
    { type := 33, serial := 7, send_event := true, window := 5, message_type := 99,
      format := 32, l0 := 102, l1 := 1234, l2 := 0, l3 := 0, l4 := 0 }
    none { type := .CLUTTER_NOTHING, stage := none }
    (by decide) (by decide) (by decide)).1 (by decide)

/-- C18 fails as stated: a delete request with timestamp 0 on the window 5 of
the mapped stage is translated to `CLUTTER_DELETE`, but no user time property
is written: the trace of requests is the one before. -/
theorem delete_with_current_time_counterexample :
    (world_mapped.stage 0).xwin = 5 ∧
    meta_x11_get_stage_window_from_window world_mapped 5 = some 0 ∧
    (meta_stage_x11_translate_event world_mapped 0
      (.ClientMessage
        { type := 33, serial := 7, send_event := true, window := 5, message_type := 99,
          format := 32, l0 := 102, l1 := 0, l2 := 0, l3 := 0, l4 := 0 })
      none { type := .CLUTTER_NOTHING, stage := none }).1 = true ∧
    (meta_stage_x11_translate_event world_mapped 0
      (.ClientMessage
        { type := 33, serial := 7, send_event := true, window := 5, message_type := 99,
          format := 32, l0 := 102, l1 := 0, l2 := 0, l3 := 0, l4 := 0 })
      none { type := .CLUTTER_NOTHING, stage := none }).2.1 =
        { type := .CLUTTER_DELETE, stage := some 0 } ∧
    (meta_stage_x11_translate_event world_mapped 0
      (.ClientMessage
        { type := 33, serial := 7, send_event := true, window := 5, message_type := 99,
          format := 32, l0 := 102, l1 := 0, l2 := 0, l3 := 0, l4 := 0 })
      none { type := .CLUTTER_NOTHING, stage := none }).2.2.requests =
        world_mapped.requests := by
  decide

/-- C19: an event whose window the registry does not resolve is dropped,
whatever its type: the translator returns FALSE, the output event is the one
the caller passed, and the world, with every stage and the trace of requests,
is unchanged.  After a realize that returns TRUE the registry resolves the
new window to the stage; after unrealize it does not resolve the window of the
stage, so a geometry notification for that window is dropped in this way. -/
theorem unregistered_event_dropped (w : World) (p : StagePtr) :
    (∀ (xevent : XEvent) (reply : Option (List Atom)) (event : ClutterEvent),
      meta_x11_get_stage_window_from_window w xevent.xany_window = none →
      meta_stage_x11_translate_event w p xevent reply event = (false, event, w)) ∧
    (∀ (env : RealizeEnv) (w' : World),
      meta_stage_x11_realize w p env = some (true, w') →
      (w'.stage p).xwin = env.xid ∧
      meta_x11_get_stage_window_from_window w' env.xid = some p) ∧
    (∀ (win : Window) (width height : Int) (reply : Option (List Atom))
      (event : ClutterEvent),
      meta_x11_get_stage_window_from_window (meta_stage_x11_unrealize w p) (w.stage p).xwin =
        none ∧
      meta_stage_x11_translate_event (meta_stage_x11_unrealize w p) p
        (.ConfigureNotify (w.stage p).xwin win width height) reply event =
        (false, event, meta_stage_x11_unrealize w p)) := by
  refine ⟨fun xevent reply event h => translate_event_miss w p xevent reply event h,
    fun env w' h => ⟨?_, realize_registers w w' p env h⟩,
    fun win width height reply event =>
      ⟨unrealize_lookup w p,
        translate_event_miss _ p _ reply event (unrealize_lookup w p)⟩⟩
  exact (realize_stage w w' p env h).1

/-- C19, at a concrete input: after realize the window 5 resolves to stage 0;
after unrealize a geometry notification for the window 5 is dropped. -/
theorem unregistered_event_dropped_witness :
    meta_x11_get_stage_window_from_window world_realized 5 = some 0 ∧
    meta_x11_get_stage_window_from_window world_unrealized 5 = none ∧
    meta_stage_x11_translate_event world_unrealized 0
      (.ConfigureNotify 5 5 800 600) none { type := .CLUTTER_NOTHING, stage := none } =
    (false, { type := .CLUTTER_NOTHING, stage := none }, world_unrealized) :=
  ⟨by decide, by decide,
   (unregistered_event_dropped world_unrealized 0).1 (.ConfigureNotify 5 5 800 600) none
     { type := .CLUTTER_NOTHING, stage := none } (by decide)⟩


/-! ## The claims on realize -/

/-- The function `meta_stage_x11_fix_window_size` writes `size_hints_payload`. -/
theorem fix_window_size_eq (w : World) (p : StagePtr) (nw nh : Int) :
    meta_stage_x11_fix_window_size w p nw nh =
      if (w.stage p).xwin ≠ None then
        w.emit (.XSetWMNormalHints (w.stage p).xwin (size_hints_payload (w.stage p) nw nh))
      else w := by
  rfl

/-- The size hints depend on the stage through its actor and its fullscreen
intent only. -/
theorem size_hints_payload_congr (s s' : MetaStageX11) (nw nh : Int)
    (h1 : s'.wrapper = s.wrapper) (h2 : s'.fullscreening = s.fullscreening) :
    size_hints_payload s' nw nh = size_hints_payload s nw nh := by
  unfold size_hints_payload
  rw [h1, h2]

theorem set_wm_pid_requests (w : World) (p : StagePtr) (pid : Int) :
    ∃ l, (set_wm_pid w p pid).requests = w.requests ++ l := by
  unfold set_wm_pid
  dsimp only
  split
  · exact ⟨[], by simp⟩
  · exact ⟨_, by simp [List.append_assoc]; rfl⟩

theorem set_wm_title_requests (w : World) (p : StagePtr) :
    ∃ l, (set_wm_title w p).requests = w.requests ++ l := by
  unfold set_wm_title
  dsimp only
  split
  · exact ⟨[], by simp⟩
  · split
    · exact ⟨_, rfl⟩
    · exact ⟨_, rfl⟩

theorem set_cursor_visible_requests (w : World) (p : StagePtr) :
    ∃ l, (set_cursor_visible w p).requests = w.requests ++ l := by
  unfold set_cursor_visible
  dsimp only
  split
  · exact ⟨[], by simp⟩
  · split
    · exact ⟨_, rfl⟩
    · exact ⟨_, by simp [List.append_assoc]; rfl⟩

theorem fix_window_size_requests (w : World) (p : StagePtr) (nw nh : Int) :
    ∃ l, (meta_stage_x11_fix_window_size w p nw nh).requests = w.requests ++ l := by
  rw [fix_window_size_eq]
  split
  · exact ⟨_, rfl⟩
  · exact ⟨[], by simp⟩

/-- Adding requests twice is adding requests. -/
theorem requests_trans {w1 w2 w3 : World}
    (h23 : ∃ l, w3.requests = w2.requests ++ l) (h12 : ∃ l, w2.requests = w1.requests ++ l) :
    ∃ l, w3.requests = w1.requests ++ l := by
  obtain ⟨l, hl⟩ := h12
  obtain ⟨l', hl'⟩ := h23
  exact ⟨l ++ l', by rw [hl', hl, List.append_assoc]⟩

theorem requests_refl (w : World) : ∃ l, w.requests = w.requests ++ l := ⟨[], by simp⟩

theorem setStage_requests (w : World) (p : StagePtr) (s : MetaStageX11) :
    ∃ l, (w.setStage p s).requests = w.requests ++ l := ⟨[], by simp⟩

theorem emit_requests (w : World) (r : XRequest) :
    ∃ l, (w.emit r).requests = w.requests ++ l := ⟨[r], rfl⟩

theorem update_state_requests (w : World) (p : StagePtr) (a : Atom) (b : Bool) :
    ∃ l, (update_state w p a b).requests = w.requests ++ l := by
  unfold update_state
  split <;> exact ⟨_, rfl⟩

theorem send_wmspec_change_state_requests (w : World) (win : Window) (a : Atom) (b : Bool) :
    ∃ l, (send_wmspec_change_state w win a b).requests = w.requests ++ l := ⟨_, rfl⟩

/-- The fullscreen entry point only adds requests. -/
theorem set_fullscreen_requests (w : World) (p : StagePtr) (b : Bool) :
    ∃ l, (meta_stage_x11_set_fullscreen w p b).requests = w.requests ++ l := by
  unfold meta_stage_x11_set_fullscreen
  simp only []
  split_ifs
  · exact requests_refl w
  · exact requests_refl w
  · exact requests_trans (update_state_requests _ _ _ _) (setStage_requests _ _ _)
  · exact requests_trans (send_wmspec_change_state_requests _ _ _ _)
      (requests_trans (fix_window_size_requests _ _ _ _) (setStage_requests _ _ _))
  · exact requests_trans (setStage_requests _ _ _) (setStage_requests _ _ _)
  · exact requests_trans (update_state_requests _ _ _ _) (setStage_requests _ _ _)
  · exact requests_trans (fix_window_size_requests _ _ _ _)
      (requests_trans (send_wmspec_change_state_requests _ _ _ _) (setStage_requests _ _ _))
  · exact requests_trans (setStage_requests _ _ _) (setStage_requests _ _ _)

/-- The third piece of realize only adds requests. -/
theorem realize_properties_requests (w : World) (p : StagePtr) (env : RealizeEnv) :
    ∃ l, (realize_properties w p env).requests = w.requests ++ l := by
  obtain ⟨l1, h1⟩ := set_wm_pid_requests w p env.pid
  obtain ⟨l2, h2⟩ := set_wm_title_requests (set_wm_pid w p env.pid) p
  obtain ⟨l3, h3⟩ := set_cursor_visible_requests (set_wm_title (set_wm_pid w p env.pid) p) p
  have e : (realize_properties w p env).requests =
      (set_cursor_visible (set_wm_title (set_wm_pid w p env.pid) p) p).requests ++
        [.XSelectInput
          ((set_cursor_visible (set_wm_title (set_wm_pid w p env.pid) p) p).stage p).xwin
          META_STAGE_X11_EVENT_MASK] := by
    unfold realize_properties
    simp only []
    split <;> rfl
  exact requests_trans ⟨_, e⟩ (requests_trans ⟨l3, h3⟩ (requests_trans ⟨l2, h2⟩ ⟨l1, h1⟩))


/-- The resize entry point changes the fullscreen intent of no stage. -/
theorem fullscreening_resize (w : World) (p : StagePtr) (width height : Int) (q : StagePtr) :
    ((meta_stage_x11_resize w p width height).stage q).fullscreening =
      (w.stage q).fullscreening := by
  unfold meta_stage_x11_resize
  simp only []
  split_ifs <;> simp [stage_setStage, fix_window_size_stage] <;> split_ifs <;> simp_all

/-- The last piece of realize starts with the size hints for the tracked size. -/
theorem realize_finish_requests (w : World) (p : StagePtr) :
    ∃ l, (realize_finish w p).requests =
      (meta_stage_x11_fix_window_size w p (w.stage p).xwin_width
        (w.stage p).xwin_height).requests ++ l := by
  unfold realize_finish
  simp only []
  split
  · exact requests_trans (set_fullscreen_requests _ _ _)
      (requests_trans (setStage_requests _ _ _) (emit_requests _ _))
  · exact emit_requests _ _

/-- A realize that returns TRUE with a window writes, among its requests, the
size hints for the size of the actor converted to `int`. -/
theorem realize_writes_hints (w w' : World) (p : StagePtr) (env : RealizeEnv)
    (h : meta_stage_x11_realize w p env = some (true, w')) (hx : env.xid ≠ None) :
    ∃ pre post, w'.requests =
      w.requests ++ (pre ++ .XSetWMNormalHints env.xid
        (size_hints_payload (w.stage p) (gfloat_to_int (w.stage p).wrapper.width)
          (gfloat_to_int (w.stage p).wrapper.height)) :: post) := by
  rw [realize_eq] at h
  split at h
  · cases h
  · split at h
    · cases h
    · simp only [Option.some.injEq, Prod.mk.injEq, true_and] at h
      subst h
      obtain ⟨l1, h1⟩ := realize_properties_requests
        (realize_register (realize_onscreen w p) p env.xid) p env
      rw [realize_register_requests, realize_onscreen_requests] at h1
      obtain ⟨l2, h2⟩ := realize_finish_requests
        (realize_properties (realize_register (realize_onscreen w p) p env.xid) p env) p
      have hs : (realize_properties (realize_register (realize_onscreen w p) p env.xid) p
          env).stage p =
          { (realize_onscreen w p).stage p with xwin := env.xid } := by
        rw [realize_properties_stage, realize_register_stage]
        simp
      rw [fix_window_size_eq, hs, realize_onscreen_stage] at h2
      simp only [ne_eq, hx, not_false_eq_true, if_true, requests_emit, h1] at h2
      refine ⟨l1, l2, ?_⟩
      rw [h2]
      simp only [List.append_assoc, List.singleton_append]
      congr 3

@[simp] theorem backend_update_state (w : World) (p : StagePtr) (a : Atom) (b : Bool) :
    (update_state w p a b).backend = w.backend := by
  unfold update_state; split <;> rfl

@[simp] theorem backend_set_wm_protocols (w : World) (p : StagePtr) :
    (meta_stage_x11_set_wm_protocols w p).backend = w.backend := rfl

/-- The fullscreen entry point leaves the backend alone. -/
theorem backend_set_fullscreen (w : World) (p : StagePtr) (b : Bool) :
    (meta_stage_x11_set_fullscreen w p b).backend = w.backend := by
  unfold meta_stage_x11_set_fullscreen
  simp only []
  split_ifs <;> simp

/-- The first piece of realize leaves the backend alone. -/
theorem realize_onscreen_backend (w : World) (p : StagePtr) :
    (realize_onscreen w p).backend = w.backend := by
  unfold realize_onscreen
  simp only [World.stage, World.setStage]
  split <;> rfl

/-- The second piece of realize leaves the backend alone. -/
theorem realize_register_backend (w : World) (p : StagePtr) (xid : Window) :
    (realize_register w p xid).backend = w.backend := by
  unfold realize_register
  simp only [World.stage, World.setStage]
  cases w.clutter_stages_by_xid <;> rfl

@[simp] theorem backend_set_wm_pid (w : World) (p : StagePtr) (pid : Int) :
    (set_wm_pid w p pid).backend = w.backend := by
  unfold set_wm_pid; dsimp only; split <;> rfl

@[simp] theorem backend_set_wm_title (w : World) (p : StagePtr) :
    (set_wm_title w p).backend = w.backend := by
  unfold set_wm_title; dsimp only; split
  · rfl
  · split <;> rfl

@[simp] theorem backend_set_cursor_visible (w : World) (p : StagePtr) :
    (set_cursor_visible w p).backend = w.backend := by
  unfold set_cursor_visible; dsimp only; split
  · rfl
  · split <;> rfl

/-- The third piece of realize leaves the backend alone. -/
theorem realize_properties_backend (w : World) (p : StagePtr) (env : RealizeEnv) :
    (realize_properties w p env).backend = w.backend := by
  unfold realize_properties
  simp only []
  split <;> simp

/-- Of two writes at one address the second counts. -/
theorem setStage_setStage (w : World) (p : StagePtr) (a b : MetaStageX11) :
    (w.setStage p a).setStage p b = w.setStage p b := by
  simp only [World.setStage, World.mk.injEq, and_true, true_and]
  funext q
  split <;> rfl

/-- Turning fullscreen on, on a stage without a window that is neither
confirmed fullscreen nor in destruction: the intent and the marker for realize
are recorded, nothing is sent. -/
theorem set_fullscreen_on_unrealized (w : World) (p : StagePtr)
    (hx : (w.stage p).xwin = None)
    (hc : (w.stage p).wrapper.is_fullscreen = false)
    (hd : (w.stage p).wrapper.in_destruction = false) :
    meta_stage_x11_set_fullscreen w p true =
      w.setStage p { w.stage p with fullscreening := true, fullscreen_on_realize := true } := by
  unfold meta_stage_x11_set_fullscreen
  simp [clutter_stage_is_fullscreen, hc, hd, hx, setStage_setStage]

/-- The last piece of realize when a fullscreen request was deferred, on a
withdrawn stage with a window that is neither confirmed fullscreen nor in
destruction: after the size hints and the protocols the marker is cleared,
the intent recorded, and the state property written. -/
theorem realize_finish_deferred (w : World) (p : StagePtr)
    (hk : (w.stage p).fullscreen_on_realize = true)
    (hx : (w.stage p).xwin ≠ None) (hm : STAGE_X11_IS_MAPPED (w.stage p) = false)
    (hc : (w.stage p).wrapper.is_fullscreen = false)
    (hd : (w.stage p).wrapper.in_destruction = false) :
    ((realize_finish w p).stage p) =
      { w.stage p with fullscreen_on_realize := false, fullscreening := true } ∧
    (realize_finish w p).requests =
      (meta_stage_x11_set_wm_protocols
        (meta_stage_x11_fix_window_size w p (w.stage p).xwin_width (w.stage p).xwin_height)
        p).requests ++
        [.XChangeProperty (w.stage p).xwin w.backend.atom_NET_WM_STATE XA_ATOM 32
          PropModeReplace (.longs [(w.backend.atom_NET_WM_STATE_FULLSCREEN : Int)])] := by
  have hk' : ((meta_stage_x11_set_wm_protocols
      (meta_stage_x11_fix_window_size w p (w.stage p).xwin_width (w.stage p).xwin_height)
      p).stage p).fullscreen_on_realize = true := by
    simp [fix_window_size_stage, hk]
  have e : realize_finish w p =
      meta_stage_x11_set_fullscreen
        ((meta_stage_x11_set_wm_protocols
          (meta_stage_x11_fix_window_size w p (w.stage p).xwin_width (w.stage p).xwin_height)
          p).setStage p { w.stage p with fullscreen_on_realize := false }) p true := by
    unfold realize_finish
    simp only [hk', if_true]
    simp [fix_window_size_stage]
  rw [e, set_fullscreen_on_withdrawn _ p (by simpa using hx) (by simpa using hm)
    (by simpa using hc) (by simpa using hd)]
  simp [update_state]


/-- C15 (as amended): on a stage without a window whose confirmed state is not
fullscreen and whose actor is not in destruction, `set_fullscreen (true)`
sends nothing and records the fullscreen intent and the marker for realize;
no other field changes.  When the stage is withdrawn, a realize after it that
returns TRUE with a window clears the marker, keeps the intent, and ends with
the replace write of the `_NET_WM_STATE` property of the new window with
exactly the fullscreen atom. -/
theorem deferred_fullscreen_applied_on_realize (w : World) (p : StagePtr)
    (hx : (w.stage p).xwin = None)
    (hc : (w.stage p).wrapper.is_fullscreen = false)
    (hd : (w.stage p).wrapper.in_destruction = false) :
    (meta_stage_x11_set_fullscreen w p true).stage p =
      { w.stage p with fullscreening := true, fullscreen_on_realize := true } ∧
    (meta_stage_x11_set_fullscreen w p true).requests = w.requests ∧
    (∀ (env : RealizeEnv) (w' : World),
      STAGE_X11_IS_MAPPED (w.stage p) = false → env.xid ≠ None →
      meta_stage_x11_realize (meta_stage_x11_set_fullscreen w p true) p env =
        some (true, w') →
      (w'.stage p).fullscreen_on_realize = false ∧
      (w'.stage p).fullscreening = true ∧
      ∃ pre, w'.requests =
        pre ++ [.XChangeProperty env.xid w.backend.atom_NET_WM_STATE XA_ATOM 32
          PropModeReplace (.longs [(w.backend.atom_NET_WM_STATE_FULLSCREEN : Int)])]) := by
  have e := set_fullscreen_on_unrealized w p hx hc hd
  rw [e]
  refine ⟨by simp, by simp, fun env w' hm hxid h => ?_⟩
  rw [realize_eq] at h
  split at h
  · cases h
  · split at h
    · cases h
    · simp only [Option.some.injEq, Prod.mk.injEq, true_and] at h
      subst h
      have hs : (realize_properties
          (realize_register
            (realize_onscreen
              (w.setStage p
                { w.stage p with fullscreening := true, fullscreen_on_realize := true }) p)
            p env.xid) p env).stage p =
          { (realize_onscreen
              (w.setStage p
                { w.stage p with fullscreening := true, fullscreen_on_realize := true })
              p).stage p with xwin := env.xid } := by
        rw [realize_properties_stage, realize_register_stage]
        simp
      rw [realize_onscreen_stage] at hs
      simp only [stage_setStage_same] at hs
      have hb : (realize_properties
          (realize_register
            (realize_onscreen
              (w.setStage p
                { w.stage p with fullscreening := true, fullscreen_on_realize := true }) p)
            p env.xid) p env).backend = w.backend := by
        rw [realize_properties_backend, realize_register_backend, realize_onscreen_backend]
        rfl
      have hf := realize_finish_deferred
        (realize_properties
          (realize_register
            (realize_onscreen
              (w.setStage p
                { w.stage p with fullscreening := true, fullscreen_on_realize := true }) p)
            p env.xid) p env) p
        (by rw [hs]) (by rw [hs]; exact hxid) (by rw [hs]; exact hm) (by rw [hs]; exact hc)
        (by rw [hs]; exact hd)
      rw [hs, hb] at hf
      refine ⟨by rw [hf.1], by rw [hf.1], _, hf.2⟩

/-- C15, at a concrete input: `set_fullscreen (true)` on the initial stage and
then realize with the window 5: the marker is cleared, the intent is active,
and the last request writes the fullscreen atom 101 into the state property
100 of the window 5. -/
theorem deferred_fullscreen_applied_on_realize_witness :
    (world_deferred_realized.stage 0).fullscreen_on_realize = false ∧
    (world_deferred_realized.stage 0).fullscreening = true ∧
    (∃ pre, world_deferred_realized.requests =
      pre ++ [.XChangeProperty 5 100 4 32 0 (.longs [101])]) ∧
    world_deferred_realized.requests.getLast? =
      some (.XChangeProperty 5 100 4 32 0 (.longs [101])) :=
  have h := (deferred_fullscreen_applied_on_realize world0 0 (by decide) (by decide)
    (by decide)).2.2 env0 world_deferred_realized (by decide) (by decide) rfl
  ⟨h.1, h.2.1, h.2.2, by decide⟩

/-- C15 fails as stated: on the unrealized stage of `world0_destroying`, whose
actor is in destruction, and on the unrealized stage of `world0_fullscreen`,
whose confirmed state is fullscreen already, `set_fullscreen (true)` records
neither the intent nor the marker for realize. -/
theorem deferred_fullscreen_not_recorded_counterexample :
    (world0_destroying.stage 0).xwin = None ∧
    ((meta_stage_x11_set_fullscreen world0_destroying 0 true).stage 0).fullscreening =
      false ∧
    ((meta_stage_x11_set_fullscreen world0_destroying 0 true).stage 0).fullscreen_on_realize =
      false ∧
    (world0_fullscreen.stage 0).xwin = None ∧
    ((meta_stage_x11_set_fullscreen world0_fullscreen 0 true).stage 0).fullscreening =
      false ∧
    ((meta_stage_x11_set_fullscreen world0_fullscreen 0 true).stage 0).fullscreen_on_realize =
      false := by
  decide


/-! ## The cool-off timeouts through the geometry arm -/

@[simp] theorem sources_setStage (w : World) (p : StagePtr) (s : MetaStageX11) :
    (w.setStage p s).sources = w.sources := rfl

@[simp] theorem source_count_setStage (w : World) (p : StagePtr) (s : MetaStageX11) :
    (w.setStage p s).source_count = w.source_count := rfl

@[simp] theorem sources_setWrapper (w : World) (p : StagePtr) (c : ClutterStage) :
    (w.setWrapper p c).sources = w.sources := rfl

@[simp] theorem source_count_setWrapper (w : World) (p : StagePtr) (c : ClutterStage) :
    (w.setWrapper p c).source_count = w.source_count := rfl

@[simp] theorem cool_off_setWrapper (w : World) (q p : StagePtr) (c : ClutterStage) :
    ((w.setWrapper q c).stage p).clipped_redraws_cool_off =
      (w.stage p).clipped_redraws_cool_off := by
  rw [stage_setWrapper]; split <;> simp_all

/-- Worlds with the same sources, the same count and the same cool-off markers
have the same bookkeeping. -/
theorem TimeoutsRecorded.congr {w w' : World} (h : TimeoutsRecorded w)
    (h1 : w'.sources = w.sources) (h2 : w'.source_count = w.source_count)
    (h3 : ∀ q, (w'.stage q).clipped_redraws_cool_off = (w.stage q).clipped_redraws_cool_off) :
    TimeoutsRecorded w' := by
  unfold TimeoutsRecorded at h ⊢
  rw [h1, h2]
  exact ⟨fun e he => by rw [h3]; exact h.1 e he, h.2⟩

theorem configure_track_size_timers (w : World) (p sc : StagePtr) (width height : Int) :
    (configure_track_size w p sc width height).sources = w.sources ∧
    (configure_track_size w p sc width height).source_count = w.source_count ∧
    ∀ q, ((configure_track_size w p sc width height).stage q).clipped_redraws_cool_off =
      (w.stage q).clipped_redraws_cool_off := by
  unfold configure_track_size
  split
  · refine ⟨rfl, rfl, fun q => ?_⟩
    rw [stage_setStage]; split <;> simp_all
  · exact ⟨rfl, rfl, fun _ => rfl⟩

theorem configure_actor_size_timers (w : World) (sc : StagePtr) (width height : Int) :
    (configure_actor_size w sc width height).sources = w.sources ∧
    (configure_actor_size w sc width height).source_count = w.source_count ∧
    ∀ q, ((configure_actor_size w sc width height).stage q).clipped_redraws_cool_off =
      (w.stage q).clipped_redraws_cool_off := by
  unfold configure_actor_size
  exact ⟨rfl, rfl, fun q => cool_off_setWrapper _ _ _ _⟩

theorem configure_relayout_timers (w : World) (sc : StagePtr) :
    (configure_relayout w sc).sources = w.sources ∧
    (configure_relayout w sc).source_count = w.source_count ∧
    ∀ q, ((configure_relayout w sc).stage q).clipped_redraws_cool_off =
      (w.stage q).clipped_redraws_cool_off := by
  unfold configure_relayout
  exact ⟨rfl, rfl, fun q => by rw [cool_off_setWrapper, cool_off_setWrapper]⟩

theorem configure_legacy_view_timers (w : World) (p : StagePtr) (width height : Int) :
    (configure_legacy_view w p width height).sources = w.sources ∧
    (configure_legacy_view w p width height).source_count = w.source_count ∧
    ∀ q, ((configure_legacy_view w p width height).stage q).clipped_redraws_cool_off =
      (w.stage q).clipped_redraws_cool_off := by
  unfold configure_legacy_view
  split
  · refine ⟨rfl, rfl, fun q => ?_⟩
    rw [stage_setStage]; split <;> simp_all
  · exact ⟨rfl, rfl, fun _ => rfl⟩

/-- Cancelling keeps the bookkeeping sound and leaves no source for the stage. -/
theorem configure_cancel_cool_off_recorded (w : World) (p : StagePtr)
    (h : TimeoutsRecorded w) :
    TimeoutsRecorded (configure_cancel_cool_off w p) ∧
    (∀ e ∈ (configure_cancel_cool_off w p).sources, e.2 ≠ p) ∧
    (configure_cancel_cool_off w p).source_count = w.source_count := by
  unfold configure_cancel_cool_off
  split
  · rename_i hc
    refine ⟨⟨fun e he => ?_, ?_⟩, fun e he hp => ?_, rfl⟩
    · have he' : e ∈ w.sources := (List.mem_filter.mp he).1
      exact h.1 e he'
    · exact (List.Nodup.sublist ((List.filter_sublist _).map _) h.2)
    · have he' := List.mem_filter.mp he
      have hrec := (h.1 e he'.1).2.2
      rw [hp] at hrec
      simp only [g_source_remove] at he'
      simpa [hrec] using he'.2
  · rename_i hc
    refine ⟨h, fun e he hp => ?_, rfl⟩
    have hrec := h.1 e he
    rw [hp] at hrec
    have : (w.stage p).clipped_redraws_cool_off = 0 := by simpa using hc
    omega


/-- Starting a timeout for a stage that has no source keeps the bookkeeping
sound; the new source is then the only one of the stage. -/
theorem configure_start_cool_off_recorded (w : World) (p : StagePtr)
    (h : TimeoutsRecorded w) (hp : ∀ e ∈ w.sources, e.2 ≠ p) :
    TimeoutsRecorded (configure_start_cool_off w p) ∧
    pending_timeouts (configure_start_cool_off w p) p = [w.source_count + 1] ∧
    ((configure_start_cool_off w p).stage p).clipped_redraws_cool_off = w.source_count + 1 ∧
    (configure_start_cool_off w p).source_count = w.source_count + 1 := by
  have hs : (configure_start_cool_off w p).sources = w.sources ++ [(w.source_count + 1, p)] :=
    rfl
  have hc : (configure_start_cool_off w p).source_count = w.source_count + 1 := rfl
  have hst : ∀ q, (configure_start_cool_off w p).stage q =
      if q = p then { w.stage p with clipped_redraws_cool_off := w.source_count + 1 }
      else w.stage q := by
    intro q
    unfold configure_start_cool_off
    rw [stage_setStage]
    rfl
  refine ⟨⟨fun e he => ?_, ?_⟩, ?_, ?_, hc⟩
  · rw [hs, List.mem_append, List.mem_singleton] at he
    rw [hc, hst]
    rcases he with he | he
    · have hrec := h.1 e he
      have hne := hp e he
      simp only [hne, if_false]
      exact ⟨hrec.1, by omega, hrec.2.2⟩
    · subst he
      simp
  · rw [hs, List.map_append, List.nodup_append]
    refine ⟨h.2, by simp, ?_⟩
    intro a ha hb
    simp only [List.map_cons, List.map_nil, List.mem_singleton] at hb
    obtain ⟨e, he, rfl⟩ := List.mem_map.mp ha
    have := (h.1 e he).2.1
    omega
  · unfold pending_timeouts
    rw [hs, List.filter_append, List.map_append]
    have hnil : w.sources.filter (fun e => e.2 == p) = [] := by
      rw [List.filter_eq_nil_iff]
      intro e he
      simpa using hp e he
    rw [hnil]
    simp
  · rw [hst]
    simp

/-- The geometry arm keeps the bookkeeping of the timeouts sound. -/
theorem configure_notify_recorded (w : World) (p sc : StagePtr) (width height : Int)
    (h : TimeoutsRecorded w) : TimeoutsRecorded (configure_notify w p sc width height) := by
  have h1 := configure_track_size_timers w p sc width height
  have h2 := configure_actor_size_timers (configure_track_size w p sc width height) sc
    width height
  have ha : TimeoutsRecorded
      (configure_actor_size (configure_track_size w p sc width height) sc width height) :=
    (h.congr h1.1 h1.2.1 h1.2.2).congr h2.1 h2.2.1 h2.2.2
  unfold configure_notify
  split
  · have hc := configure_cancel_cool_off_recorded _ p ha
    have hs := configure_start_cool_off_recorded _ p hc.1 hc.2.1
    have h5 := configure_relayout_timers
      (configure_start_cool_off
        (configure_cancel_cool_off
          (configure_actor_size (configure_track_size w p sc width height) sc width height)
          p) p) sc
    have h6 := configure_legacy_view_timers
      (configure_relayout
        (configure_start_cool_off
          (configure_cancel_cool_off
            (configure_actor_size (configure_track_size w p sc width height) sc width height)
            p) p) sc) p width height
    exact (hs.1.congr h5.1 h5.2.1 h5.2.2).congr h6.1 h6.2.1 h6.2.2
  · exact ha

/-- After a geometry notification that counts as a size change the stage has
exactly one pending timeout, a new one, recorded in its cool-off marker. -/
theorem configure_notify_restarts (w : World) (p sc : StagePtr) (width height : Int)
    (h : TimeoutsRecorded w)
    (hc : clutter_stage_is_fullscreen (w.stage sc).wrapper = true ∨
      (w.stage p).xwin_width ≠ width ∨ (w.stage p).xwin_height ≠ height) :
    pending_timeouts (configure_notify w p sc width height) p = [w.source_count + 1] ∧
    ((configure_notify w p sc width height).stage p).clipped_redraws_cool_off =
      w.source_count + 1 ∧
    (configure_notify w p sc width height).source_count = w.source_count + 1 := by
  have h1 := configure_track_size_timers w p sc width height
  have h2 := configure_actor_size_timers (configure_track_size w p sc width height) sc
    width height
  have ha : TimeoutsRecorded
      (configure_actor_size (configure_track_size w p sc width height) sc width height) :=
    (h.congr h1.1 h1.2.1 h1.2.2).congr h2.1 h2.2.1 h2.2.2
  have hcond : (clutter_stage_is_fullscreen (w.stage sc).wrapper ||
      decide ((w.stage p).xwin_width ≠ width ∨ (w.stage p).xwin_height ≠ height)) = true := by
    rcases hc with hc | hc
    · simp [hc]
    · simp [hc]
  unfold configure_notify
  rw [if_pos hcond]
  have hcc := configure_cancel_cool_off_recorded _ p ha
  have hs := configure_start_cool_off_recorded _ p hcc.1 hcc.2.1
  have h5 := configure_relayout_timers
    (configure_start_cool_off
      (configure_cancel_cool_off
        (configure_actor_size (configure_track_size w p sc width height) sc width height)
        p) p) sc
  have h6 := configure_legacy_view_timers
    (configure_relayout
      (configure_start_cool_off
        (configure_cancel_cool_off
          (configure_actor_size (configure_track_size w p sc width height) sc width height)
          p) p) sc) p width height
  have hcount : (configure_cancel_cool_off
      (configure_actor_size (configure_track_size w p sc width height) sc width height)
      p).source_count = w.source_count := by
    rw [hcc.2.2, h2.2.1, h1.2.1]
  refine ⟨?_, ?_, ?_⟩
  · unfold pending_timeouts
    rw [h6.1, h5.1]
    have := hs.2.1
    unfold pending_timeouts at this
    rw [this, hcount]
  · rw [h6.2.2, h5.2.2, hs.2.2.1, hcount]
  · rw [h6.2.1, h5.2.1, hs.2.2.2, hcount]


/-- In a list without duplicates whose elements all equal one value there is
at most one element. -/
theorem length_le_one_of_nodup_of_eq {α : Type} (l : List α) (c : α) (hn : l.Nodup)
    (hc : ∀ a ∈ l, a = c) : l.length ≤ 1 := by
  match l, hn, hc with
  | [], _, _ => simp
  | [_], _, _ => simp
  | a :: b :: t, hn, hc =>
    have ha : a = c := hc a (by simp)
    have hb : b = c := hc b (by simp)
    rw [ha, hb] at hn
    simp at hn

/-- With sound bookkeeping a stage has at most one pending timeout, and a
pending timeout is the one its cool-off marker records. -/
theorem pending_of_recorded (w : World) (p : StagePtr) (h : TimeoutsRecorded w) :
    (pending_timeouts w p).length ≤ 1 ∧
    ∀ id ∈ pending_timeouts w p, id = (w.stage p).clipped_redraws_cool_off := by
  have hall : ∀ id ∈ pending_timeouts w p, id = (w.stage p).clipped_redraws_cool_off := by
    intro id hid
    unfold pending_timeouts at hid
    obtain ⟨e, he, rfl⟩ := List.mem_map.mp hid
    have he' := List.mem_filter.mp he
    have hp : e.2 = p := by simpa using he'.2
    rw [← hp]
    exact ((h.1 e he'.1).2.2).symm
  refine ⟨length_le_one_of_nodup_of_eq _ _ ?_ hall, hall⟩
  unfold pending_timeouts
  exact List.Nodup.sublist ((List.filter_sublist _).map _) h.2

/-- Dispatching a timeout keeps the bookkeeping sound. -/
theorem dispatch_timeout_recorded (w : World) (id : Nat) (h : TimeoutsRecorded w) :
    TimeoutsRecorded (dispatch_timeout w id) := by
  unfold dispatch_timeout
  split
  · rename_i e hf
    have he : e ∈ w.sources := List.mem_of_find?_eq_some hf
    have hid : e.1 = id := by simpa using List.find?_some hf
    refine ⟨fun e' he' => ?_, ?_⟩
    · have hm := List.mem_filter.mp he'
      have hne : e'.1 ≠ id := by simpa using hm.2
      have hrec' := h.1 e' hm.1
      have hrec := h.1 e he
      refine ⟨hrec'.1, hrec'.2.1, ?_⟩
      show ((clipped_redraws_cool_off_cb w e.2).stage e'.2).clipped_redraws_cool_off = e'.1
      unfold clipped_redraws_cool_off_cb
      rw [stage_setStage]
      split
      · rename_i heq
        exfalso
        apply hne
        rw [← hid, ← hrec.2.2, ← hrec'.2.2, heq]
      · exact hrec'.2.2
    · exact List.Nodup.sublist ((List.filter_sublist _).map _) h.2
  · exact h

/-- Every world reached through geometry notifications and timeout firings
has sound bookkeeping. -/
theorem recorded_of_reachable (w : World) (h : CoolOffReachable w) : TimeoutsRecorded w := by
  induction h with
  | start w hs =>
    unfold TimeoutsRecorded
    rw [hs]
    simp
  | notify w p e win width height reply event _ ih =>
    cases hl : meta_x11_get_stage_window_from_window w e with
    | none =>
      rw [translate_event_miss w p _ reply event (by simpa [XEvent.xany_window] using hl)]
      exact ih
    | some sc =>
      rw [translate_event_configure w p sc e win width height reply event hl]
      exact configure_notify_recorded w p sc width height ih
  | fire w id _ ih => exact dispatch_timeout_recorded w id ih


/-- With sound bookkeeping, firing the one pending timeout of a stage leaves
the stage without a pending timeout and clears its cool-off marker. -/
theorem dispatch_pending_timeout (w : World) (p : StagePtr) (c : Nat)
    (h : TimeoutsRecorded w) (hp : pending_timeouts w p = [c]) :
    pending_timeouts (dispatch_timeout w c) p = [] ∧
    ((dispatch_timeout w c).stage p).clipped_redraws_cool_off = 0 := by
  have hc : c ∈ pending_timeouts w p := by rw [hp]; simp
  unfold pending_timeouts at hc
  obtain ⟨e, he, hec⟩ := List.mem_map.mp hc
  have he' := List.mem_filter.mp he
  have hep : e.2 = p := by simpa using he'.2
  cases hf : w.sources.find? (fun e => e.1 == c) with
  | none =>
    rw [List.find?_eq_none] at hf
    exact absurd (by simpa using hec) (hf e he'.1)
  | some e0 =>
    have he0 : e0 ∈ w.sources := List.mem_of_find?_eq_some hf
    have hid : e0.1 = c := by simpa using List.find?_some hf
    have heq : e0 = e := List.inj_on_of_nodup_map h.2 he0 he'.1 (by rw [hid, hec])
    have hw : dispatch_timeout w c = g_source_remove (clipped_redraws_cool_off_cb w p) c := by
      unfold dispatch_timeout
      rw [hf, heq]
      simp only [hep]
    rw [hw]
    constructor
    · unfold pending_timeouts
      rw [List.map_eq_nil_iff, List.filter_eq_nil_iff]
      intro e' he'' hp'
      have hm := List.mem_filter.mp he''
      have hne : e'.1 ≠ c := by simpa using hm.2
      have hp2 : e'.2 = p := by simpa using hp'
      apply hne
      have h1 := (h.1 e' hm.1).2.2
      have h2 := (h.1 e he'.1).2.2
      rw [hp2] at h1
      rw [hep] at h2
      rw [← h1, h2, hec]
    · show ((clipped_redraws_cool_off_cb w p).stage p).clipped_redraws_cool_off = 0
      unfold clipped_redraws_cool_off_cb
      simp

/-- A translated geometry notification that counts as a size change restarts
the timeout of the stage: afterwards the stage has exactly one pending
timeout, with a new id, and no source carries the id that was recorded
before. -/
theorem notified_restarts (w : World) (p : StagePtr) (e : Window) (width height : Int)
    (h : TimeoutsRecorded w) (hc : size_changing w p e width height) :
    TimeoutsRecorded (notified w p e width height) ∧
    pending_timeouts (notified w p e width height) p = [w.source_count + 1] ∧
    ((notified w p e width height).stage p).clipped_redraws_cool_off = w.source_count + 1 ∧
    (notified w p e width height).source_count = w.source_count + 1 := by
  obtain ⟨sc, hl, hcond⟩ := hc
  have e1 : notified w p e width height = configure_notify w p sc width height := by
    unfold notified
    rw [translate_event_configure w p sc e e width height none _ hl]
  rw [e1]
  exact ⟨configure_notify_recorded w p sc width height h,
    configure_notify_restarts w p sc width height h hcond⟩

/-- C20: in every world reached from a world without timeout sources by
translating geometry notifications and by firing timeouts, a stage has at
most one pending cool-off timeout.  Two geometry notifications in a row that
both count as a size change, with no firing in between, leave the stage with
exactly one pending timeout, the one its cool-off marker records: the second
notification removed the timeout of the first, whose id is no longer
pending, before it added its own.  That timeout fires once: after its
callback the cool-off marker is 0, clipped redraws are allowed again, and the
stage has no pending timeout. -/
theorem at_most_one_cool_off_timeout (w : World) (h : CoolOffReachable w) (p : StagePtr) :
    (pending_timeouts w p).length ≤ 1 ∧
    ∀ (e1 : Window) (width1 height1 : Int) (e2 : Window) (width2 height2 : Int)
      (w1 w2 : World),
      w1 = notified w p e1 width1 height1 → w2 = notified w1 p e2 width2 height2 →
      size_changing w p e1 width1 height1 → size_changing w1 p e2 width2 height2 →
      pending_timeouts w1 p = [(w1.stage p).clipped_redraws_cool_off] ∧
      pending_timeouts w2 p = [(w2.stage p).clipped_redraws_cool_off] ∧
      (w1.stage p).clipped_redraws_cool_off ∉ pending_timeouts w2 p ∧
      pending_timeouts (dispatch_timeout w2 (w2.stage p).clipped_redraws_cool_off) p = [] ∧
      ((dispatch_timeout w2 (w2.stage p).clipped_redraws_cool_off).stage
        p).clipped_redraws_cool_off = 0 ∧
      meta_stage_x11_can_clip_redraws
        (dispatch_timeout w2 (w2.stage p).clipped_redraws_cool_off) p = true := by
  have hr := recorded_of_reachable w h
  refine ⟨(pending_of_recorded w p hr).1, ?_⟩
  intro e1 width1 height1 e2 width2 height2 w1 w2 hw1 hw2 hc1 hc2
  subst hw1
  subst hw2
  have h1 := notified_restarts w p e1 width1 height1 hr hc1
  have h2 := notified_restarts _ p e2 width2 height2 h1.1 hc2
  have hp2 : pending_timeouts (notified (notified w p e1 width1 height1) p e2 width2 height2)
      p = [((notified (notified w p e1 width1 height1) p e2 width2 height2).stage
        p).clipped_redraws_cool_off] := by
    rw [h2.2.1, h2.2.2.1]
  have hd := dispatch_pending_timeout _ p _ h2.1 hp2
  refine ⟨by rw [h1.2.1, h1.2.2.1], hp2, ?_, hd.1, hd.2, ?_⟩
  · rw [h2.2.1, h1.2.2.1, h1.2.2.2]
    simp
  · unfold meta_stage_x11_can_clip_redraws
    rw [hd.2]
    rfl

/-- C20, at a concrete input: on the mapped stage of `world_mapped` (window 5,
tracked size 640x480) the notifications 800x600 and 900x700 in a row leave the
one timeout 2 pending; the timeout 1 of the first is gone. -/
theorem at_most_one_cool_off_timeout_witness :
    pending_timeouts (notified world_mapped 0 5 800 600) 0 = [1] ∧
    pending_timeouts (notified (notified world_mapped 0 5 800 600) 0 5 900 700) 0 = [2] ∧
    (notified (notified world_mapped 0 5 800 600) 0 5 900 700).sources = [(2, 0)] ∧
    pending_timeouts
      (dispatch_timeout (notified (notified world_mapped 0 5 800 600) 0 5 900 700) 2) 0 =
      [] :=
  have h := (at_most_one_cool_off_timeout world_mapped (.start _ rfl) 0).2 5 800 600 5 900 700
    _ _ rfl rfl ⟨0, by decide, by decide⟩ ⟨0, by decide, by decide⟩
  ⟨h.1.trans (by decide), h.2.1.trans (by decide), by decide, h.2.2.2.1.trans (by decide)⟩


/-! ## The claims on the translated notifications -/

/-- The update `clutter_stage_update_state` with the fullscreen flag to set, on
a stage that is not confirmed fullscreen: the flag is stored and the update
is logged. -/
theorem update_state_enter (c : ClutterStage) (h : c.is_fullscreen = false) :
    (clutter_stage_update_state c [] [ClutterStageState.FULLSCREEN]).is_fullscreen = true ∧
    (clutter_stage_update_state c [] [ClutterStageState.FULLSCREEN]).state_updates =
      c.state_updates ++ [([], [ClutterStageState.FULLSCREEN])] := by
  unfold clutter_stage_update_state
  simp [h]

/-- The update `clutter_stage_update_state` with the fullscreen flag to unset,
on a stage that is confirmed fullscreen. -/
theorem update_state_leave (c : ClutterStage) (h : c.is_fullscreen = true) :
    (clutter_stage_update_state c [ClutterStageState.FULLSCREEN] []).is_fullscreen = false ∧
    (clutter_stage_update_state c [ClutterStageState.FULLSCREEN] []).state_updates =
      c.state_updates ++ [([ClutterStageState.FULLSCREEN], [])] := by
  unfold clutter_stage_update_state
  simp [h]

/-- C21: a PropertyNotify for `_NET_WM_STATE` on the window of the stage, a
window the registry resolves to the stage window `sc`, whose property read
returns the atoms `L`: the translator calls `_clutter_stage_update_state` on
the wrapper of `sc` exactly when the presence of
`_NET_WM_STATE_FULLSCREEN` in `L` differs from the confirmed fullscreen state
of that wrapper (with the flag to set when it is present, to unset when it is
absent), and afterwards the confirmed fullscreen state is that presence. -/
theorem state_notify_updates_confirmed (w : World) (p sc : StagePtr) (window : Window)
    (atom : Atom) (L : List Atom) (event : ClutterEvent)
    (hreg : meta_x11_get_stage_window_from_window w window = some sc)
    (hatom : atom = w.backend.atom_NET_WM_STATE)
    (hwin : window = (w.stage p).xwin) :
    (decide (w.backend.atom_NET_WM_STATE_FULLSCREEN ∈ L) ≠
        clutter_stage_is_fullscreen (w.stage sc).wrapper →
      ((meta_stage_x11_translate_event w p (.PropertyNotify window atom) (some L)
          event).2.2.stage sc).wrapper.state_updates =
        (w.stage sc).wrapper.state_updates ++
          [if w.backend.atom_NET_WM_STATE_FULLSCREEN ∈ L
            then ([], [ClutterStageState.FULLSCREEN])
            else ([ClutterStageState.FULLSCREEN], [])]) ∧
    (decide (w.backend.atom_NET_WM_STATE_FULLSCREEN ∈ L) =
        clutter_stage_is_fullscreen (w.stage sc).wrapper →
      ((meta_stage_x11_translate_event w p (.PropertyNotify window atom) (some L)
          event).2.2.stage sc).wrapper.state_updates =
        (w.stage sc).wrapper.state_updates) ∧
    clutter_stage_is_fullscreen
        ((meta_stage_x11_translate_event w p (.PropertyNotify window atom) (some L)
          event).2.2.stage sc).wrapper =
      decide (w.backend.atom_NET_WM_STATE_FULLSCREEN ∈ L) := by
  have hany : (L.any fun a => a == w.backend.atom_NET_WM_STATE_FULLSCREEN) =
      decide (w.backend.atom_NET_WM_STATE_FULLSCREEN ∈ L) := by
    induction L with
    | nil => rfl
    | cons a t ih =>
      rw [List.any_cons, ih]
      by_cases hc : a = w.backend.atom_NET_WM_STATE_FULLSCREEN
      · simp [hc]
      · have hc' : ¬ w.backend.atom_NET_WM_STATE_FULLSCREEN = a := fun e => hc e.symm
        simp [hc, hc']
  subst hatom
  unfold meta_stage_x11_translate_event
  simp only [XEvent.xany_window, hreg]
  simp only [hwin, and_self, if_true]
  have hb : (w.emit (XRequest.XGetWindowProperty (w.stage p).xwin
      w.backend.atom_NET_WM_STATE)).backend = w.backend := rfl
  have hs : (w.emit (XRequest.XGetWindowProperty (w.stage p).xwin
      w.backend.atom_NET_WM_STATE)).stage sc = w.stage sc := rfl
  rw [hb, hs, hany]
  by_cases hm : w.backend.atom_NET_WM_STATE_FULLSCREEN ∈ L <;>
    cases hf : (w.stage sc).wrapper.is_fullscreen <;>
    simp [clutter_stage_is_fullscreen, hf, hm, stage_setWrapper, update_state_enter,
      update_state_leave]

/-- C21, at a concrete input: the window manager confirms fullscreen for the
mapped stage, whose window is 5. -/
theorem state_notify_updates_confirmed_witness :
    ((meta_stage_x11_translate_event world_mapped 0 (.PropertyNotify 5 100) (some [7, 101])
        { type := .CLUTTER_NOTHING, stage := none }).2.2.stage 0).wrapper.state_updates =
      [([], [ClutterStageState.FULLSCREEN])] ∧
    clutter_stage_is_fullscreen
        ((meta_stage_x11_translate_event world_mapped 0 (.PropertyNotify 5 100) (some [7, 101])
          { type := .CLUTTER_NOTHING, stage := none }).2.2.stage 0).wrapper = true :=
  ⟨(state_notify_updates_confirmed world_mapped 0 0 5 100 [7, 101] { type := .CLUTTER_NOTHING, stage := none }
      (by decide) (by decide) (by decide)).1 (by decide),
   (state_notify_updates_confirmed world_mapped 0 0 5 100 [7, 101] { type := .CLUTTER_NOTHING, stage := none }
      (by decide) (by decide) (by decide)).2.2⟩


/-! ## The geometry arm: tracked size, actor and timer -/

/-- The tracked size after the first statement of the geometry arm. -/
theorem configure_track_size_size (w : World) (p sc : StagePtr) (width height : Int) :
    ((configure_track_size w p sc width height).stage p).xwin_width =
      (if clutter_stage_is_fullscreen (w.stage sc).wrapper then (w.stage p).xwin_width
        else width) ∧
    ((configure_track_size w p sc width height).stage p).xwin_height =
      (if clutter_stage_is_fullscreen (w.stage sc).wrapper then (w.stage p).xwin_height
        else height) := by
  unfold configure_track_size
  cases hf : clutter_stage_is_fullscreen (w.stage sc).wrapper
  · by_cases hd : (w.stage p).xwin_width ≠ width ∨ (w.stage p).xwin_height ≠ height
    · simp [hd]
    · have hd' := not_or.mp hd
      simp only [ne_eq, not_not] at hd'
      simp [hd'.1, hd'.2]
  · simp

/-- Setting the wrapper of a stage leaves every tracked size. -/
theorem size_setWrapper (w : World) (sc q : StagePtr) (c : ClutterStage) :
    ((w.setWrapper sc c).stage q).xwin_width = (w.stage q).xwin_width ∧
    ((w.setWrapper sc c).stage q).xwin_height = (w.stage q).xwin_height := by
  rw [stage_setWrapper]; split <;> simp_all

/-- The statements of the geometry arm after the first leave every tracked
size. -/
theorem configure_rest_size (w : World) (p sc : StagePtr) (width height : Int) (q : StagePtr) :
    (((configure_actor_size w sc width height).stage q).xwin_width = (w.stage q).xwin_width ∧
      ((configure_actor_size w sc width height).stage q).xwin_height =
        (w.stage q).xwin_height) ∧
    (((configure_start_cool_off w p).stage q).xwin_width = (w.stage q).xwin_width ∧
      ((configure_start_cool_off w p).stage q).xwin_height = (w.stage q).xwin_height) ∧
    (((configure_relayout w sc).stage q).xwin_width = (w.stage q).xwin_width ∧
      ((configure_relayout w sc).stage q).xwin_height = (w.stage q).xwin_height) ∧
    (((configure_legacy_view w p width height).stage q).xwin_width = (w.stage q).xwin_width ∧
      ((configure_legacy_view w p width height).stage q).xwin_height =
        (w.stage q).xwin_height) := by
  refine ⟨size_setWrapper _ _ _ _, ?_, ?_, ?_⟩
  · unfold configure_start_cool_off
    rw [stage_setStage]; split <;> simp_all
  · unfold configure_relayout
    exact ⟨((size_setWrapper _ _ _ _).1).trans (size_setWrapper _ _ _ _).1,
      ((size_setWrapper _ _ _ _).2).trans (size_setWrapper _ _ _ _).2⟩
  · unfold configure_legacy_view
    split
    · rw [stage_setStage]; split <;> simp_all
    · exact ⟨rfl, rfl⟩

/-- The tracked size after the geometry arm: the reported size outside
confirmed fullscreen, the size tracked before under confirmed fullscreen. -/
theorem configure_notify_size (w : World) (p sc : StagePtr) (width height : Int) :
    ((configure_notify w p sc width height).stage p).xwin_width =
      (if clutter_stage_is_fullscreen (w.stage sc).wrapper then (w.stage p).xwin_width
        else width) ∧
    ((configure_notify w p sc width height).stage p).xwin_height =
      (if clutter_stage_is_fullscreen (w.stage sc).wrapper then (w.stage p).xwin_height
        else height) := by
  have h := configure_track_size_size w p sc width height
  unfold configure_notify
  split
  · rw [(configure_rest_size _ p sc width height p).2.2.2.1,
      (configure_rest_size _ p sc width height p).2.2.2.2,
      (configure_rest_size _ p sc width height p).2.2.1.1,
      (configure_rest_size _ p sc width height p).2.2.1.2,
      (configure_rest_size _ p sc width height p).2.1.1,
      (configure_rest_size _ p sc width height p).2.1.2,
      configure_cancel_cool_off_stage,
      (configure_rest_size _ p sc width height p).1.1,
      (configure_rest_size _ p sc width height p).1.2]
    exact h
  · rw [(configure_rest_size _ p sc width height p).1.1,
      (configure_rest_size _ p sc width height p).1.2]
    exact h

/-- The wrapper of the resolved stage after the actor got the reported
size. -/
theorem configure_actor_size_wrapper (w : World) (sc : StagePtr) (width height : Int) :
    ((configure_actor_size w sc width height).stage sc).wrapper =
      clutter_actor_set_size (w.stage sc).wrapper width height := by
  unfold configure_actor_size
  rw [stage_setWrapper]; simp

/-- The wrapper of the resolved stage after relayout and viewport refresh
were queued. -/
theorem configure_relayout_wrapper (w : World) (sc : StagePtr) :
    ((configure_relayout w sc).stage sc).wrapper =
      clutter_stage_ensure_viewport (clutter_actor_queue_relayout (w.stage sc).wrapper) := by
  unfold configure_relayout
  rw [stage_setWrapper]; simp [stage_setWrapper]

/-- The wrapper of the resolved stage after the geometry arm: it has the
reported size and, when the notification counted as a size change, one more
relayout and one more viewport refresh queued. -/
theorem configure_notify_wrapper (w : World) (p sc : StagePtr) (width height : Int) :
    ((configure_notify w p sc width height).stage sc).wrapper =
      (if (clutter_stage_is_fullscreen (w.stage sc).wrapper ||
          decide ((w.stage p).xwin_width ≠ width ∨ (w.stage p).xwin_height ≠ height))
        then clutter_stage_ensure_viewport (clutter_actor_queue_relayout
          (clutter_actor_set_size (w.stage sc).wrapper width height))
        else clutter_actor_set_size (w.stage sc).wrapper width height) := by
  unfold configure_notify
  split
  · rw [(configure_legacy_view_frame _ _ _ _ _).2, configure_relayout_wrapper,
      (configure_start_cool_off_frame _ _ _).2, configure_cancel_cool_off_stage,
      configure_actor_size_wrapper, (configure_track_size_frame _ _ _ _ _ _).2]
  · rw [configure_actor_size_wrapper, (configure_track_size_frame _ _ _ _ _ _).2]


/-- The timeout sources after the geometry arm.  When the notification counts
as a size change the source recorded in the cool-off marker is removed, a
source with a new id is attached for the stage and the marker records that
id; else sources and marker are left alone. -/
theorem configure_notify_sources (w : World) (p sc : StagePtr) (width height : Int) :
    (configure_notify w p sc width height).sources =
      (if (clutter_stage_is_fullscreen (w.stage sc).wrapper ||
          decide ((w.stage p).xwin_width ≠ width ∨ (w.stage p).xwin_height ≠ height))
        then
          (if (w.stage p).clipped_redraws_cool_off ≠ 0 then
            w.sources.filter (fun e => !(e.1 == (w.stage p).clipped_redraws_cool_off))
          else w.sources) ++ [(w.source_count + 1, p)]
        else w.sources) ∧
    ((configure_notify w p sc width height).stage p).clipped_redraws_cool_off =
      (if (clutter_stage_is_fullscreen (w.stage sc).wrapper ||
          decide ((w.stage p).xwin_width ≠ width ∨ (w.stage p).xwin_height ≠ height))
        then w.source_count + 1
        else (w.stage p).clipped_redraws_cool_off) := by
  have h1 := configure_track_size_timers w p sc width height
  have h2 := configure_actor_size_timers (configure_track_size w p sc width height) sc
    width height
  have hm : ((configure_actor_size (configure_track_size w p sc width height) sc width
      height).stage p).clipped_redraws_cool_off = (w.stage p).clipped_redraws_cool_off := by
    rw [h2.2.2, h1.2.2]
  have hs : (configure_actor_size (configure_track_size w p sc width height) sc width
      height).sources = w.sources := by
    rw [h2.1, h1.1]
  have hn : (configure_actor_size (configure_track_size w p sc width height) sc width
      height).source_count = w.source_count := by
    rw [h2.2.1, h1.2.1]
  have hcancel : ∀ v : World, (configure_cancel_cool_off v p).sources =
      (if (v.stage p).clipped_redraws_cool_off ≠ 0 then
        v.sources.filter (fun e => !(e.1 == (v.stage p).clipped_redraws_cool_off))
      else v.sources) ∧ (configure_cancel_cool_off v p).source_count = v.source_count := by
    intro v
    unfold configure_cancel_cool_off
    split <;> exact ⟨rfl, rfl⟩
  have hstart : ∀ v : World, (configure_start_cool_off v p).sources =
      v.sources ++ [(v.source_count + 1, p)] ∧
      ((configure_start_cool_off v p).stage p).clipped_redraws_cool_off =
        v.source_count + 1 := by
    intro v
    unfold configure_start_cool_off
    exact ⟨rfl, by rw [stage_setStage_same]; rfl⟩
  unfold configure_notify
  split
  · constructor
    · rw [(configure_legacy_view_timers _ _ _ _).1, (configure_relayout_timers _ _).1,
        (hstart _).1, (hcancel _).1, (hcancel _).2, hm, hs, hn]
    · rw [(configure_legacy_view_timers _ _ _ _).2.2, (configure_relayout_timers _ _).2.2,
        (hstart _).2, (hcancel _).2, hn]
  · exact ⟨hs, hm⟩


/-- C22: a ConfigureNotify whose window the registry resolves to the stage
window `sc`, while the stage of `sc` is not confirmed fullscreen.  Afterwards
the tracked size is the reported size and the actor has the reported size.
When the reported width or height differs from the tracked size, the timeout
recorded in the cool-off marker is removed, a new timeout is attached for the
stage and recorded, and one relayout and one viewport refresh are queued;
when both are equal, the timeout sources, the cool-off marker and the queued
relayouts and viewport refreshes are what they were. -/
theorem geometry_notify_not_fullscreen (w : World) (p sc : StagePtr) (e win : Window)
    (width height : Int) (reply : Option (List Atom)) (event : ClutterEvent)
    (hreg : meta_x11_get_stage_window_from_window w e = some sc)
    (hnf : clutter_stage_is_fullscreen (w.stage sc).wrapper = false) :
    (((meta_stage_x11_translate_event w p (.ConfigureNotify e win width height) reply
        event).2.2.stage p).xwin_width = width ∧
      ((meta_stage_x11_translate_event w p (.ConfigureNotify e win width height) reply
        event).2.2.stage p).xwin_height = height) ∧
    (clutter_actor_get_size ((meta_stage_x11_translate_event w p
        (.ConfigureNotify e win width height) reply event).2.2.stage sc).wrapper =
      ((width : Rat), (height : Rat))) ∧
    ((w.stage p).xwin_width ≠ width ∨ (w.stage p).xwin_height ≠ height →
      (meta_stage_x11_translate_event w p (.ConfigureNotify e win width height) reply
          event).2.2.sources =
        (if (w.stage p).clipped_redraws_cool_off ≠ 0 then
          w.sources.filter (fun s => !(s.1 == (w.stage p).clipped_redraws_cool_off))
        else w.sources) ++ [(w.source_count + 1, p)] ∧
      ((meta_stage_x11_translate_event w p (.ConfigureNotify e win width height) reply
          event).2.2.stage p).clipped_redraws_cool_off = w.source_count + 1 ∧
      ((meta_stage_x11_translate_event w p (.ConfigureNotify e win width height) reply
          event).2.2.stage sc).wrapper.relayouts = (w.stage sc).wrapper.relayouts + 1 ∧
      ((meta_stage_x11_translate_event w p (.ConfigureNotify e win width height) reply
          event).2.2.stage sc).wrapper.viewports = (w.stage sc).wrapper.viewports + 1) ∧
    ((w.stage p).xwin_width = width ∧ (w.stage p).xwin_height = height →
      (meta_stage_x11_translate_event w p (.ConfigureNotify e win width height) reply
          event).2.2.sources = w.sources ∧
      ((meta_stage_x11_translate_event w p (.ConfigureNotify e win width height) reply
          event).2.2.stage p).clipped_redraws_cool_off =
        (w.stage p).clipped_redraws_cool_off ∧
      ((meta_stage_x11_translate_event w p (.ConfigureNotify e win width height) reply
          event).2.2.stage sc).wrapper.relayouts = (w.stage sc).wrapper.relayouts ∧
      ((meta_stage_x11_translate_event w p (.ConfigureNotify e win width height) reply
          event).2.2.stage sc).wrapper.viewports = (w.stage sc).wrapper.viewports) := by
  rw [translate_event_configure w p sc e win width height reply event hreg]
  have hsize := configure_notify_size w p sc width height
  have hwr := configure_notify_wrapper w p sc width height
  have hsrc := configure_notify_sources w p sc width height
  rw [hnf] at hsize hwr hsrc
  refine ⟨?_, ?_, ?_, ?_⟩
  · simpa using hsize
  · show clutter_actor_get_size ((configure_notify w p sc width height).stage sc).wrapper = _
    rw [hwr]
    split <;> rfl
  · intro hd
    have hc : (false || decide ((w.stage p).xwin_width ≠ width ∨
        (w.stage p).xwin_height ≠ height)) = true := by simp [hd]
    rw [if_pos hc] at hwr
    rw [if_pos hc, if_pos hc] at hsrc
    refine ⟨hsrc.1, hsrc.2, ?_, ?_⟩
    · show ((configure_notify w p sc width height).stage sc).wrapper.relayouts = _
      rw [hwr]; rfl
    · show ((configure_notify w p sc width height).stage sc).wrapper.viewports = _
      rw [hwr]; rfl
  · intro hd
    have hc : ¬ (false || decide ((w.stage p).xwin_width ≠ width ∨
        (w.stage p).xwin_height ≠ height)) = true := by simp [hd.1, hd.2]
    rw [if_neg hc] at hwr
    rw [if_neg hc, if_neg hc] at hsrc
    refine ⟨hsrc.1, hsrc.2, ?_, ?_⟩
    · show ((configure_notify w p sc width height).stage sc).wrapper.relayouts = _
      rw [hwr]; rfl
    · show ((configure_notify w p sc width height).stage sc).wrapper.viewports = _
      rw [hwr]; rfl

/-- C22, at a concrete input: the mapped stage, which tracks 640x480, is told
that its window 5 is now 800x600. -/
theorem geometry_notify_not_fullscreen_witness :
    ((meta_stage_x11_translate_event world_mapped 0 (.ConfigureNotify 5 5 800 600) none
        { type := .CLUTTER_NOTHING, stage := none }).2.2.stage 0).xwin_width = 800 ∧
    ((meta_stage_x11_translate_event world_mapped 0 (.ConfigureNotify 5 5 800 600) none
        { type := .CLUTTER_NOTHING, stage := none }).2.2.stage 0).wrapper.relayouts = 1 ∧
    (meta_stage_x11_translate_event world_mapped 0 (.ConfigureNotify 5 5 800 600) none
        { type := .CLUTTER_NOTHING, stage := none }).2.2.sources = [(1, 0)] :=
  ⟨(geometry_notify_not_fullscreen world_mapped 0 0 5 5 800 600 none
      { type := .CLUTTER_NOTHING, stage := none } (by decide) (by decide)).1.1,
   ((geometry_notify_not_fullscreen world_mapped 0 0 5 5 800 600 none
      { type := .CLUTTER_NOTHING, stage := none } (by decide) (by decide)).2.2.1
        (by decide)).2.2.1,
   ((geometry_notify_not_fullscreen world_mapped 0 0 5 5 800 600 none
      { type := .CLUTTER_NOTHING, stage := none } (by decide) (by decide)).2.2.1
        (by decide)).1⟩


/-- C26: an event whose window the registry resolves to the stage window
`sc`.  The translator returns TRUE exactly when the event is a DestroyNotify,
or a ClientMessage on the window of the stage whose first data long is the
`WM_DELETE_WINDOW` atom; the output event is then `CLUTTER_DESTROY_NOTIFY`,
respectively `CLUTTER_DELETE`, for the resolved stage.  Whenever it returns
FALSE (ConfigureNotify, PropertyNotify, FocusIn, FocusOut, Expose, a ping or
any other client message, any other event type) the output event is the one
the caller passed. -/
theorem translate_event_synthesizes (w : World) (p sc : StagePtr) (xevent : XEvent)
    (reply : Option (List Atom)) (event : ClutterEvent)
    (hreg : meta_x11_get_stage_window_from_window w xevent.xany_window = some sc) :
    ((meta_stage_x11_translate_event w p xevent reply event).1 = true ↔
      ((∃ e win, xevent = .DestroyNotify e win) ∨
        (∃ xclient, xevent = .ClientMessage xclient ∧
          xclient.l0 = (w.backend.atom_WM_DELETE_WINDOW : Int) ∧
          xclient.window = (w.stage p).xwin))) ∧
    ((∃ e win, xevent = .DestroyNotify e win) →
      (meta_stage_x11_translate_event w p xevent reply event).2.1 =
        { type := .CLUTTER_DESTROY_NOTIFY, stage := some sc }) ∧
    ((∃ xclient, xevent = .ClientMessage xclient ∧
        xclient.l0 = (w.backend.atom_WM_DELETE_WINDOW : Int) ∧
        xclient.window = (w.stage p).xwin) →
      (meta_stage_x11_translate_event w p xevent reply event).2.1 =
        { type := .CLUTTER_DELETE, stage := some sc }) ∧
    ((meta_stage_x11_translate_event w p xevent reply event).1 = false →
      (meta_stage_x11_translate_event w p xevent reply event).2.1 = event) := by
  cases xevent with
  | ConfigureNotify e win width height =>
    rw [translate_event_configure w p sc e win width height reply event hreg]
    simp
  | PropertyNotify win atom =>
    unfold meta_stage_x11_translate_event
    simp only [hreg]
    split_ifs <;> cases reply <;> simp
  | FocusIn win =>
    unfold meta_stage_x11_translate_event
    simp [hreg]
  | FocusOut win =>
    unfold meta_stage_x11_translate_event
    simp [hreg]
  | Expose win x y width height =>
    unfold meta_stage_x11_translate_event
    simp [hreg]
  | DestroyNotify e win =>
    unfold meta_stage_x11_translate_event
    simp [hreg]
  | ClientMessage xclient =>
    unfold meta_stage_x11_translate_event
    simp only [hreg]
    by_cases hd : xclient.l0 = (w.backend.atom_WM_DELETE_WINDOW : Int) ∧
        xclient.window = (w.stage p).xwin
    · have hh : (handle_wm_protocols_event w p xclient).1 = true := by
        unfold handle_wm_protocols_event
        rw [if_pos hd]
      simp [hh, hd]
    · have hh : (handle_wm_protocols_event w p xclient).1 = false := by
        unfold handle_wm_protocols_event
        rw [if_neg hd]
        split <;> rfl
      simp [hh, hd]
  | Other t win =>
    unfold meta_stage_x11_translate_event
    simp [hreg]

/-- C26, at a concrete input: a DestroyNotify for the window 5 of the mapped
stage gives a `CLUTTER_DESTROY_NOTIFY` event for stage 0, and a FocusIn on
that window, for which the translator returns FALSE, leaves the event of the
caller. -/
theorem translate_event_synthesizes_witness :
    (meta_stage_x11_translate_event world_mapped 0 (.DestroyNotify 5 5) none
        { type := .CLUTTER_NOTHING, stage := none }).2.1 =
      { type := .CLUTTER_DESTROY_NOTIFY, stage := some 0 } ∧
    (meta_stage_x11_translate_event world_mapped 0 (.FocusIn 5) none
        { type := .CLUTTER_NOTHING, stage := none }).2.1 =
      { type := .CLUTTER_NOTHING, stage := none } :=
  ⟨(translate_event_synthesizes world_mapped 0 0 (.DestroyNotify 5 5) none
      { type := .CLUTTER_NOTHING, stage := none } (by decide)).2.1 ⟨5, 5, rfl⟩,
   (translate_event_synthesizes world_mapped 0 0 (.FocusIn 5) none
      { type := .CLUTTER_NOTHING, stage := none } (by decide)).2.2.2 (by decide)⟩


/-! ## Show and hide in the target state -/

/-- C23 fails as stated: `show` on the mapped stage of `world_mapped` sends
`XMapWindow` for its window 5 once more, and `hide` on the realized,
withdrawn stage of `world_realized` sends `XWithdrawWindow` for it. -/
theorem show_mapped_reissues_map_counterexample :
    (world_mapped.stage 0).xwin = 5 ∧
    STAGE_X11_IS_MAPPED (world_mapped.stage 0) = true ∧
    (meta_stage_x11_show world_mapped 0 false).requests =
      world_mapped.requests ++ [.XMapWindow 5] ∧
    (world_realized.stage 0).xwin = 5 ∧
    STAGE_X11_IS_MAPPED (world_realized.stage 0) = false ∧
    (meta_stage_x11_hide world_realized 0).requests =
      world_realized.requests ++ [.XWithdrawWindow 5 0] := by
  decide

/-- C23 (as amended): on a realized stage that is already mapped, `show`
changes no field of the stage window and of no other stage window; it tells
the actor once more that it is mapped and sends `XMapWindow` again, preceded
by `XRaiseWindow` whenever raise is set.  On a realized stage that is already
withdrawn, `hide` changes no field of the stage window either; it tells the
actor once more that it is unmapped and sends `XWithdrawWindow` again. -/
theorem show_hide_in_target_state (w : World) (p : StagePtr)
    (hx : (w.stage p).xwin ≠ None) :
    (STAGE_X11_IS_MAPPED (w.stage p) = true → ∀ do_raise : Bool,
      (meta_stage_x11_show w p do_raise).stage p =
        { w.stage p with wrapper := clutter_actor_map (w.stage p).wrapper } ∧
      (∀ q, q ≠ p → (meta_stage_x11_show w p do_raise).stage q = w.stage q) ∧
      (meta_stage_x11_show w p do_raise).requests =
        w.requests ++ (if do_raise then [.XRaiseWindow (w.stage p).xwin] else []) ++
          [.XMapWindow (w.stage p).xwin]) ∧
    (STAGE_X11_IS_MAPPED (w.stage p) = false →
      (meta_stage_x11_hide w p).stage p =
        { w.stage p with wrapper := clutter_actor_unmap (w.stage p).wrapper } ∧
      (∀ q, q ≠ p → (meta_stage_x11_hide w p).stage q = w.stage q) ∧
      (meta_stage_x11_hide w p).requests =
        w.requests ++ [.XWithdrawWindow (w.stage p).xwin 0]) := by
  constructor
  · intro hm do_raise
    have e : meta_stage_x11_show w p do_raise =
        ((if do_raise then w.emit (.XRaiseWindow (w.stage p).xwin) else w).setWrapper p
          (clutter_actor_map (w.stage p).wrapper)).emit (.XMapWindow (w.stage p).xwin) := by
      unfold meta_stage_x11_show
      rw [if_pos hx]
      cases do_raise <;> simp [hm, stage_setWrapper]
    rw [e]
    refine ⟨?_, ?_, ?_⟩
    · rw [stage_emit, stage_setWrapper, if_pos rfl]
      cases do_raise <;> rfl
    · intro q hq
      rw [stage_emit, stage_setWrapper, if_neg hq]
      cases do_raise <;> rfl
    · cases do_raise <;> simp [World.emit]
  · intro hm
    have e : meta_stage_x11_hide w p =
        (w.setWrapper p (clutter_actor_unmap (w.stage p).wrapper)).emit
          (.XWithdrawWindow (w.stage p).xwin 0) := by
      unfold meta_stage_x11_hide
      rw [if_pos hx]
      simp [hm, stage_setWrapper]
    rw [e]
    refine ⟨?_, ?_, ?_⟩
    · rw [stage_emit, stage_setWrapper, if_pos rfl]
    · intro q hq
      rw [stage_emit, stage_setWrapper, if_neg hq]
    · simp [World.emit]

/-- C23, at a concrete input: `show` with raise on the mapped stage of
`world_mapped`, whose window is 5. -/
theorem show_hide_in_target_state_witness :
    (meta_stage_x11_show world_mapped 0 true).requests =
      world_mapped.requests ++ [.XRaiseWindow 5] ++ [.XMapWindow 5] :=
  ((show_hide_in_target_state world_mapped 0 (by decide)).1 (by decide) true).2.2


/-! ## The window and the visibility flags through the calls -/

/-- The resize entry point changes the window and the visibility flags of no
stage. -/
theorem handle_resize (w : World) (p : StagePtr) (width height : Int) (q : StagePtr) :
    ((meta_stage_x11_resize w p width height).stage q).xwin = (w.stage q).xwin ∧
    ((meta_stage_x11_resize w p width height).stage q).wm_state = (w.stage q).wm_state := by
  unfold meta_stage_x11_resize
  simp only []
  split_ifs <;> simp [stage_setStage, fix_window_size_stage] <;> split_ifs <;> simp_all

/-- The title setter changes the window and the visibility flags of no
stage. -/
theorem handle_set_title (w : World) (p : StagePtr) (t : Option String) (q : StagePtr) :
    ((meta_stage_x11_set_title w p t).stage q).xwin = (w.stage q).xwin ∧
    ((meta_stage_x11_set_title w p t).stage q).wm_state = (w.stage q).wm_state := by
  unfold meta_stage_x11_set_title
  simp [stage_setStage]
  split <;> simp_all

/-- The cursor setter changes the window and the visibility flags of no
stage. -/
theorem handle_set_cursor_visible (w : World) (p : StagePtr) (b : Bool) (q : StagePtr) :
    ((meta_stage_x11_set_cursor_visible w p b).stage q).xwin = (w.stage q).xwin ∧
    ((meta_stage_x11_set_cursor_visible w p b).stage q).wm_state = (w.stage q).wm_state := by
  unfold meta_stage_x11_set_cursor_visible
  simp [stage_setStage]
  split <;> simp_all

/-- The focus setter changes the window and the visibility flags of no
stage. -/
theorem handle_set_accept_focus (w : World) (p : StagePtr) (b : Bool) (q : StagePtr) :
    ((meta_stage_x11_set_accept_focus w p b).stage q).xwin = (w.stage q).xwin ∧
    ((meta_stage_x11_set_accept_focus w p b).stage q).wm_state = (w.stage q).wm_state := by
  unfold meta_stage_x11_set_accept_focus
  simp [stage_setStage]
  split <;> simp_all

/-- Dispatching a timeout changes the window and the visibility flags of no
stage. -/
theorem handle_dispatch_timeout (w : World) (id : Nat) (q : StagePtr) :
    ((dispatch_timeout w id).stage q).xwin = (w.stage q).xwin ∧
    ((dispatch_timeout w id).stage q).wm_state = (w.stage q).wm_state := by
  unfold dispatch_timeout
  split
  · simp only [stage_g_source_remove, clipped_redraws_cool_off_cb]
    rw [stage_setStage]; split <;> simp_all
  · exact ⟨rfl, rfl⟩


/-- Showing one stage window changes the visibility flags of no other. -/
theorem show_wm_state_other (w : World) (p : StagePtr) (do_raise : Bool) (q : StagePtr)
    (hq : q ≠ p) :
    ((meta_stage_x11_show w p do_raise).stage q).wm_state = (w.stage q).wm_state := by
  unfold meta_stage_x11_show
  simp only []
  have e1 : ∀ r, (if do_raise = true then w.emit r else w).stage = w.stage := by
    intro r; split <;> rfl
  split
  · simp only [stage_emit, wm_state_setWrapper]
    split_ifs <;>
      simp [wm_state_set_fullscreen, set_stage_x11_state_stage, e1, hq]
  · rfl

/-- Hiding one stage window changes the visibility flags of no other. -/
theorem hide_wm_state_other (w : World) (p q : StagePtr) (hq : q ≠ p) :
    ((meta_stage_x11_hide w p).stage q).wm_state = (w.stage q).wm_state := by
  unfold meta_stage_x11_hide
  simp only []
  split
  · simp only [stage_emit, wm_state_setWrapper]
    split_ifs <;> simp [set_stage_x11_state_stage, hq]
  · rfl

/-- The first piece of realize changes the window of no stage. -/
theorem realize_onscreen_xwin (w : World) (p q : StagePtr) :
    ((realize_onscreen w p).stage q).xwin = (w.stage q).xwin := by
  unfold realize_onscreen
  simp only [World.stage, World.setStage]
  by_cases hq : q = p
  · subst hq
    simp only [if_true]
    split <;> simp
  · simp only [hq, if_false]
    split <;> simp [hq]

/-- A realize that returns changes the visibility flags of no stage, and the
window of no stage but the realized one, whose window stays or becomes the
window that was reported. -/
theorem realize_handle (w w' : World) (p : StagePtr) (env : RealizeEnv) (b : Bool)
    (h : meta_stage_x11_realize w p env = some (b, w')) (q : StagePtr) :
    (w'.stage q).wm_state = (w.stage q).wm_state ∧
    ((w'.stage q).xwin = (w.stage q).xwin ∨ (w'.stage q).xwin = env.xid) := by
  rw [realize_eq] at h
  split at h
  · cases h
  · split at h
    · simp only [Option.some.injEq, Prod.mk.injEq] at h
      rw [← h.2]
      exact ⟨(realize_onscreen_frame w p q).2.1, Or.inl (realize_onscreen_xwin w p q)⟩
    · simp only [Option.some.injEq, Prod.mk.injEq] at h
      rw [← h.2]
      constructor
      · rw [(realize_finish_frame _ p q).2.2.2, realize_properties_stage,
          (realize_register_frame _ p env.xid q).2.1, (realize_onscreen_frame w p q).2.1]
      · rw [(realize_finish_frame _ p q).1, realize_properties_stage, realize_register_stage]
        by_cases hq : q = p
        · right; simp [hq]
        · left; simp only [hq, if_false]; exact realize_onscreen_xwin w p q


/-- One call of the transition system keeps the invariant that every mapped
stage window has a window. -/
theorem step_keeps_mapped_window (w w' : World) (p : StagePtr) (op : Op)
    (hx : op.windowReported = true) (hs : step w p op = some w')
    (hinv : ∀ q, STAGE_X11_IS_MAPPED (w.stage q) = true → (w.stage q).xwin ≠ None) :
    ∀ q, STAGE_X11_IS_MAPPED (w'.stage q) = true → (w'.stage q).xwin ≠ None := by
  have keep : (∀ q, (w'.stage q).xwin = (w.stage q).xwin ∧
      (w'.stage q).wm_state = (w.stage q).wm_state) →
      ∀ q, STAGE_X11_IS_MAPPED (w'.stage q) = true → (w'.stage q).xwin ≠ None := by
    intro hf q hm
    unfold STAGE_X11_IS_MAPPED at hm
    rw [(hf q).2] at hm
    rw [(hf q).1]
    exact hinv q hm
  cases op with
  | realize env =>
    simp only [step, Option.map_eq_some'] at hs
    obtain ⟨r, hr, hw⟩ := hs
    obtain ⟨b, v⟩ := r
    simp only at hw
    subst hw
    intro q hm
    have hh := realize_handle w v p env b hr q
    unfold STAGE_X11_IS_MAPPED at hm
    rw [hh.1] at hm
    rcases hh.2 with he | he
    · rw [he]; exact hinv q hm
    · rw [he]
      simpa [Op.windowReported] using hx
  | unrealize =>
    simp only [step, Option.some.injEq] at hs
    subst hs
    refine keep fun q => ?_
    rw [unrealize_stage]
    split <;> simp_all
  | «show» do_raise =>
    simp only [step, Option.some.injEq] at hs
    subst hs
    intro q hm
    rw [(show_frame w p do_raise q).1]
    by_cases hq : q = p
    · subst hq
      by_cases hn : (w.stage q).xwin = None
      · have e : meta_stage_x11_show w q do_raise = w := by
          unfold meta_stage_x11_show
          simp [hn]
        rw [e] at hm
        exact hinv q hm
      · exact hn
    · unfold STAGE_X11_IS_MAPPED at hm
      rw [show_wm_state_other w p do_raise q hq] at hm
      exact hinv q hm
  | hide =>
    simp only [step, Option.some.injEq] at hs
    subst hs
    intro q hm
    rw [(hide_frame w p q).1]
    by_cases hq : q = p
    · subst hq
      by_cases hn : (w.stage q).xwin = None
      · have e : meta_stage_x11_hide w q = w := by
          unfold meta_stage_x11_hide
          simp [hn]
        rw [e] at hm
        exact hinv q hm
      · exact hn
    · unfold STAGE_X11_IS_MAPPED at hm
      rw [hide_wm_state_other w p q hq] at hm
      exact hinv q hm
  | resize width height =>
    simp only [step, Option.some.injEq] at hs
    subst hs
    exact keep fun q => handle_resize w p width height q
  | set_fullscreen b =>
    simp only [step, Option.some.injEq] at hs
    subst hs
    exact keep fun q => ⟨xwin_set_fullscreen w p b q, wm_state_set_fullscreen w p b q⟩
  | set_title t =>
    simp only [step, Option.some.injEq] at hs
    subst hs
    exact keep fun q => handle_set_title w p t q
  | set_cursor_visible b =>
    simp only [step, Option.some.injEq] at hs
    subst hs
    exact keep fun q => handle_set_cursor_visible w p b q
  | set_user_resizable b =>
    simp only [step, Option.some.injEq] at hs
    subst hs
    exact keep fun q => by rw [stage_set_user_resizable]; exact ⟨rfl, rfl⟩
  | set_accept_focus b =>
    simp only [step, Option.some.injEq] at hs
    subst hs
    exact keep fun q => handle_set_accept_focus w p b q
  | translate_event xevent reply =>
    simp only [step, Option.some.injEq] at hs
    subst hs
    refine keep fun q => ?_
    have hl := translate_event_lifecycle w p xevent reply
      { type := .CLUTTER_NOTHING, stage := none } q
    simp only [MetaStageX11.lifecycle, Prod.mk.injEq] at hl
    exact ⟨hl.1, hl.2.1⟩
  | timeout id =>
    simp only [step, Option.some.injEq] at hs
    subst hs
    exact keep fun q => handle_dispatch_timeout w id q

/-- C24: in every world reached from an initial world, where every stage
window is withdrawn and has no window, by realize, unrealize, show, hide,
resize, set_fullscreen, the setters, translated events and fired timeouts on
any stage window, with X reporting a window for every realized onscreen, a
stage window that is mapped has a window: `xwin` is not `None`. -/
theorem mapped_has_window (w : World) (h : StageReachable w) (q : StagePtr)
    (hm : STAGE_X11_IS_MAPPED (w.stage q) = true) : (w.stage q).xwin ≠ None := by
  revert q
  induction h with
  | init backend default_root wrapper =>
    intro q hm
    have e : STAGE_X11_IS_MAPPED ((World.initial backend default_root wrapper).stage q) =
        false := by
      simp [STAGE_X11_IS_MAPPED, World.initial, World.stage, meta_stage_x11_init,
        STAGE_X11_WITHDRAWN]
    rw [e] at hm
    cases hm
  | call w w' p op _ hx hs ih => exact step_keeps_mapped_window w w' p op hx hs ih

/-- C24, at a concrete input: the world after realize and show of stage 0 is
reachable, its stage 0 is mapped, and its window is not `None`. -/
theorem mapped_has_window_witness :
    StageReachable world_mapped ∧ STAGE_X11_IS_MAPPED (world_mapped.stage 0) = true ∧
    (world_mapped.stage 0).xwin ≠ None :=
  ⟨StageReachable.call world_realized world_mapped 0 (.show false)
      (StageReachable.call world0 world_realized 0 (.realize env0)
        (StageReachable.init backend0 1 wrapper0) rfl rfl) rfl rfl,
   by decide,
   mapped_has_window world_mapped
    (StageReachable.call world_realized world_mapped 0 (.show false)
      (StageReachable.call world0 world_realized 0 (.realize env0)
        (StageReachable.init backend0 1 wrapper0) rfl rfl) rfl rfl) 0 (by decide)⟩


/-! ## The outputs of a logical monitor -/

/-- What the loop over the outputs leaves: the counter has advanced by the
length of the list; the element of the list at position `j - i` is stored at
every index `j` from `i` on that is at most `META_MAX_OUTPUTS_PER_MONITOR`,
and every other index holds what it held; `n_outputs` is not written. -/
theorem outputs_loop_spec (MAX : Nat) (l : List MetaOutput) :
    ∀ (i : Nat) (b : Bool) (m : MonitorWorld),
      (outputs_loop MAX l i b m).1 = i + l.length ∧
      (∀ j, (outputs_loop MAX l i b m).2.2.logical_monitor.outputs j =
        if i ≤ j ∧ j < i + l.length ∧ j ≤ MAX then l[j - i]?
        else m.logical_monitor.outputs j) ∧
      (outputs_loop MAX l i b m).2.2.logical_monitor.n_outputs =
        m.logical_monitor.n_outputs := by
  induction l with
  | nil =>
    intro i b m
    refine ⟨rfl, fun j => ?_, rfl⟩
    have : ¬ (i ≤ j ∧ j < i + ([] : List MetaOutput).length ∧ j ≤ MAX) := by
      simp only [List.length_nil, Nat.add_zero]
      omega
    rw [if_neg this]
    rfl
  | cons o t ih =>
    intro i b m
    unfold outputs_loop
    simp only []
    refine ⟨?_, fun j => ?_, ?_⟩
    · rw [(ih _ _ _).1, List.length_cons]
      omega
    · rw [(ih _ _ _).2.1 j]
      by_cases hi : i ≤ MAX
      · simp only [hi, if_true, List.length_cons]
        by_cases hj : j = i
        · subst hj
          have h1 : ¬ (j + 1 ≤ j ∧ j < j + 1 + t.length ∧ j ≤ MAX) := by omega
          have h2 : j ≤ j ∧ j < j + (t.length + 1) ∧ j ≤ MAX := by omega
          rw [if_neg h1, if_pos h2]
          simp
        · by_cases hc : i + 1 ≤ j ∧ j < i + 1 + t.length ∧ j ≤ MAX
          · have h2 : i ≤ j ∧ j < i + (t.length + 1) ∧ j ≤ MAX := by omega
            rw [if_pos hc, if_pos h2]
            have e : j - i = (j - (i + 1)) + 1 := by omega
            rw [e, List.getElem?_cons_succ]
          · have h2 : ¬ (i ≤ j ∧ j < i + (t.length + 1) ∧ j ≤ MAX) := by omega
            rw [if_neg hc, if_neg h2]
            simp [Function.update, hj]
      · simp only [hi, if_false, List.length_cons]
        have h1 : ¬ (i + 1 ≤ j ∧ j < i + 1 + t.length ∧ j ≤ MAX) := by omega
        have h2 : ¬ (i ≤ j ∧ j < i + (t.length + 1) ∧ j ≤ MAX) := by omega
        rw [if_neg h1, if_neg h2]
    · rw [(ih _ _ _).2.2]
      split <;> rfl


/-- What `meta_logical_monitor_new` leaves in the array and in `n_outputs`: the
output at position `j` of the list of the monitor is stored at every index
`j` that is at most `META_MAX_OUTPUTS_PER_MONITOR`, the other indices hold
`NULL`, and `n_outputs` is the smaller of the length of the list and
`META_MAX_OUTPUTS_PER_MONITOR`. -/
theorem logical_monitor_new_outputs (MAX : Nat) (monitor : MetaMonitor) (x y number : Int)
    (ha : monitor.is_active = true) :
    ∃ m, meta_logical_monitor_new MAX monitor x y number = some m ∧
      (∀ j, m.logical_monitor.outputs j =
        if j < monitor.outputs.length ∧ j ≤ MAX then monitor.outputs[j]? else none) ∧
      m.logical_monitor.n_outputs = min monitor.outputs.length MAX := by
  unfold meta_logical_monitor_new
  simp only [ha, Bool.not_true, Bool.false_eq_true, if_false]
  refine ⟨_, rfl, fun j => ?_, ?_⟩
  · simp only []
    rw [(outputs_loop_spec MAX monitor.outputs 0 true _).2.1 j]
    simp [MetaLogicalMonitor.zeroed]
  · simp only []
    rw [(outputs_loop_spec MAX monitor.outputs 0 true _).1]
    simp

/-- What `meta_logical_monitor_add_monitor` leaves in the array and in
`n_outputs`: with `n` the `n_outputs` before the call, the output at position
`j - n` of the list of the monitor is stored at every index `j` from `n` on
that is at most `META_MAX_OUTPUTS_PER_MONITOR`, the other indices hold what
they held, and `n_outputs` is the smaller of `n` plus the length of the list
and `META_MAX_OUTPUTS_PER_MONITOR`. -/
theorem logical_monitor_add_monitor_outputs (MAX : Nat) (m : MonitorWorld)
    (monitor : MetaMonitor) :
    (∀ j, (meta_logical_monitor_add_monitor MAX m monitor).logical_monitor.outputs j =
      if m.logical_monitor.n_outputs ≤ j ∧
          j < m.logical_monitor.n_outputs + monitor.outputs.length ∧ j ≤ MAX
        then monitor.outputs[j - m.logical_monitor.n_outputs]?
        else m.logical_monitor.outputs j) ∧
    (meta_logical_monitor_add_monitor MAX m monitor).logical_monitor.n_outputs =
      min (m.logical_monitor.n_outputs + monitor.outputs.length) MAX := by
  unfold meta_logical_monitor_add_monitor
  refine ⟨fun j => ?_, ?_⟩
  · simp only []
    rw [(outputs_loop_spec MAX monitor.outputs _ _ _).2.1 j]
  · simp only []
    rw [(outputs_loop_spec MAX monitor.outputs _ _ _).1]

/-- Both functions leave `n_outputs` at most `META_MAX_OUTPUTS_PER_MONITOR`,
and neither stores at an index above `META_MAX_OUTPUTS_PER_MONITOR`. -/
theorem logical_monitor_n_outputs_le (MAX : Nat) (monitor : MetaMonitor) (x y number : Int)
    (m : MonitorWorld) :
    (∀ v, meta_logical_monitor_new MAX monitor x y number = some v →
      v.logical_monitor.n_outputs ≤ MAX ∧
      ∀ j, MAX < j → v.logical_monitor.outputs j = none) ∧
    (meta_logical_monitor_add_monitor MAX m monitor).logical_monitor.n_outputs ≤ MAX ∧
    ∀ j, MAX < j →
      (meta_logical_monitor_add_monitor MAX m monitor).logical_monitor.outputs j =
        m.logical_monitor.outputs j := by
  refine ⟨fun v hv => ?_, ?_, fun j hj => ?_⟩
  · cases ha : monitor.is_active with
    | false => simp [meta_logical_monitor_new, ha] at hv
    | true =>
      obtain ⟨m', hm', ho, hn⟩ := logical_monitor_new_outputs MAX monitor x y number ha
      rw [hm'] at hv
      cases hv
      refine ⟨by rw [hn]; exact Nat.min_le_right _ _, fun j hj => ?_⟩
      rw [ho j, if_neg (by omega)]
  · rw [(logical_monitor_add_monitor_outputs MAX m monitor).2]
    exact Nat.min_le_right _ _
  · rw [(logical_monitor_add_monitor_outputs MAX m monitor).1 j, if_neg (by omega)]

/-- The element after the first `l.length` elements of `l ++ o :: more`. -/
theorem output_after_prefix (l : List MetaOutput) (o : MetaOutput) (more : List MetaOutput) :
    (l ++ o :: more)[l.length]? = some o := by
  induction l with
  | nil => simp
  | cons a t ih => simpa using ih

/-- C27 fails in the code: with `META_MAX_OUTPUTS_PER_MONITOR` the length of
`l`, a monitor whose output list is `l` followed by `o` and more has more
outputs than the array has elements.  `meta_logical_monitor_new` then stores
`o` at the index `META_MAX_OUTPUTS_PER_MONITOR`, one past the last element of
the array, and so does `meta_logical_monitor_add_monitor` on a logical monitor
without outputs; `n_outputs` is `META_MAX_OUTPUTS_PER_MONITOR` after both. -/
theorem logical_monitor_stores_past_the_array (l : List MetaOutput) (o : MetaOutput)
    (more : List MetaOutput) (main_output : MetaOutput) (width height x y number : Int) :
    (meta_logical_monitor_new l.length
        { is_active := true, main_output := main_output, outputs := l ++ o :: more,
          width := width, height := height } x y number).map
      (fun m => (m.logical_monitor.outputs l.length, m.logical_monitor.n_outputs)) =
      some (some o, l.length) ∧
    (meta_logical_monitor_add_monitor l.length
        { logical_monitor := MetaLogicalMonitor.zeroed, crtc_logical_monitor := [],
          warnings := [] }
        { is_active := true, main_output := main_output, outputs := l ++ o :: more,
          width := width, height := height }).logical_monitor.outputs l.length = some o ∧
    (meta_logical_monitor_add_monitor l.length
        { logical_monitor := MetaLogicalMonitor.zeroed, crtc_logical_monitor := [],
          warnings := [] }
        { is_active := true, main_output := main_output, outputs := l ++ o :: more,
          width := width, height := height }).logical_monitor.n_outputs = l.length := by
  refine ⟨?_, ?_, ?_⟩
  · obtain ⟨m, hm, ho, hn⟩ := logical_monitor_new_outputs l.length
      { is_active := true, main_output := main_output, outputs := l ++ o :: more,
        width := width, height := height } x y number rfl
    rw [hm]
    simp only [Option.map_some', Option.some.injEq, Prod.mk.injEq]
    constructor
    · rw [ho, ← output_after_prefix l o more]
      simp
    · rw [hn]
      simp
  · rw [(logical_monitor_add_monitor_outputs _ _ _).1, ← output_after_prefix l o more]
    simp [MetaLogicalMonitor.zeroed]
  · rw [(logical_monitor_add_monitor_outputs _ _ _).2]
    simp [MetaLogicalMonitor.zeroed]

end Mutter
